import Mathlib

/-!
Verification development for the Varicose-Vein nanobot-treatment repository.

The repository is a set of Python animation scripts.  This file gives a
shallow embedding of the three models that the specification's testable
properties talk about:

* the metro-train coach-rotation / clot-dissolution state machine of
  `metro_train_final_correct.py`;
* the role-based swarm simulation on a branching vein network of
  `run_swarm_vein_sim.py`;
* the flow-redirection swarm simulation of `run_flow_redirection_swarm_sim.py`.

Python floats are modelled by exact rationals (ℚ); all constants of the
scripts are exactly representable.  Irrational geometric quantities
(`math.hypot` segment lengths, `math.sin` pulses) are passed as parameters
about which only the bounds actually used by the code are assumed.
Python's `random.Random` object is modelled as an explicit deterministic
stream of values together with explicit shuffle functions, so that each
run is a pure function of the seed material.
-/

set_option maxRecDepth 40000

namespace VeinSim

attribute [local semireducible] Rat.add Rat.mul Rat.sub Rat.inv Rat.ofScientific

/-- `clamp` from the swarm scripts: `max(low, min(high, value))`. -/
def clamp (value low high : ℚ) : ℚ := max low (min high value)

lemma le_clamp (value low high : ℚ) : low ≤ clamp value low high :=
  le_max_left _ _

lemma clamp_le (value low high : ℚ) (h : low ≤ high) : clamp value low high ≤ high :=
  max_le h (min_le_left _ _)

lemma clamp_mem (value low high : ℚ) (h : low ≤ high) :
    low ≤ clamp value low high ∧ clamp value low high ≤ high :=
  ⟨le_clamp _ _ _, clamp_le _ _ _ h⟩

/-! ## Metro-train model (`metro_train_final_correct.py`) -/

namespace Metro

/-- The `current_state` strings of `MetroTrainSwarm`. -/
inductive TrainState where
  | ENTERING
  | APPROACHING
  | DELIVERING
  | EXITING
  | COMPLETE
deriving DecidableEq, Repr

/-- `NanobotCoach.__init__`.  `label` is the coach index (0 = C1 … 4 = C5);
it also models Python object identity (labels are pairwise distinct).
The unused `pos` attribute is omitted. -/
structure Coach where
  label : ℕ
  x : ℚ
  y : ℚ
  medicineCapacity : ℚ
  medicineCurrent : ℚ
  inFormation : Bool
  atClot : Bool
  deliveredAmount : ℚ
deriving DecidableEq, Repr

/-- `NanobotCoach.dispense_medicine`: returns the dispensed amount together
with the updated coach. -/
def Coach.dispenseMedicine (c : Coach) (mlPerFrame : ℚ) : ℚ × Coach :=
  let dispensed := min mlPerFrame c.medicineCurrent
  (dispensed,
    { c with
      medicineCurrent := c.medicineCurrent - dispensed
      deliveredAmount := c.deliveredAmount + dispensed })

/-- `MetroTrainSwarm`.  The write-only `delivery_log`, the derived `time`
and the rendering-only `catheter_y`/`target_y`/`max_frames`/
`medicine_threshold` attributes are omitted: none of them feeds back into
the update rules. -/
structure Swarm where
  coaches : List Coach
  clotRequired : ℚ
  dissolutionPerMl : ℚ
  catheterX : ℚ
  targetX : ℚ
  frame : ℕ
  clotRemaining : ℚ
  totalMedicineApplied : ℚ
  currentState : TrainState
  deliveryCycleCount : ℕ
  medicineEffect : ℚ
  treatmentComplete : Bool
deriving DecidableEq, Repr

/-- The in-formation coaches (`get_formation` without the sort; the sort
only fixes iteration order, which no update rule depends on — the leader
and the leftmost coach are recovered by `maxByX` / `minByX` below). -/
def Swarm.formation (s : Swarm) : List Coach :=
  s.coaches.filter (·.inFormation)

/-- Python `max(formation, key=lambda c: c.x)`: the first coach attaining
the maximal `x` (formation `x`s are pairwise distinct in every run). -/
def maxByX : List Coach → Option Coach
  | [] => none
  | c :: cs => some (cs.foldl (fun best d => if d.x > best.x then d else best) c)

/-- Python `min(formation, key=lambda c: c.x)`. -/
def minByX : List Coach → Option Coach
  | [] => none
  | c :: cs => some (cs.foldl (fun best d => if d.x < best.x then d else best) c)

/-- `get_leader`: rightmost coach in formation. -/
def Swarm.leader (s : Swarm) : Option Coach := maxByX s.formation

/-- `get_waiting_coaches`. -/
def Swarm.waitingCoaches (s : Swarm) : List Coach :=
  s.coaches.filter (·.atClot)

/-- Apply a mutation to every coach currently in formation. -/
def Swarm.mapFormation (s : Swarm) (f : Coach → Coach) : Swarm :=
  { s with coaches := s.coaches.map (fun c => if c.inFormation then f c else c) }

/-- Replace the coach carrying the given label (Python mutates the coach
object in place; labels model object identity). -/
def Swarm.setCoach (s : Swarm) (c : Coach) : Swarm :=
  { s with coaches := s.coaches.map (fun d => if d.label = c.label then c else d) }

/-- `MetroTrainSwarm.move_formation`. -/
def Swarm.moveFormation (s : Swarm) : Swarm :=
  match s.leader with
  | none => s
  | some L =>
    let dist := s.targetX - L.x
    if s.currentState = .ENTERING then
      if L.x < s.catheterX + 60 then
        s.mapFormation (fun c => { c with x := c.x + 3.0 })
      else
        { s with currentState := .APPROACHING }
    else if s.currentState = .APPROACHING then
      if dist > 5 then
        let vx : ℚ :=
          if dist > 300 then 4.0
          else if dist > 200 then 3.5
          else if dist > 100 then 3.0
          else if dist > 50 then 2.0
          else if dist > 20 then 1.0
          else 0.3
        s.mapFormation (fun c => { c with x := c.x + vx })
      else
        { s with currentState := .DELIVERING }
    else s

/-- `MetroTrainSwarm.deliver_medicine_to_clot`. -/
def Swarm.deliverMedicineToClot (s : Swarm) : Swarm :=
  if s.currentState ≠ .DELIVERING ∨ s.clotRemaining ≤ 0 then s
  else
    match s.leader with
    | none => s
    | some L =>
      let dist := |s.targetX - L.x|
      if dist ≤ 15 then
        if L.medicineCurrent > 0 then
          let r := L.dispenseMedicine 0.05
          let dissolution := r.1 * s.dissolutionPerMl
          { s.setCoach r.2 with
            totalMedicineApplied := s.totalMedicineApplied + r.1
            medicineEffect := s.medicineEffect + r.1
            clotRemaining := max 0 (s.clotRemaining - dissolution) }
        else
          { s.setCoach { L with inFormation := false, atClot := true } with
            deliveryCycleCount := s.deliveryCycleCount + 1
            currentState := .APPROACHING }
      else s

/-- `MetroTrainSwarm.attach_waiting_coaches`.  The leftmost coach is taken
from the formation as it was before the loop, exactly as in the source. -/
def Swarm.attachWaitingCoaches (s : Swarm) : Swarm :=
  match s.leader, minByX s.formation with
  | some L, some leftmost =>
    if s.waitingCoaches = [] then s
    else if |s.targetX - L.x| ≤ 30 then
      { s with
        coaches := s.coaches.map (fun c =>
          if c.atClot then
            { c with atClot := false, inFormation := true,
                     x := leftmost.x - 35, y := leftmost.y }
          else c) }
    else s
  | _, _ => s

/-- `MetroTrainSwarm.check_clot_dissolved`. -/
def Swarm.checkClotDissolved (s : Swarm) : Swarm :=
  if s.clotRemaining ≤ 0 then
    { s with treatmentComplete := true, currentState := .EXITING }
  else s

/-- `MetroTrainSwarm.exit_treatment`. -/
def Swarm.exitTreatment (s : Swarm) : Swarm :=
  if s.currentState ≠ .EXITING then s
  else
    let s2 := s.mapFormation (fun c =>
      if c.x > s.catheterX + 25 then { c with x := c.x - 4.0 } else c)
    if (∀ c ∈ s2.coaches, c.inFormation = true → c.x ≤ s2.catheterX + 25) ∧
        s2.waitingCoaches = [] then
      { s2 with currentState := .COMPLETE }
    else s2

/-- `MetroTrainSwarm.update` (one frame). -/
def Swarm.update (s : Swarm) : Swarm :=
  let s1 := if s.clotRemaining ≤ 0 then s.checkClotDissolved else s
  let s2 :=
    if s1.currentState = .ENTERING ∨ s1.currentState = .APPROACHING ∨
        s1.currentState = .DELIVERING then
      s1.moveFormation.deliverMedicineToClot.attachWaitingCoaches
    else s1
  let s3 := s2.exitTreatment
  { s3 with
    medicineEffect := max 0 (s3.medicineEffect - 0.15)
    frame := s3.frame + 1 }

/-- `MetroTrainSwarm.is_complete`. -/
def Swarm.isComplete (s : Swarm) : Prop := s.currentState = .COMPLETE

instance (s : Swarm) : Decidable s.isComplete := by
  unfold Swarm.isComplete; infer_instance

/-- The five coaches created by `MetroTrainSwarm.__init__`
(`coach_x = catheter_x + pos * coach_spacing`, spacing 35). -/
def initCoaches : List Coach :=
  (List.range 5).map (fun i =>
    { label := i
      x := 50 + 35 * (i : ℚ)
      y := 500
      medicineCapacity := 2.0
      medicineCurrent := 2.0
      inFormation := true
      atClot := false
      deliveredAmount := 0 })

/-- `MetroTrainSwarm(medicine_per_coach=2.0, clot_required=6.5)` as built
by `main`. -/
def initSwarm : Swarm :=
  { coaches := initCoaches
    clotRequired := 6.5
    dissolutionPerMl := 100.0 / 6.5
    catheterX := 50
    targetX := 700
    frame := 0
    clotRemaining := 100.0
    totalMedicineApplied := 0
    currentState := .ENTERING
    deliveryCycleCount := 0
    medicineEffect := 0
    treatmentComplete := false }

/-- The state after `n` calls of `update()` starting from the initial
swarm. -/
def run : ℕ → Swarm
  | 0 => initSwarm
  | n + 1 => (run n).update

/-- Helper to write computed coach literals compactly. -/
def mkC (label : ℕ) (x med delivered : ℚ) (inF atC : Bool) : Coach :=
  { label := label, x := x, y := 500, medicineCapacity := 2, medicineCurrent := med,
    inFormation := inF, atClot := atC, deliveredAmount := delivered }

/-- Helper to write computed swarm-state literals compactly. -/
def mkMetro (coaches : List Coach) (frame : ℕ) (clot total : ℚ) (st : TrainState)
    (cyc : ℕ) (eff : ℚ) (tc : Bool) : Swarm :=
  { coaches := coaches, clotRequired := 13/2, dissolutionPerMl := 200/13, catheterX := 50,
    targetX := 700, frame := frame, clotRemaining := clot, totalMedicineApplied := total,
    currentState := st, deliveryCycleCount := cyc, medicineEffect := eff,
    treatmentComplete := tc }

/-- The metro-train state after 30 ticks (computed literal, used to chunk kernel evaluation). -/
def metroState30 : Swarm :=
  mkMetro [mkC 0 166 2 0 true false,
    mkC 1 201 2 0 true false,
    mkC 2 236 2 0 true false,
    mkC 3 271 2 0 true false,
    mkC 4 306 2 0 true false]
    30 100 0 .APPROACHING 0 0 false

/-- The metro-train state after 60 ticks (computed literal, used to chunk kernel evaluation). -/
def metroState60 : Swarm :=
  mkMetro [mkC 0 283 2 0 true false,
    mkC 1 318 2 0 true false,
    mkC 2 353 2 0 true false,
    mkC 3 388 2 0 true false,
    mkC 4 423 2 0 true false]
    60 100 0 .APPROACHING 0 0 false

/-- The metro-train state after 90 ticks (computed literal, used to chunk kernel evaluation). -/
def metroState90 : Swarm :=
  mkMetro [mkC 0 384 2 0 true false,
    mkC 1 419 2 0 true false,
    mkC 2 454 2 0 true false,
    mkC 3 489 2 0 true false,
    mkC 4 524 2 0 true false]
    90 100 0 .APPROACHING 0 0 false

/-- The metro-train state after 120 ticks (computed literal, used to chunk kernel evaluation). -/
def metroState120 : Swarm :=
  mkMetro [mkC 0 470 2 0 true false,
    mkC 1 505 2 0 true false,
    mkC 2 540 2 0 true false,
    mkC 3 575 2 0 true false,
    mkC 4 610 2 0 true false]
    120 100 0 .APPROACHING 0 0 false

/-- The metro-train state after 150 ticks (computed literal, used to chunk kernel evaluation). -/
def metroState150 : Swarm :=
  mkMetro [mkC 0 520 2 0 true false,
    mkC 1 555 2 0 true false,
    mkC 2 590 2 0 true false,
    mkC 3 625 2 0 true false,
    mkC 4 660 2 0 true false]
    150 100 0 .APPROACHING 0 0 false

/-- The metro-train state after 180 ticks (computed literal, used to chunk kernel evaluation). -/
def metroState180 : Swarm :=
  mkMetro [mkC 0 543 2 0 true false,
    mkC 1 578 2 0 true false,
    mkC 2 613 2 0 true false,
    mkC 3 648 2 0 true false,
    mkC 4 683 2 0 true false]
    180 100 0 .APPROACHING 0 0 false

/-- The metro-train state after 210 ticks (computed literal, used to chunk kernel evaluation). -/
def metroState210 : Swarm :=
  mkMetro [mkC 0 552 2 0 true false,
    mkC 1 587 2 0 true false,
    mkC 2 622 2 0 true false,
    mkC 3 657 2 0 true false,
    mkC 4 692 2 0 true false]
    210 100 0 .APPROACHING 0 0 false

/-- The metro-train state after 240 ticks (computed literal, used to chunk kernel evaluation). -/
def metroState240 : Swarm :=
  mkMetro [mkC 0 555 2 0 true false,
    mkC 1 590 2 0 true false,
    mkC 2 625 2 0 true false,
    mkC 3 660 2 0 true false,
    mkC 4 695 1 1 true false]
    240 (1100/13 : ℚ) 1 .DELIVERING 0 0 false

/-- The metro-train state after 270 ticks (computed literal, used to chunk kernel evaluation). -/
def metroState270 : Swarm :=
  mkMetro [mkC 0 564 2 0 true false,
    mkC 1 599 2 0 true false,
    mkC 2 634 2 0 true false,
    mkC 3 669 2 0 true false,
    mkC 4 695 0 2 false true]
    270 (900/13 : ℚ) 2 .APPROACHING 1 0 false

/-- The metro-train state after 300 ticks (computed literal, used to chunk kernel evaluation). -/
def metroState300 : Swarm :=
  mkMetro [mkC 0 (5807/10 : ℚ) 2 0 true false,
    mkC 1 (6157/10 : ℚ) 2 0 true false,
    mkC 2 (6507/10 : ℚ) 2 0 true false,
    mkC 3 (6857/10 : ℚ) 2 0 true false,
    mkC 4 (5457/10 : ℚ) 0 2 true false]
    300 (900/13 : ℚ) 2 .APPROACHING 1 0 false

/-- The metro-train state after 330 ticks (computed literal, used to chunk kernel evaluation). -/
def metroState330 : Swarm :=
  mkMetro [mkC 0 (5897/10 : ℚ) 2 0 true false,
    mkC 1 (6247/10 : ℚ) 2 0 true false,
    mkC 2 (6597/10 : ℚ) 2 0 true false,
    mkC 3 (6947/10 : ℚ) 2 0 true false,
    mkC 4 (5547/10 : ℚ) 0 2 true false]
    330 (900/13 : ℚ) 2 .APPROACHING 1 0 false

/-- The metro-train state after 360 ticks (computed literal, used to chunk kernel evaluation). -/
def metroState360 : Swarm :=
  mkMetro [mkC 0 590 2 0 true false,
    mkC 1 625 2 0 true false,
    mkC 2 660 2 0 true false,
    mkC 3 695 (11/20 : ℚ) (29/20 : ℚ) true false,
    mkC 4 555 0 2 true false]
    360 (610/13 : ℚ) (69/20 : ℚ) .DELIVERING 1 0 false

/-- The metro-train state after 390 ticks (computed literal, used to chunk kernel evaluation). -/
def metroState390 : Swarm :=
  mkMetro [mkC 0 608 2 0 true false,
    mkC 1 643 2 0 true false,
    mkC 2 678 2 0 true false,
    mkC 3 538 0 2 true false,
    mkC 4 573 0 2 true false]
    390 (500/13 : ℚ) 4 .APPROACHING 2 0 false

/-- The metro-train state after 420 ticks (computed literal, used to chunk kernel evaluation). -/
def metroState420 : Swarm :=
  mkMetro [mkC 0 (3092/5 : ℚ) 2 0 true false,
    mkC 1 (3267/5 : ℚ) 2 0 true false,
    mkC 2 (3442/5 : ℚ) 2 0 true false,
    mkC 3 (2742/5 : ℚ) 0 2 true false,
    mkC 4 (2917/5 : ℚ) 0 2 true false]
    420 (500/13 : ℚ) 4 .APPROACHING 2 0 false

/-- The metro-train state after 450 ticks (computed literal, used to chunk kernel evaluation). -/
def metroState450 : Swarm :=
  mkMetro [mkC 0 625 2 0 true false,
    mkC 1 660 2 0 true false,
    mkC 2 695 (8/5 : ℚ) (2/5 : ℚ) true false,
    mkC 3 555 0 2 true false,
    mkC 4 590 0 2 true false]
    450 (420/13 : ℚ) (22/5 : ℚ) .DELIVERING 2 0 false

/-- The metro-train state after 480 ticks (computed literal, used to chunk kernel evaluation). -/
def metroState480 : Swarm :=
  mkMetro [mkC 0 625 2 0 true false,
    mkC 1 660 2 0 true false,
    mkC 2 695 (1/10 : ℚ) (19/10 : ℚ) true false,
    mkC 3 555 0 2 true false,
    mkC 4 590 0 2 true false]
    480 (120/13 : ℚ) (59/10 : ℚ) .DELIVERING 2 0 false

/-- The metro-train state after 510 ticks (computed literal, used to chunk kernel evaluation). -/
def metroState510 : Swarm :=
  mkMetro [mkC 0 (6471/10 : ℚ) 2 0 true false,
    mkC 1 (6821/10 : ℚ) 2 0 true false,
    mkC 2 (5421/10 : ℚ) 0 2 true false,
    mkC 3 (5771/10 : ℚ) 0 2 true false,
    mkC 4 (6121/10 : ℚ) 0 2 true false]
    510 (100/13 : ℚ) 6 .APPROACHING 3 0 false

/-- The metro-train state after 540 ticks (computed literal, used to chunk kernel evaluation). -/
def metroState540 : Swarm :=
  mkMetro [mkC 0 (6561/10 : ℚ) 2 0 true false,
    mkC 1 (6911/10 : ℚ) 2 0 true false,
    mkC 2 (5511/10 : ℚ) 0 2 true false,
    mkC 3 (5861/10 : ℚ) 0 2 true false,
    mkC 4 (6211/10 : ℚ) 0 2 true false]
    540 (100/13 : ℚ) 6 .APPROACHING 3 0 false

/-- The metro-train state after 570 ticks (computed literal, used to chunk kernel evaluation). -/
def metroState570 : Swarm :=
  mkMetro [mkC 0 632 2 0 true false,
    mkC 1 667 (3/2 : ℚ) (1/2 : ℚ) true false,
    mkC 2 527 0 2 true false,
    mkC 3 562 0 2 true false,
    mkC 4 597 0 2 true false]
    570 0 (13/2 : ℚ) .EXITING 3 0 true

/-- The metro-train state after 600 ticks (computed literal, used to chunk kernel evaluation). -/
def metroState600 : Swarm :=
  mkMetro [mkC 0 512 2 0 true false,
    mkC 1 547 (3/2 : ℚ) (1/2 : ℚ) true false,
    mkC 2 407 0 2 true false,
    mkC 3 442 0 2 true false,
    mkC 4 477 0 2 true false]
    600 0 (13/2 : ℚ) .EXITING 3 0 true

/-- The metro-train state after 630 ticks (computed literal, used to chunk kernel evaluation). -/
def metroState630 : Swarm :=
  mkMetro [mkC 0 392 2 0 true false,
    mkC 1 427 (3/2 : ℚ) (1/2 : ℚ) true false,
    mkC 2 287 0 2 true false,
    mkC 3 322 0 2 true false,
    mkC 4 357 0 2 true false]
    630 0 (13/2 : ℚ) .EXITING 3 0 true

/-- The metro-train state after 660 ticks (computed literal, used to chunk kernel evaluation). -/
def metroState660 : Swarm :=
  mkMetro [mkC 0 272 2 0 true false,
    mkC 1 307 (3/2 : ℚ) (1/2 : ℚ) true false,
    mkC 2 167 0 2 true false,
    mkC 3 202 0 2 true false,
    mkC 4 237 0 2 true false]
    660 0 (13/2 : ℚ) .EXITING 3 0 true

/-- The metro-train state after 690 ticks (computed literal, used to chunk kernel evaluation). -/
def metroState690 : Swarm :=
  mkMetro [mkC 0 152 2 0 true false,
    mkC 1 187 (3/2 : ℚ) (1/2 : ℚ) true false,
    mkC 2 75 0 2 true false,
    mkC 3 82 0 2 true false,
    mkC 4 117 0 2 true false]
    690 0 (13/2 : ℚ) .EXITING 3 0 true

/-- The metro-train state after 718 ticks (computed literal, used to chunk kernel evaluation). -/
def metroState718 : Swarm :=
  mkMetro [mkC 0 72 2 0 true false,
    mkC 1 75 (3/2 : ℚ) (1/2 : ℚ) true false,
    mkC 2 75 0 2 true false,
    mkC 3 74 0 2 true false,
    mkC 4 73 0 2 true false]
    718 0 (13/2 : ℚ) .COMPLETE 3 0 true



/-! ### Structural lemmas for the metro model -/

/-- The projections of a coach that the invariants depend on
(label, capacity, current medicine, delivered total). -/
def Coach.data (c : Coach) : ℕ × ℚ × ℚ × ℚ :=
  (c.label, c.medicineCapacity, c.medicineCurrent, c.deliveredAmount)

lemma foldl_max_mem (cs : List Coach) (c : Coach) :
    cs.foldl (fun best d => if d.x > best.x then d else best) c ∈ c :: cs := by
  induction cs generalizing c with
  | nil => simp
  | cons d l ih =>
    rw [List.foldl_cons]
    rcases List.mem_cons.mp (ih (if d.x > c.x then d else c)) with h1 | h1
    · rw [h1]
      split
      · exact List.mem_cons_of_mem _ (List.mem_cons_self _ _)
      · exact List.mem_cons_self _ _
    · exact List.mem_cons_of_mem _ (List.mem_cons_of_mem _ h1)

lemma maxByX_mem {l : List Coach} {c : Coach} (h : maxByX l = some c) : c ∈ l := by
  cases l with
  | nil => simp [maxByX] at h
  | cons a l =>
    simp only [maxByX, Option.some_inj] at h
    rw [← h]
    exact foldl_max_mem l a

lemma leader_mem {s : Swarm} {L : Coach} (h : s.leader = some L) : L ∈ s.coaches :=
  (List.mem_filter.mp (maxByX_mem h)).1

/-- All the state that the numeric invariants depend on and that is shared
untouched by the movement-only operations. -/
def SameCore (s t : Swarm) : Prop :=
  t.clotRemaining = s.clotRemaining ∧
  t.totalMedicineApplied = s.totalMedicineApplied ∧
  t.dissolutionPerMl = s.dissolutionPerMl ∧
  t.currentState = s.currentState ∧
  t.coaches.map Coach.data = s.coaches.map Coach.data

lemma SameCore.refl (s : Swarm) : SameCore s s := ⟨rfl, rfl, rfl, rfl, rfl⟩

lemma data_map_branch (l : List Coach) (p : Coach → Bool) (f : Coach → Coach)
    (hf : ∀ c, (f c).data = c.data) :
    (l.map (fun c => if p c then f c else c)).map Coach.data = l.map Coach.data := by
  rw [List.map_map]
  refine List.map_congr_left (fun c _ => ?_)
  by_cases h : p c = true <;> simp [h, hf]

lemma mapFormation_core (s : Swarm) (f : Coach → Coach)
    (hf : ∀ c, (f c).data = c.data) : SameCore s (s.mapFormation f) := by
  refine ⟨rfl, rfl, rfl, rfl, ?_⟩
  exact data_map_branch _ _ _ hf

lemma moveFormation_core (s : Swarm) :
    SameCore s s.moveFormation ∨ s.moveFormation = { s with currentState := .APPROACHING }
      ∨ s.moveFormation = { s with currentState := .DELIVERING } := by
  unfold Swarm.moveFormation
  cases h : s.leader with
  | none => exact Or.inl (SameCore.refl s)
  | some L =>
    dsimp only
    split_ifs <;>
      first
        | exact Or.inl (SameCore.refl s)
        | exact Or.inl (mapFormation_core s _ (fun c => rfl))
        | exact Or.inr (Or.inl rfl)
        | exact Or.inr (Or.inr rfl)

lemma attach_core (s : Swarm) : SameCore s s.attachWaitingCoaches := by
  unfold Swarm.attachWaitingCoaches
  cases h1 : s.leader with
  | none => exact SameCore.refl s
  | some L =>
    cases h2 : minByX s.formation with
    | none => exact SameCore.refl s
    | some leftmost =>
      dsimp only
      split_ifs with h3 h4
      · exact SameCore.refl s
      · exact ⟨rfl, rfl, rfl, rfl, data_map_branch _ _ _ (fun c => rfl)⟩
      · exact SameCore.refl s

lemma exit_core (s : Swarm) :
    SameCore s s.exitTreatment ∨
      ∃ t, SameCore s t ∧ s.exitTreatment = { t with currentState := .COMPLETE } := by
  unfold Swarm.exitTreatment
  dsimp only
  split_ifs with h1 h2
  · exact Or.inl (SameCore.refl s)
  · exact Or.inr ⟨_, mapFormation_core s _ (fun c => by split <;> rfl), rfl⟩
  · exact Or.inl (mapFormation_core s _ (fun c => by split <;> rfl))

lemma check_eq (s : Swarm) :
    s.checkClotDissolved = s ∨
      s.checkClotDissolved = { s with treatmentComplete := true, currentState := .EXITING } := by
  unfold Swarm.checkClotDissolved
  split
  · exact Or.inr rfl
  · exact Or.inl rfl

/-! ### Numeric invariants of the metro model -/

/-- A coach's medicine level is a nonnegative multiple of the 0.05 ml
dispensed per frame. -/
def CoachMed (c : Coach) : Prop := ∃ m : ℕ, c.medicineCurrent = m * (1/20 : ℚ)

/-- Reachability invariant: the clot level is `100` minus `k` dissolution
quanta of `10/13` percent each (`0.05 ml × 100/6.5 %/ml`) with `k ≤ 130`,
every coach's medicine is a multiple of `0.05`, and the dissolution rate is
the `100/6.5` constant computed in `__init__`. -/
def MetroInv (s : Swarm) : Prop :=
  (∃ k : ℕ, k ≤ 130 ∧ s.clotRemaining = 100 - (k : ℚ) * (10/13 : ℚ)) ∧
  (∀ c ∈ s.coaches, CoachMed c) ∧
  s.dissolutionPerMl = 100 / 6.5

lemma CoachMed_of_data {c d : Coach} (h : c.data = d.data) (hd : CoachMed d) : CoachMed c := by
  obtain ⟨m, hm⟩ := hd
  refine ⟨m, ?_⟩
  have h4 := h
  simp only [Coach.data, Prod.ext_iff] at h4
  rw [h4.2.2.1, hm]

lemma forall_coach_of_data {P : Coach → Prop}
    (hP : ∀ c d, c.data = d.data → P d → P c) {l l2 : List Coach}
    (hmap : l2.map Coach.data = l.map Coach.data) (h : ∀ c ∈ l, P c) :
    ∀ c ∈ l2, P c := by
  intro c hc
  have hmem : c.data ∈ l.map Coach.data := by
    rw [← hmap]; exact List.mem_map_of_mem _ hc
  rcases List.mem_map.mp hmem with ⟨d, hdm, hde⟩
  exact hP c d hde.symm (h d hdm)

lemma MetroInv_of_core {s t : Swarm} (hc : SameCore s t) (h : MetroInv s) : MetroInv t := by
  obtain ⟨hclot, _, hdiss, _, hdata⟩ := hc
  obtain ⟨hk, hmed, hd⟩ := h
  exact ⟨hclot ▸ hk, forall_coach_of_data (fun c d hcd => CoachMed_of_data hcd) hdata hmed,
    hdiss ▸ hd⟩

lemma MetroInv_deliver {s : Swarm} (h : MetroInv s) : MetroInv s.deliverMedicineToClot := by
  unfold Swarm.deliverMedicineToClot
  split_ifs with h0
  · exact h
  cases hl : s.leader with
  | none => exact h
  | some L =>
    dsimp only [Coach.dispenseMedicine]
    push_neg at h0
    obtain ⟨hstate, hclotpos⟩ := h0
    obtain ⟨⟨k, hk, hclot⟩, hmedall, hd⟩ := h
    split_ifs with hdist hmed
    · -- dispense branch
      obtain ⟨m, hm⟩ := hmedall L (leader_mem hl)
      have hm1 : 1 ≤ m := by
        rcases Nat.eq_zero_or_pos m with h0 | h0
        · rw [h0] at hm; rw [hm] at hmed; norm_num at hmed
        · exact h0
      have hminv : min (0.05 : ℚ) L.medicineCurrent = 1/20 := by
        rw [hm]
        refine min_eq_left ?_
        have : (1 : ℚ) ≤ (m : ℚ) := by exact_mod_cast hm1
        nlinarith
      have hklt : k < 130 := by
        rw [hclot] at hclotpos
        have : (k : ℚ) < 130 := by linarith
        exact_mod_cast this
      have hkq : (k : ℚ) ≤ 129 := by exact_mod_cast Nat.lt_succ_iff.mp (by omega : k < 130)
      have key : max 0 (s.clotRemaining - min (0.05 : ℚ) L.medicineCurrent * s.dissolutionPerMl)
          = 100 - ((k + 1 : ℕ) : ℚ) * (10/13 : ℚ) := by
        rw [hminv, hd, hclot, max_eq_right (by norm_num; linarith)]
        push_cast
        ring
      refine ⟨⟨k + 1, by omega, key⟩, ?_, hd⟩
      intro c hc
      rcases List.mem_map.mp hc with ⟨d, hdm, rfl⟩
      split
      · refine ⟨m - 1, ?_⟩
        show L.medicineCurrent - min (0.05 : ℚ) L.medicineCurrent = ((m - 1 : ℕ) : ℚ) * (1/20)
        rw [hminv, hm]
        have : ((m - 1 : ℕ) : ℚ) = (m : ℚ) - 1 := by
          push_cast [Nat.cast_sub hm1]
          ring
        rw [this]
        ring
      · exact hmedall d hdm
    · -- detach branch
      refine ⟨⟨k, hk, hclot⟩, ?_, hd⟩
      intro c hc
      rcases List.mem_map.mp hc with ⟨d, hdm, rfl⟩
      split
      · exact hmedall L (leader_mem hl)
      · exact hmedall d hdm
    · exact ⟨⟨k, hk, hclot⟩, hmedall, hd⟩

/-- Generic preservation principle following the structure of `update`. -/
lemma update_pres {P : Swarm → Prop}
    (hcheck : ∀ t, P t → P t.checkClotDissolved)
    (hmove : ∀ t, P t → P t.moveFormation)
    (hdel : ∀ t, P t → P t.deliverMedicineToClot)
    (hatt : ∀ t, P t → P t.attachWaitingCoaches)
    (hexit : ∀ t, P t → P t.exitTreatment)
    (hrec : ∀ t e n, P t → P { t with medicineEffect := e, frame := n })
    {s : Swarm} (h : P s) : P s.update := by
  unfold Swarm.update
  dsimp only
  apply hrec
  apply hexit
  split
  · split
    · exact hatt _ (hdel _ (hmove _ (hcheck _ h)))
    · exact hcheck _ h
  · split
    · exact hatt _ (hdel _ (hmove _ h))
    · exact h

lemma MetroInv_setState (u : Swarm) (st : TrainState) (h : MetroInv u) :
    MetroInv { u with currentState := st } := h

lemma MetroInv_update {s : Swarm} (h : MetroInv s) : MetroInv s.update := by
  refine update_pres ?_ ?_ (fun t ht => MetroInv_deliver ht) ?_ ?_ ?_ h
  · intro t ht
    rcases check_eq t with he | he <;> rw [he] <;> exact ht
  · intro t ht
    rcases moveFormation_core t with hc | he | he
    · exact MetroInv_of_core hc ht
    · rw [he]; exact ht
    · rw [he]; exact ht
  · intro t ht
    exact MetroInv_of_core (attach_core t) ht
  · intro t ht
    rcases exit_core t with hc | ⟨u, hcu, he⟩
    · exact MetroInv_of_core hc ht
    · rw [he]; exact MetroInv_setState _ _ (MetroInv_of_core hcu ht)
  · intro t e n ht
    exact ht

lemma MetroInv_init : MetroInv initSwarm := by
  refine ⟨⟨0, by omega, by show (100.0 : ℚ) = 100 - ((0 : ℕ) : ℚ) * (10/13); norm_num⟩, ?_,
    by show (100.0 : ℚ) / 6.5 = 100 / 6.5; norm_num⟩
  intro c hc
  rcases List.mem_map.mp hc with ⟨i, _, rfl⟩
  exact ⟨40, by show (2.0 : ℚ) = ((40 : ℕ) : ℚ) * (1/20); norm_num⟩

lemma MetroInv_run (n : ℕ) : MetroInv (run n) := by
  induction n with
  | zero => exact MetroInv_init
  | succ k ih => exact MetroInv_update ih

/-! ### Clot-change characterization (claim C1) -/

lemma clot_effectFrame (t : Swarm) (e : ℚ) (n : ℕ) :
    ({ t with medicineEffect := e, frame := n } : Swarm).clotRemaining = t.clotRemaining := rfl

lemma move_clot (t : Swarm) : t.moveFormation.clotRemaining = t.clotRemaining := by
  rcases moveFormation_core t with hc | he | he
  · exact hc.1
  · rw [he]
  · rw [he]

lemma check_clot (t : Swarm) : t.checkClotDissolved.clotRemaining = t.clotRemaining := by
  rcases check_eq t with he | he <;> rw [he]

lemma attach_clot (t : Swarm) : t.attachWaitingCoaches.clotRemaining = t.clotRemaining :=
  (attach_core t).1

lemma exit_clot (t : Swarm) : t.exitTreatment.clotRemaining = t.clotRemaining := by
  rcases exit_core t with hc | ⟨u, hcu, he⟩
  · exact hc.1
  · rw [he]; exact hcu.1

lemma MetroInv_check {t : Swarm} (ht : MetroInv t) : MetroInv t.checkClotDissolved := by
  rcases check_eq t with he | he <;> rw [he] <;> exact ht

lemma MetroInv_move {t : Swarm} (ht : MetroInv t) : MetroInv t.moveFormation := by
  rcases moveFormation_core t with hc | he | he
  · exact MetroInv_of_core hc ht
  · rw [he]; exact ht
  · rw [he]; exact ht

lemma deliver_clot_le {s : Swarm} (h : MetroInv s) :
    s.deliverMedicineToClot.clotRemaining ≤ s.clotRemaining := by
  obtain ⟨⟨k, hk, hclot⟩, hmedall, hd⟩ := h
  have hclot0 : 0 ≤ s.clotRemaining := by
    rw [hclot]
    have : (k : ℚ) ≤ 130 := by exact_mod_cast hk
    linarith
  unfold Swarm.deliverMedicineToClot
  split_ifs with h0
  · exact le_rfl
  cases hl : s.leader with
  | none => exact le_rfl
  | some L =>
    dsimp only [Coach.dispenseMedicine]
    split_ifs with hdist hmed
    · obtain ⟨m, hm⟩ := hmedall L (leader_mem hl)
      have hmin0 : 0 ≤ min (0.05 : ℚ) L.medicineCurrent :=
        le_min (by norm_num) (by rw [hm]; positivity)
      have hdiss0 : 0 ≤ min (0.05 : ℚ) L.medicineCurrent * s.dissolutionPerMl := by
        rw [hd]; positivity
      show max 0 (s.clotRemaining - min (0.05 : ℚ) L.medicineCurrent * s.dissolutionPerMl)
          ≤ s.clotRemaining
      exact max_le hclot0 (by linarith)
    · exact le_rfl
    · exact le_rfl

lemma update_clot_le {s : Swarm} (h : MetroInv s) :
    s.update.clotRemaining ≤ s.clotRemaining := by
  unfold Swarm.update
  dsimp only
  rw [clot_effectFrame, exit_clot]
  split
  · split
    · rw [attach_clot]
      refine le_trans (deliver_clot_le (MetroInv_move (MetroInv_check h))) ?_
      exact le_of_eq (by rw [move_clot, check_clot])
    · rw [check_clot]
  · split
    · rw [attach_clot]
      refine le_trans (deliver_clot_le (MetroInv_move h)) ?_
      exact le_of_eq (move_clot s)
    · exact le_rfl

lemma moveFormation_of_delivering {s : Swarm} (hst : s.currentState = .DELIVERING) :
    s.moveFormation = s := by
  unfold Swarm.moveFormation
  cases hl : s.leader with
  | none => rfl
  | some L =>
    dsimp only
    rw [if_neg (by simp [hst]), if_neg (by simp [hst])]

lemma update_clot_dispense {s : Swarm} (hInv : MetroInv s) (hst : s.currentState = .DELIVERING)
    (hpos : 0 < s.clotRemaining) {L : Coach} (hl : s.leader = some L)
    (hdist : |s.targetX - L.x| ≤ 15) (hmed : 0 < L.medicineCurrent) :
    s.update.clotRemaining
        = s.clotRemaining - min 0.05 L.medicineCurrent * s.dissolutionPerMl ∧
    s.update.clotRemaining = s.clotRemaining - 0.05 * (100 / 6.5) := by
  have hmove : s.moveFormation = s := moveFormation_of_delivering hst
  have hdel : (s.deliverMedicineToClot).clotRemaining
      = max 0 (s.clotRemaining - min (0.05 : ℚ) L.medicineCurrent * s.dissolutionPerMl) := by
    unfold Swarm.deliverMedicineToClot
    rw [if_neg (by push_neg; exact ⟨hst, hpos⟩)]
    rw [hl]
    dsimp only [Coach.dispenseMedicine]
    rw [if_pos hdist, if_pos hmed]
  have hupd : s.update.clotRemaining
      = max 0 (s.clotRemaining - min (0.05 : ℚ) L.medicineCurrent * s.dissolutionPerMl) := by
    unfold Swarm.update
    dsimp only
    rw [clot_effectFrame, exit_clot]
    rw [if_neg (show ¬ s.clotRemaining ≤ 0 by linarith)]
    rw [if_pos (Or.inr (Or.inr hst))]
    rw [attach_clot, hmove, hdel]
  obtain ⟨⟨k, hk, hclot⟩, hmedall, hd⟩ := hInv
  obtain ⟨m, hm⟩ := hmedall L (leader_mem hl)
  have hm1 : 1 ≤ m := by
    rcases Nat.eq_zero_or_pos m with hz | hp
    · rw [hz] at hm; rw [hm] at hmed; norm_num at hmed
    · exact hp
  have hminv : min (0.05 : ℚ) L.medicineCurrent = 1/20 := by
    rw [hm]
    refine min_eq_left ?_
    have : (1 : ℚ) ≤ (m : ℚ) := by exact_mod_cast hm1
    nlinarith
  have hklt : k < 130 := by
    rw [hclot] at hpos
    have : (k : ℚ) < 130 := by linarith
    exact_mod_cast this
  have hkq : (k : ℚ) ≤ 129 := by exact_mod_cast Nat.lt_succ_iff.mp (by omega : k < 130)
  have hdrop : max 0 (s.clotRemaining - min (0.05 : ℚ) L.medicineCurrent * s.dissolutionPerMl)
      = s.clotRemaining - min (0.05 : ℚ) L.medicineCurrent * s.dissolutionPerMl := by
    rw [hminv, hd, hclot]
    rw [max_eq_right (by norm_num; linarith)]
  constructor
  · rw [hupd, hdrop]
  · rw [hupd, hdrop, hminv, hd]; norm_num

/-! ### Terminal stability (claim C3) -/

/-- Once the train is complete, back at the catheter and nothing waits at
the clot, `update` keeps it that way. -/
def Terminal (s : Swarm) : Prop :=
  s.currentState = .COMPLETE ∧ s.clotRemaining ≤ 0 ∧
  (∀ c ∈ s.coaches, c.inFormation = true → c.x ≤ s.catheterX + 25) ∧
  s.waitingCoaches = []

instance (s : Swarm) : Decidable (Terminal s) := by
  unfold Terminal; infer_instance

lemma terminal_update {s : Swarm} (h : Terminal s) :
    Terminal s.update ∧ s.update.coaches = s.coaches ∧
    s.update.clotRemaining = s.clotRemaining ∧
    s.update.deliveryCycleCount = s.deliveryCycleCount ∧
    s.update.totalMedicineApplied = s.totalMedicineApplied ∧
    s.update.catheterX = s.catheterX := by
  obtain ⟨hst, hclot, hback, hwait⟩ := h
  have hcheck : s.checkClotDissolved
      = { s with treatmentComplete := true, currentState := .EXITING } := by
    unfold Swarm.checkClotDissolved; rw [if_pos hclot]
  have hmap : (({ s with treatmentComplete := true, currentState := .EXITING } : Swarm).mapFormation
      (fun c => if c.x > s.catheterX + 25 then { c with x := c.x - 4.0 } else c))
      = { s with treatmentComplete := true, currentState := .EXITING } := by
    unfold Swarm.mapFormation
    have hid : s.coaches.map (fun c =>
        if c.inFormation then (if c.x > s.catheterX + 25 then { c with x := c.x - 4.0 } else c)
        else c) = s.coaches := by
      have hpt : ∀ c ∈ s.coaches, (if c.inFormation then
          (if c.x > s.catheterX + 25 then { c with x := c.x - 4.0 } else c) else c) = c := by
        intro c hc
        by_cases hf : c.inFormation
        · rw [if_pos hf, if_neg (by push_neg; exact hback c hc hf)]
        · rw [if_neg hf]
      rw [List.map_congr_left hpt, List.map_id']
    rw [hid]
  have hexit : ({ s with treatmentComplete := true, currentState := .EXITING } : Swarm).exitTreatment
      = { s with treatmentComplete := true, currentState := .COMPLETE } := by
    unfold Swarm.exitTreatment
    rw [if_neg (by simp)]
    dsimp only
    rw [hmap]
    rw [if_pos ⟨hback, hwait⟩]
  unfold Swarm.update
  dsimp only
  rw [if_pos hclot, hcheck]
  rw [if_neg (by simp)]
  rw [hexit]
  refine ⟨⟨rfl, hclot, hback, hwait⟩, rfl, rfl, rfl, rfl, rfl⟩

/-! ### Medicine accounting (claims C10 and C2) -/

/-- Total delivered medicine summed over the per-coach logs. -/
def sumDelivered (s : Swarm) : ℚ := (s.coaches.map (·.deliveredAmount)).sum

/-- The coach labels are exactly C1 … C5 (pairwise distinct, modelling
Python object identity). -/
def LabelsOK (s : Swarm) : Prop := s.coaches.map Coach.label = [0, 1, 2, 3, 4]

/-- Accounting invariant: the global total equals the sum of the per-coach
delivered amounts, and medicine levels are nonnegative. -/
def MedAcc (s : Swarm) : Prop :=
  LabelsOK s ∧ s.totalMedicineApplied = sumDelivered s ∧
  ∀ c ∈ s.coaches, 0 ≤ c.medicineCurrent

lemma map_label_of_data {l l2 : List Coach} (hmap : l2.map Coach.data = l.map Coach.data) :
    l2.map Coach.label = l.map Coach.label := by
  have h1 := congrArg (List.map Prod.fst) hmap
  rw [List.map_map, List.map_map] at h1
  exact h1

lemma map_delivered_of_data {l l2 : List Coach}
    (hmap : l2.map Coach.data = l.map Coach.data) :
    l2.map (·.deliveredAmount) = l.map (·.deliveredAmount) := by
  have h1 := congrArg (List.map (fun p : ℕ × ℚ × ℚ × ℚ => p.2.2.2)) hmap
  rw [List.map_map, List.map_map] at h1
  exact h1

lemma MedAcc_of_core {s t : Swarm} (hc : SameCore s t) (h : MedAcc s) : MedAcc t := by
  obtain ⟨_, htot, _, _, hdata⟩ := hc
  obtain ⟨hlab, hsum, hmed⟩ := h
  refine ⟨?_, ?_, ?_⟩
  · unfold LabelsOK
    rw [map_label_of_data hdata]
    exact hlab
  · unfold sumDelivered
    rw [map_delivered_of_data hdata, htot]
    exact hsum
  · exact forall_coach_of_data (fun c d hcd hd => by
      have h4 := hcd
      simp only [Coach.data, Prod.ext_iff] at h4
      rw [h4.2.2.1]
      exact hd) hdata hmed

lemma sum_delivered_set {l : List Coach} {L c : Coach} (hnd : (l.map Coach.label).Nodup)
    (hL : L ∈ l) (hlab : c.label = L.label) :
    ((l.map (fun d => if d.label = L.label then c else d)).map (·.deliveredAmount)).sum
      = (l.map (·.deliveredAmount)).sum - L.deliveredAmount + c.deliveredAmount := by
  induction l with
  | nil => cases hL
  | cons a l ih =>
    simp only [List.map_cons, List.nodup_cons] at hnd
    by_cases ha : a.label = L.label
    · have hnotin : ∀ d ∈ l, ¬ d.label = L.label := by
        intro d hd hdl
        exact hnd.1 (by rw [ha, ← hdl]; exact List.mem_map_of_mem _ hd)
      have hLa : L = a := by
        rcases List.mem_cons.mp hL with h | h
        · exact h
        · exact absurd rfl (hnotin L h)
      have hmapid : l.map (fun d => if d.label = L.label then c else d) = l := by
        rw [List.map_congr_left (fun d hd => if_neg (hnotin d hd)), List.map_id']
      simp only [List.map_cons, if_pos ha, hmapid, List.sum_cons]
      rw [hLa]
      ring
    · have hL2 : L ∈ l := by
        rcases List.mem_cons.mp hL with h | h
        · exact absurd (by rw [h]) ha
        · exact h
      simp only [List.map_cons, if_neg ha, List.sum_cons]
      rw [ih hnd.2 hL2]
      ring

lemma labels_set (l : List Coach) (lab : ℕ) (c : Coach) (hlab : c.label = lab) :
    (l.map (fun d => if d.label = lab then c else d)).map Coach.label
      = l.map Coach.label := by
  rw [List.map_map]
  refine List.map_congr_left (fun d hd => ?_)
  by_cases hdl : d.label = lab
  · simp [hdl, hlab]
  · simp [hdl]

lemma MedAcc_deliver {s : Swarm} (h : MedAcc s) :
    MedAcc s.deliverMedicineToClot ∧
    s.totalMedicineApplied ≤ s.deliverMedicineToClot.totalMedicineApplied ∧
    sumDelivered s ≤ sumDelivered s.deliverMedicineToClot := by
  obtain ⟨hlab, hsum, hmed⟩ := h
  have hnd : (s.coaches.map Coach.label).Nodup := by rw [hlab]; decide
  have hsum' : s.totalMedicineApplied = (s.coaches.map (·.deliveredAmount)).sum := hsum
  unfold Swarm.deliverMedicineToClot
  split_ifs with h0
  · exact ⟨⟨hlab, hsum, hmed⟩, le_rfl, le_rfl⟩
  cases hl : s.leader with
  | none => exact ⟨⟨hlab, hsum, hmed⟩, le_rfl, le_rfl⟩
  | some L =>
    have hLmem := leader_mem hl
    have hL0 := hmed L hLmem
    dsimp only [Coach.dispenseMedicine, Swarm.setCoach]
    split_ifs with hdist hmedpos
    · -- dispense branch
      have hd0 : 0 ≤ min (0.05 : ℚ) L.medicineCurrent := le_min (by norm_num) hL0
      have hsum2 := sum_delivered_set (l := s.coaches)
        (L := L) (c := { L with
          medicineCurrent := L.medicineCurrent - min (0.05 : ℚ) L.medicineCurrent,
          deliveredAmount := L.deliveredAmount + min (0.05 : ℚ) L.medicineCurrent })
        hnd hLmem rfl
      refine ⟨⟨?_, ?_, ?_⟩, ?_, ?_⟩
      · exact (labels_set s.coaches L.label { L with
          medicineCurrent := L.medicineCurrent - min (0.05 : ℚ) L.medicineCurrent,
          deliveredAmount := L.deliveredAmount + min (0.05 : ℚ) L.medicineCurrent }
          rfl).trans hlab
      · refine Eq.trans ?_ hsum2.symm
        rw [hsum']
        dsimp only
        ring
      · intro c hc
        rcases List.mem_map.mp hc with ⟨d, hdm, rfl⟩
        split
        · show 0 ≤ L.medicineCurrent - min (0.05 : ℚ) L.medicineCurrent
          have := min_le_right (0.05 : ℚ) L.medicineCurrent
          linarith
        · exact hmed d hdm
      · show s.totalMedicineApplied
            ≤ s.totalMedicineApplied + min (0.05 : ℚ) L.medicineCurrent
        linarith
      · refine le_trans ?_ (le_of_eq hsum2.symm)
        show (s.coaches.map (·.deliveredAmount)).sum ≤ _
        dsimp only
        linarith
    · -- detach branch
      have hsum2 := sum_delivered_set (l := s.coaches)
        (L := L) (c := { L with inFormation := false, atClot := true }) hnd hLmem rfl
      refine ⟨⟨?_, ?_, ?_⟩, le_rfl, ?_⟩
      · exact (labels_set s.coaches L.label
          { L with inFormation := false, atClot := true } rfl).trans hlab
      · refine Eq.trans ?_ hsum2.symm
        rw [hsum']
        dsimp only
        ring
      · intro c hc
        rcases List.mem_map.mp hc with ⟨d, hdm, rfl⟩
        split
        · exact hL0
        · exact hmed d hdm
      · refine le_trans ?_ (le_of_eq hsum2.symm)
        show (s.coaches.map (·.deliveredAmount)).sum ≤ _
        dsimp only
        linarith
    · exact ⟨⟨hlab, hsum, hmed⟩, le_rfl, le_rfl⟩

lemma MedAcc_setState (u : Swarm) (st : TrainState) (h : MedAcc u) :
    MedAcc { u with currentState := st } := h

lemma MedAcc_update {s : Swarm} (h : MedAcc s) : MedAcc s.update := by
  refine update_pres (P := MedAcc) ?_ ?_ (fun t ht => (MedAcc_deliver ht).1) ?_ ?_ ?_ h
  · intro t ht
    rcases check_eq t with he | he <;> rw [he] <;> exact ht
  · intro t ht
    rcases moveFormation_core t with hc | he | he
    · exact MedAcc_of_core hc ht
    · rw [he]; exact ht
    · rw [he]; exact ht
  · intro t ht
    exact MedAcc_of_core (attach_core t) ht
  · intro t ht
    rcases exit_core t with hc | ⟨u, hcu, he⟩
    · exact MedAcc_of_core hc ht
    · rw [he]; exact MedAcc_setState _ _ (MedAcc_of_core hcu ht)
  · intro t e n ht
    exact ht

lemma total_effectFrame (t : Swarm) (e : ℚ) (n : ℕ) :
    ({ t with medicineEffect := e, frame := n } : Swarm).totalMedicineApplied
      = t.totalMedicineApplied := rfl

lemma sumDelivered_effectFrame (t : Swarm) (e : ℚ) (n : ℕ) :
    sumDelivered { t with medicineEffect := e, frame := n } = sumDelivered t := rfl

lemma move_total (t : Swarm) : t.moveFormation.totalMedicineApplied = t.totalMedicineApplied := by
  rcases moveFormation_core t with hc | he | he
  · exact hc.2.1
  · rw [he]
  · rw [he]

lemma check_total (t : Swarm) :
    t.checkClotDissolved.totalMedicineApplied = t.totalMedicineApplied := by
  rcases check_eq t with he | he <;> rw [he]

lemma attach_total (t : Swarm) :
    t.attachWaitingCoaches.totalMedicineApplied = t.totalMedicineApplied :=
  (attach_core t).2.1

lemma exit_total (t : Swarm) :
    t.exitTreatment.totalMedicineApplied = t.totalMedicineApplied := by
  rcases exit_core t with hc | ⟨u, hcu, he⟩
  · exact hc.2.1
  · rw [he]; exact hcu.2.1

lemma move_delmap (t : Swarm) :
    t.moveFormation.coaches.map (·.deliveredAmount) = t.coaches.map (·.deliveredAmount) := by
  rcases moveFormation_core t with hc | he | he
  · exact map_delivered_of_data hc.2.2.2.2
  · rw [he]
  · rw [he]

lemma check_delmap (t : Swarm) :
    t.checkClotDissolved.coaches.map (·.deliveredAmount) = t.coaches.map (·.deliveredAmount) := by
  rcases check_eq t with he | he <;> rw [he]

lemma attach_delmap (t : Swarm) :
    t.attachWaitingCoaches.coaches.map (·.deliveredAmount) = t.coaches.map (·.deliveredAmount) :=
  map_delivered_of_data (attach_core t).2.2.2.2

lemma exit_delmap (t : Swarm) :
    t.exitTreatment.coaches.map (·.deliveredAmount) = t.coaches.map (·.deliveredAmount) := by
  rcases exit_core t with hc | ⟨u, hcu, he⟩
  · exact map_delivered_of_data hc.2.2.2.2
  · rw [he]
    exact map_delivered_of_data hcu.2.2.2.2

lemma MedAcc_check {t : Swarm} (ht : MedAcc t) : MedAcc t.checkClotDissolved := by
  rcases check_eq t with he | he <;> rw [he] <;> exact ht

lemma MedAcc_move {t : Swarm} (ht : MedAcc t) : MedAcc t.moveFormation := by
  rcases moveFormation_core t with hc | he | he
  · exact MedAcc_of_core hc ht
  · rw [he]; exact ht
  · rw [he]; exact ht

lemma update_total_mono {s : Swarm} (h : MedAcc s) :
    s.totalMedicineApplied ≤ s.update.totalMedicineApplied ∧
    sumDelivered s ≤ sumDelivered s.update := by
  unfold Swarm.update
  unfold sumDelivered
  dsimp only
  rw [exit_total, exit_delmap]
  split
  · split
    · rw [attach_total, attach_delmap]
      have h2 := MedAcc_deliver (MedAcc_move (MedAcc_check h))
      constructor
      · refine le_trans (le_of_eq ?_) h2.2.1
        rw [move_total, check_total]
      · refine le_trans (le_of_eq ?_) h2.2.2
        show (s.coaches.map (·.deliveredAmount)).sum = _
        unfold sumDelivered
        rw [move_delmap, check_delmap]
    · rw [check_total, check_delmap]
      exact ⟨le_rfl, le_rfl⟩
  · split
    · rw [attach_total, attach_delmap]
      have h2 := MedAcc_deliver (MedAcc_move h)
      constructor
      · exact le_trans (le_of_eq (move_total s).symm) h2.2.1
      · refine le_trans (le_of_eq ?_) h2.2.2
        show (s.coaches.map (·.deliveredAmount)).sum = _
        unfold sumDelivered
        rw [move_delmap]
    · exact ⟨le_rfl, le_rfl⟩

lemma MedAcc_init : MedAcc initSwarm := by
  refine ⟨by unfold LabelsOK; decide, by unfold sumDelivered; decide, ?_⟩
  intro c hc
  rcases List.mem_map.mp hc with ⟨i, _, rfl⟩
  show (0 : ℚ) ≤ 2.0
  norm_num

lemma MedAcc_run (n : ℕ) : MedAcc (run n) := by
  induction n with
  | zero => exact MedAcc_init
  | succ k ih => exact MedAcc_update ih

/-! ### Field bounds for the metro model (claim C2) -/

/-- Declared bounds: each coach medicine level lies in `[0, capacity]` and
the clot size in `[0, 100]`. -/
def MetroBounds (s : Swarm) : Prop :=
  (∀ c ∈ s.coaches, 0 ≤ c.medicineCurrent ∧ c.medicineCurrent ≤ c.medicineCapacity) ∧
  0 ≤ s.clotRemaining ∧ s.clotRemaining ≤ 100 ∧ 0 ≤ s.dissolutionPerMl

lemma MetroBounds_of_core {s t : Swarm} (hc : SameCore s t) (h : MetroBounds s) :
    MetroBounds t := by
  obtain ⟨hclot, _, hdiss, _, hdata⟩ := hc
  obtain ⟨hmed, h0, h100, hd⟩ := h
  refine ⟨?_, hclot ▸ h0, hclot ▸ h100, hdiss ▸ hd⟩
  refine forall_coach_of_data (fun c d hcd hd2 => ?_) hdata hmed
  have h4 := hcd
  simp only [Coach.data, Prod.ext_iff] at h4
  rw [h4.2.2.1, h4.2.1]
  exact hd2

lemma MetroBounds_deliver {s : Swarm} (h : MetroBounds s) :
    MetroBounds s.deliverMedicineToClot := by
  obtain ⟨hmed, h0, h100, hd⟩ := h
  unfold Swarm.deliverMedicineToClot
  split_ifs with h0if
  · exact ⟨hmed, h0, h100, hd⟩
  cases hl : s.leader with
  | none => exact ⟨hmed, h0, h100, hd⟩
  | some L =>
    have hLb := hmed L (leader_mem hl)
    dsimp only [Coach.dispenseMedicine, Swarm.setCoach]
    split_ifs with hdist hmedpos
    · have hmin0 : 0 ≤ min (0.05 : ℚ) L.medicineCurrent := le_min (by norm_num) hLb.1
      have hminle := min_le_right (0.05 : ℚ) L.medicineCurrent
      refine ⟨?_, le_max_left _ _, ?_, hd⟩
      · intro c hc
        rcases List.mem_map.mp hc with ⟨d, hdm, rfl⟩
        split
        · constructor
          · show 0 ≤ L.medicineCurrent - min (0.05 : ℚ) L.medicineCurrent
            linarith
          · show L.medicineCurrent - min (0.05 : ℚ) L.medicineCurrent ≤ L.medicineCapacity
            linarith [hLb.2]
        · exact hmed d hdm
      · show max 0 (s.clotRemaining - min (0.05 : ℚ) L.medicineCurrent * s.dissolutionPerMl)
            ≤ 100
        have : 0 ≤ min (0.05 : ℚ) L.medicineCurrent * s.dissolutionPerMl :=
          mul_nonneg hmin0 hd
        exact max_le (by norm_num) (by linarith)
    · refine ⟨?_, h0, h100, hd⟩
      intro c hc
      rcases List.mem_map.mp hc with ⟨d, hdm, rfl⟩
      split
      · exact hmed L (leader_mem hl)
      · exact hmed d hdm
    · exact ⟨hmed, h0, h100, hd⟩

lemma MetroBounds_update {s : Swarm} (h : MetroBounds s) : MetroBounds s.update := by
  refine update_pres (P := MetroBounds) ?_ ?_ (fun t ht => MetroBounds_deliver ht) ?_ ?_ ?_ h
  · intro t ht
    rcases check_eq t with he | he <;> rw [he] <;> exact ht
  · intro t ht
    rcases moveFormation_core t with hc | he | he
    · exact MetroBounds_of_core hc ht
    · rw [he]; exact ht
    · rw [he]; exact ht
  · intro t ht
    exact MetroBounds_of_core (attach_core t) ht
  · intro t ht
    rcases exit_core t with hc | ⟨u, hcu, he⟩
    · exact MetroBounds_of_core hc ht
    · rw [he]
      exact (MetroBounds_of_core hcu ht : MetroBounds u)
  · intro t e n ht
    exact ht

lemma MetroBounds_init : MetroBounds initSwarm := by
  refine ⟨?_, by show (0 : ℚ) ≤ 100.0; norm_num, by show (100.0 : ℚ) ≤ 100; norm_num,
    by show (0 : ℚ) ≤ 100.0 / 6.5; norm_num⟩
  intro c hc
  rcases List.mem_map.mp hc with ⟨i, _, rfl⟩
  constructor
  · show (0 : ℚ) ≤ 2.0
    norm_num
  · show (2.0 : ℚ) ≤ 2.0
    norm_num

lemma MetroBounds_run (n : ℕ) : MetroBounds (run n) := by
  induction n with
  | zero => exact MetroBounds_init
  | succ k ih => exact MetroBounds_update ih

lemma run_add (m n : ℕ) : run (m + n) = Swarm.update^[n] (run m) := by
  induction n with
  | zero => rfl
  | succ k ih => rw [← Nat.add_assoc, run, ih, Function.iterate_succ_apply']

lemma run30_eq : run 30 = metroState30 := by decide

lemma run60_eq : run 60 = metroState60 := by
  rw [show (60 : ℕ) = 30 + 30 from rfl, run_add, run30_eq]
  decide

lemma run90_eq : run 90 = metroState90 := by
  rw [show (90 : ℕ) = 60 + 30 from rfl, run_add, run60_eq]
  decide

lemma run120_eq : run 120 = metroState120 := by
  rw [show (120 : ℕ) = 90 + 30 from rfl, run_add, run90_eq]
  decide

lemma run150_eq : run 150 = metroState150 := by
  rw [show (150 : ℕ) = 120 + 30 from rfl, run_add, run120_eq]
  decide

lemma run180_eq : run 180 = metroState180 := by
  rw [show (180 : ℕ) = 150 + 30 from rfl, run_add, run150_eq]
  decide

lemma run210_eq : run 210 = metroState210 := by
  rw [show (210 : ℕ) = 180 + 30 from rfl, run_add, run180_eq]
  decide

lemma run240_eq : run 240 = metroState240 := by
  rw [show (240 : ℕ) = 210 + 30 from rfl, run_add, run210_eq]
  decide

lemma run270_eq : run 270 = metroState270 := by
  rw [show (270 : ℕ) = 240 + 30 from rfl, run_add, run240_eq]
  decide

lemma run300_eq : run 300 = metroState300 := by
  rw [show (300 : ℕ) = 270 + 30 from rfl, run_add, run270_eq]
  decide

lemma run330_eq : run 330 = metroState330 := by
  rw [show (330 : ℕ) = 300 + 30 from rfl, run_add, run300_eq]
  decide

lemma run360_eq : run 360 = metroState360 := by
  rw [show (360 : ℕ) = 330 + 30 from rfl, run_add, run330_eq]
  decide

lemma run390_eq : run 390 = metroState390 := by
  rw [show (390 : ℕ) = 360 + 30 from rfl, run_add, run360_eq]
  decide

lemma run420_eq : run 420 = metroState420 := by
  rw [show (420 : ℕ) = 390 + 30 from rfl, run_add, run390_eq]
  decide

lemma run450_eq : run 450 = metroState450 := by
  rw [show (450 : ℕ) = 420 + 30 from rfl, run_add, run420_eq]
  decide

lemma run480_eq : run 480 = metroState480 := by
  rw [show (480 : ℕ) = 450 + 30 from rfl, run_add, run450_eq]
  decide

lemma run510_eq : run 510 = metroState510 := by
  rw [show (510 : ℕ) = 480 + 30 from rfl, run_add, run480_eq]
  decide

lemma run540_eq : run 540 = metroState540 := by
  rw [show (540 : ℕ) = 510 + 30 from rfl, run_add, run510_eq]
  decide

lemma run570_eq : run 570 = metroState570 := by
  rw [show (570 : ℕ) = 540 + 30 from rfl, run_add, run540_eq]
  decide

lemma run600_eq : run 600 = metroState600 := by
  rw [show (600 : ℕ) = 570 + 30 from rfl, run_add, run570_eq]
  decide

lemma run630_eq : run 630 = metroState630 := by
  rw [show (630 : ℕ) = 600 + 30 from rfl, run_add, run600_eq]
  decide

lemma run660_eq : run 660 = metroState660 := by
  rw [show (660 : ℕ) = 630 + 30 from rfl, run_add, run630_eq]
  decide

lemma run690_eq : run 690 = metroState690 := by
  rw [show (690 : ℕ) = 660 + 30 from rfl, run_add, run660_eq]
  decide

lemma run718_eq : run 718 = metroState718 := by
  rw [show (718 : ℕ) = 690 + 28 from rfl, run_add, run690_eq]
  decide

/-- C1: on every dispensing step of the metro-train run (state
`DELIVERING`, clot still present, leader within 15 of the target with
positive medicine), the remaining clot percentage decreases by exactly the
dispensed amount times the fixed dissolution rate `100/6.5` percent per ml
(the per-frame dispense of `0.05 ml` gives a `10/13 ≈ 0.769` percent drop,
i.e. `15.38 %` per ml), and the clot size is non-increasing on every step. -/
theorem clot_dissolution_rate (n : ℕ) :
    (∀ L, (run n).currentState = .DELIVERING → 0 < (run n).clotRemaining →
      (run n).leader = some L → |(run n).targetX - L.x| ≤ 15 → 0 < L.medicineCurrent →
      (run (n+1)).clotRemaining
          = (run n).clotRemaining - min 0.05 L.medicineCurrent * (run n).dissolutionPerMl ∧
      (run (n+1)).clotRemaining = (run n).clotRemaining - 0.05 * (100 / 6.5)) ∧
    (run (n+1)).clotRemaining ≤ (run n).clotRemaining := by
  constructor
  · intro L hst hpos hl hdist hmed
    exact update_clot_dispense (MetroInv_run n) hst hpos hl hdist hmed
  · exact update_clot_le (MetroInv_run n)

/-- Witness for C1 at tick 240: the leader C5 is dispensing and the clot
drops by exactly `0.05 × 100/6.5` percent. -/
theorem clot_dissolution_rate_witness :
    (run 241).clotRemaining = (run 240).clotRemaining - 0.05 * (100 / 6.5) :=
  ((clot_dissolution_rate 240).1 (mkC 4 695 1 1 true false)
    (by rw [run240_eq]; decide) (by rw [run240_eq]; decide)
    (by rw [run240_eq]; decide) (by rw [run240_eq]; decide)
    (by decide)).2

/-- C3 counterexample: the nominal run (5 coaches of 2 ml, 6.5 ml
required) does reach `COMPLETE` (tick 718) with zero clot, but with
exactly 3 full coach depletions, not 4: the fourth delivering coach
dispenses only 0.5 of its 2 ml, so it never depletes and never detaches. -/
theorem metro_not_four_depletions :
    (run 718).currentState = .COMPLETE ∧ (run 718).clotRemaining = 0 ∧
    (run 718).deliveryCycleCount = 3 ∧ ¬ (run 718).deliveryCycleCount = 4 := by
  rw [run718_eq]
  decide

/-- C3 (amended): starting from the initial metro-train state (5 coaches
of 2 ml capacity, 6.5 ml required), repeatedly calling `update` reaches
the terminal state `COMPLETE` within 718 ticks and stays there, with zero
remaining clot, total applied medicine 6.5 ml, and exactly 3 full coach
depletions (`delivery_cycle_count`); the fourth delivering coach dispenses
only partially. -/
theorem metro_reaches_complete :
    (run 718).currentState = .COMPLETE ∧ (run 718).clotRemaining = 0 ∧
    (run 718).deliveryCycleCount = 3 ∧ (run 718).totalMedicineApplied = 6.5 ∧
    ∀ k : ℕ, (run (718 + k)).currentState = .COMPLETE ∧
      (run (718 + k)).clotRemaining = 0 ∧ (run (718 + k)).deliveryCycleCount = 3 := by
  have hbase : Terminal (run 718) ∧ (run 718).clotRemaining = 0 ∧
      (run 718).deliveryCycleCount = 3 ∧ (run 718).totalMedicineApplied = 6.5 := by
    rw [run718_eq]
    decide
  have hstep : ∀ k : ℕ, Terminal (run (718 + k)) ∧ (run (718 + k)).clotRemaining = 0 ∧
      (run (718 + k)).deliveryCycleCount = 3 := by
    intro k
    induction k with
    | zero => exact ⟨hbase.1, hbase.2.1, hbase.2.2.1⟩
    | succ j ih =>
      obtain ⟨hT, hcl, hcy⟩ := ih
      obtain ⟨hT2, _, hclP, hcyP, _, _⟩ := terminal_update hT
      exact ⟨hT2, hclP.trans hcl, hcyP.trans hcy⟩
  refine ⟨hbase.1.1, hbase.2.1, hbase.2.2.1, hbase.2.2.2, fun k => ?_⟩
  obtain ⟨hT, hcl, hcy⟩ := hstep k
  exact ⟨hT.1, hcl, hcy⟩

/-- C10: after every tick of the metro-train run, the swarm's
`total_medicine_applied` equals the sum of `delivered_amount` over the
five coaches, and both quantities are non-decreasing from tick to tick. -/
theorem medicine_conservation (n : ℕ) :
    (run n).coaches.length = 5 ∧
    (run n).totalMedicineApplied = sumDelivered (run n) ∧
    (run n).totalMedicineApplied ≤ (run (n+1)).totalMedicineApplied ∧
    sumDelivered (run n) ≤ sumDelivered (run (n+1)) := by
  have h := MedAcc_run n
  refine ⟨?_, h.2.1, (update_total_mono h).1, (update_total_mono h).2⟩
  have hlab := h.1
  unfold LabelsOK at hlab
  calc (run n).coaches.length = ((run n).coaches.map Coach.label).length :=
        (List.length_map _ _).symm
    _ = 5 := by rw [hlab]; rfl

end Metro

/-! ## Role-based swarm simulation (`run_swarm_vein_sim.py`) -/

namespace SwarmSim

/-- The role strings of the swarm scripts, as a closed enumeration. -/
inductive Role where
  | Scout
  | Worker
  | Support
  | Monitor
deriving DecidableEq, Repr

/-- The `fields` dictionary computed by `VeinSegment.compute_fields`. -/
structure SensorFields where
  viscosity : ℚ
  impedance : ℚ
  reflectance : ℚ
  strain : ℚ
  viscNorm : ℚ
  impNorm : ℚ
  reflNorm : ℚ
  strainNorm : ℚ
  abnormal : ℚ
deriving DecidableEq, Repr

/-- `VeinSegment.compute_fields` as a pure function of the five scalar
fields it reads (`blockage`, `inflammation`, `pooling`, `pressure_spike`,
`scaffold`). -/
def computeFields (blockage inflammation pooling pressureSpike scaffold : ℚ) : SensorFields :=
  let viscosity := 4.5 + 32.0 * blockage + 6.5 * inflammation + 10.0 * pooling
  let impedance := 1.0 + 70.0 * blockage + 12.0 * inflammation + 14.0 * pooling
  let reflectance := 0.10 + 0.60 * blockage + 0.22 * inflammation + 0.10 * pooling
  let strain0 := 0.15 + 0.55 * pooling + 1.05 * pressureSpike
  let strain := if scaffold > 0.01 then strain0 * max 0.35 (1.0 - 0.6 * scaffold) else strain0
  let viscNorm := clamp ((viscosity - 4.5) / 40.0) 0 1
  let impNorm := clamp ((impedance - 1.0) / 95.0) 0 1
  let reflNorm := clamp ((reflectance - 0.10) / 0.75) 0 1
  let strainNorm := clamp (strain / 1.2) 0 1
  { viscosity := viscosity
    impedance := impedance
    reflectance := reflectance
    strain := strain
    viscNorm := viscNorm
    impNorm := impNorm
    reflNorm := reflNorm
    strainNorm := strainNorm
    abnormal := (viscNorm + impNorm + reflNorm + strainNorm) / 4.0 }

/-- All-`0` sensor record: Python starts each segment with an empty
`fields` dict whose `.get(key, 0.0)` reads default to `0`; every read in
the loop happens after `compute_fields`, so the value is immaterial. -/
def fields0 : SensorFields := ⟨0, 0, 0, 0, 0, 0, 0, 0, 0⟩

/-- `VeinSegment`.  `length` is `math.hypot(end - start)`, an irrational
number for the slanted segments; it is kept as data supplied by the
network builder, and only its positivity is used by any claim.  `endP`
renames the Python attribute `end` (a Lean keyword). -/
structure Seg where
  segId : ℕ
  start : ℚ × ℚ
  endP : ℚ × ℚ
  children : List ℕ
  parentId : Option ℕ
  length : ℚ
  blockage : ℚ
  inflammation : ℚ
  pooling : ℚ
  beacon : ℚ
  mapping : ℚ
  pressureSpike : ℚ
  scaffold : ℚ
  affected : Bool
  fields : SensorFields
  initBlockage : ℚ
  initInflammation : ℚ
  initPooling : ℚ
deriving DecidableEq, Repr

instance : Inhabited Seg :=
  ⟨{ segId := 0, start := (0, 0), endP := (0, 0), children := [], parentId := none,
     length := 1, blockage := 0, inflammation := 0, pooling := 0, beacon := 0, mapping := 0,
     pressureSpike := 0, scaffold := 0, affected := false, fields := fields0,
     initBlockage := 0, initInflammation := 0, initPooling := 0 }⟩

/-- `SwarmAgent`.  The `id` field models Python object identity (agents
are mutated in place through references); it is given distinct values at
creation and never used by the dynamics. -/
structure Agent where
  id : ℕ
  role : Role
  segmentId : ℕ
  t : ℚ
  direction : ℤ
deriving DecidableEq, Repr

/-- Python's `random.Random` object, modelled as a deterministic stream:
`q n` is the `n`-th `random()` draw and the `shuf*` functions are the
successive `shuffle` results.  A `Random(seed)` instance is a pure
function of the seed, so two runs over the same `Rng` see identical
draws. -/
structure Rng where
  q : ℕ → ℚ
  shufAgents : ℕ → List Agent → List Agent
  shufRoles : ℕ → List Role → List Role

/-- What Python guarantees about its generator: `random()` lands in
`[0, 1)` and `shuffle` permutes in place. -/
structure Rng.Valid (g : Rng) : Prop where
  q01 : ∀ n, 0 ≤ g.q n ∧ g.q n < 1
  permAgents : ∀ n l, (g.shufAgents n l).Perm l
  permRoles : ∀ n l, (g.shufRoles n l).Perm l

/-- `rng.uniform(a, b) = a + (b - a) * rng.random()`. -/
def uniform (a b r : ℚ) : ℚ := a + (b - a) * r

/-- `build_vein_network`, with the hypot lengths supplied by `lens`. -/
def buildVeinNetwork (lens : ℕ → ℚ) : List Seg :=
  let mk : ℕ → ℚ × ℚ → ℚ × ℚ → List ℕ → Option ℕ → Seg := fun i s e cs p =>
    { segId := i, start := s, endP := e, children := cs, parentId := p, length := lens i,
      blockage := 0, inflammation := 0, pooling := 0, beacon := 0, mapping := 0,
      pressureSpike := 0, scaffold := 0, affected := false, fields := fields0,
      initBlockage := 0, initInflammation := 0, initPooling := 0 }
  [ mk 0 (80, 300) (260, 300) [1, 2] none,
    mk 1 (260, 300) (430, 210) [3, 4] (some 0),
    mk 2 (260, 300) (430, 390) [5] (some 0),
    mk 3 (430, 210) (730, 150) [] (some 1),
    mk 4 (430, 210) (720, 250) [] (some 1),
    mk 5 (430, 390) (730, 450) [] (some 2) ]

/-- The `baseline` table of `initialize_pathology`. -/
def pathologyBaseline (segId : ℕ) : ℚ × ℚ × ℚ :=
  match segId with
  | 0 => (0.05, 0.10, 0.18)
  | 1 => (0.18, 0.20, 0.25)
  | 2 => (0.12, 0.18, 0.22)
  | 3 => (0.85, 0.60, 0.50)
  | 4 => (0.40, 0.30, 0.42)
  | 5 => (0.75, 0.55, 0.60)
  | _ => (0.1, 0.1, 0.1)

/-- `initialize_pathology`. -/
def initPathology (segments : List Seg) : List Seg :=
  segments.map (fun seg =>
    let b := pathologyBaseline seg.segId
    { seg with
      blockage := b.1, inflammation := b.2.1, pooling := b.2.2,
      affected := decide (b.1 > 0.5 ∨ b.2.1 > 0.45),
      initBlockage := b.1, initInflammation := b.2.1, initPooling := b.2.2 })

/-- `reset_segments`. -/
def resetSegments (segments : List Seg) : List Seg :=
  segments.map (fun seg =>
    { seg with
      blockage := seg.initBlockage, inflammation := seg.initInflammation,
      pooling := seg.initPooling, beacon := 0, mapping := 0,
      pressureSpike := 0, scaffold := 0 })

/-- The truncated role counts of `create_agents`
(`int(swarm_size * 0.25)` etc.; the products are exact multiples of
`0.05`, so float truncation agrees with rational floor). -/
def roleCounts0 (swarmSize : ℕ) : ℕ × ℕ × ℕ :=
  (swarmSize * 25 / 100, swarmSize * 45 / 100, swarmSize * 15 / 100)

/-- The Monitor remainder of `create_agents`, computed in ℤ as Python
does. -/
def monitorCount (swarmSize : ℕ) : ℤ :=
  (swarmSize : ℤ) - ((roleCounts0 swarmSize).1 + (roleCounts0 swarmSize).2.1
    + (roleCounts0 swarmSize).2.2)

/-- `create_agents`.  Takes and returns the rng draw counters.  Each agent
consumes up to two draws (direction coin for monitors, initial `t`); the
embedding indexes them by `2*i`, `2*i + 1`. -/
def createAgents (swarmSize : ℕ) (g : Rng) (qStart shufStart : ℕ) :
    List Agent × ℕ × ℕ :=
  let c := roleCounts0 swarmSize
  let roles := List.replicate c.1 Role.Scout ++ List.replicate c.2.1 Role.Worker
    ++ List.replicate c.2.2 Role.Support
    ++ List.replicate (swarmSize - (c.1 + c.2.1 + c.2.2)) Role.Monitor
  let shuffled := g.shufRoles shufStart roles
  let agents := shuffled.enum.map (fun p =>
    let direction : ℤ :=
      if p.2 = Role.Monitor ∧ g.q (qStart + 2 * p.1) < 0.5 then -1 else 1
    { id := p.1, role := p.2, segmentId := 0, t := g.q (qStart + 2 * p.1 + 1),
      direction := direction })
  (agents, qStart + 2 * shuffled.length, shufStart + 1)

/-- `role_counts` for one role. -/
def roleCount (agents : List Agent) (r : Role) : ℕ :=
  (agents.filter (fun a => decide (a.role = r))).length

/-- The sum of `role_counts` over the fixed `ROLE_ORDER`. -/
def roleCountSum (agents : List Agent) : ℕ :=
  roleCount agents Role.Scout + roleCount agents Role.Worker
    + roleCount agents Role.Support + roleCount agents Role.Monitor

/-- The subtraction loop of `weighted_choice`. -/
def weightedScan : List (ℕ × ℚ) → ℚ → ℕ → ℕ
  | [], _, last => last
  | (a, w) :: rest, pick, last => if pick - w ≤ 0 then a else weightedScan rest (pick - w) last

/-- `weighted_choice` over segment ids.  The draw `r` plays the role of
`rng.random()` for the pick, and of the `rng.choice` index in the
zero-total fallback. -/
def weightedChoice (items : List ℕ) (weights : List ℚ) (r : ℚ) : ℕ :=
  let total := weights.sum
  if total ≤ 0 then items.getD (Int.toNat ⌊r * (items.length : ℚ)⌋) 0
  else weightedScan (items.zip weights) (r * total) (items.getLastD 0)

/-- `score_segment_for_role`.  The Python fallthrough `return 0.1` is
unreachable for the closed role enumeration. -/
def scoreSegmentForRole (segment : Seg) (role : Role) : ℚ :=
  match role with
  | .Scout => (1.0 - segment.mapping) * 0.7 + segment.blockage * 0.2
      + segment.inflammation * 0.2
  | .Worker => segment.beacon * 1.3 + segment.blockage * 0.8 + segment.inflammation * 0.3
  | .Support => segment.fields.strainNorm * 1.6 + segment.pressureSpike * 1.3
  | .Monitor => (1.0 - segment.mapping) * 1.2 + segment.pooling * 0.2

/-- The candidate weights of `choose_next_segment`: role score plus the
`0.05` additive floor. -/
def childWeights (current : Seg) (segments : List Seg) (role : Role) : List ℚ :=
  current.children.map (fun childId =>
    scoreSegmentForRole (segments.getD childId default) role + 0.05)

/-- `choose_next_segment`.  Out-of-range indexing (impossible under the
topology invariant) is modelled by `getD`. -/
def chooseNextSegment (current : Seg) (segments : List Seg) (role : Role) (r : ℚ) : Seg :=
  if current.children = [] then segments.getD 0 default
  else
    let chosenId := weightedChoice current.children (childWeights current segments role) r
    segments.getD chosenId default

/-- `update_role_switching`.  The shuffled prefixes picked by Python are
recovered through the agents' identity ids. -/
def updateRoleSwitching (g : Rng) (shufStart : ℕ) (roleSwitch : Bool) (fps frameIdx : ℕ)
    (segments : List Seg) (agents : List Agent) : List Agent :=
  if roleSwitch = false ∨ frameIdx % fps ≠ 0 then agents
  else
    let n : ℚ := (segments.length : ℚ)
    let avgBeacon := (segments.map (·.beacon)).sum / n
    let avgStrain := (segments.map (·.fields.strainNorm)).sum / n
    let avgMapping := (segments.map (·.mapping)).sum / n
    let a1 :=
      if avgBeacon > 0.25 then
        let ids : List ℕ := ((g.shufAgents shufStart
          (agents.filter (fun a => decide (a.role = Role.Scout)))).take 2).map (·.id)
        agents.map (fun a => if a.id ∈ ids then { a with role := Role.Worker } else a)
      else agents
    let a2 :=
      if avgStrain > 0.35 then
        let ids : List ℕ := ((g.shufAgents (shufStart + 1)
          (a1.filter (fun a => decide (a.role = Role.Worker)))).take 1).map (·.id)
        a1.map (fun a => if a.id ∈ ids then { a with role := Role.Support } else a)
      else a1
    if avgMapping > 0.7 then
      let ids : List ℕ := ((g.shufAgents (shufStart + 2)
        (a2.filter (fun a => decide (a.role = Role.Monitor)))).take 1).map (·.id)
      a2.map (fun a => if a.id ∈ ids then { a with role := Role.Scout } else a)
    else a2

/-- Parameters of `create_swarm_simulation` that feed the update loop. -/
structure SwarmParams where
  isActivity : Bool
  flow : ℚ
  noise : ℚ
  beaconStrength : ℚ
  roleSwitch : Bool
  fps : ℕ
  swarmSize : ℕ

/-- Mutate the segment carrying a given id (Python mutates
`segments[i]` in place; segment ids equal list positions). -/
def setSeg (segments : List Seg) (i : ℕ) (f : Seg → Seg) : List Seg :=
  segments.map (fun s => if s.segId = i then f s else s)

/-- Accumulator of the per-agent loop: the mutated segments, the
`worker_activity` tally, the rng draw counter and the processed agents in
reverse order. -/
structure AgentStep where
  segments : List Seg
  activity : ℕ → ℕ
  qIdx : ℕ
  agentsRev : List Agent

/-- Scout side effect (lines 468-470). -/
def scoutMark (p : SwarmParams) (segs : List Seg) (a : Agent) (signal : ℚ) : List Seg :=
  if a.role = Role.Scout ∧ signal > 0.55 then
    setSeg segs a.segmentId (fun s =>
      { s with beacon := clamp (s.beacon + p.beaconStrength * (0.03 + 0.05 * signal)) 0 1 })
  else segs

/-- Monitor side effect (lines 476-477). -/
def monitorMark (segs : List Seg) (a : Agent) : List Seg :=
  if a.role = Role.Monitor then
    setSeg segs a.segmentId (fun s => { s with mapping := clamp (s.mapping + 0.003) 0 1 })
  else segs

/-- Support side effect (lines 479-481), reading the segment as it was
bound at the top of the iteration. -/
def supportMark (p : SwarmParams) (segs : List Seg) (a : Agent) (seg0 : Seg) : List Seg :=
  if a.role = Role.Support ∧ p.isActivity ∧
      (seg0.fields.strainNorm > 0.6 ∨ seg0.pressureSpike > 0.4) then
    setSeg segs a.segmentId (fun s => { s with scaffold := clamp (s.scaffold + 0.04) 0 1 })
  else segs

/-- Movement of one agent (lines 483-516): speed, step, and the
endpoint-transition rules.  Returns the updated agent and the rng draw
counter. -/
def moveSpeedBase (p : SwarmParams) (seg : Seg) (a : Agent) : ℚ :=
  let baseSpeed := p.flow
  let baseSpeed := if a.role = Role.Worker ∧ (seg.beacon > 0.4 ∨ seg.blockage > 0.5)
    then baseSpeed * 0.45 else baseSpeed
  let baseSpeed := if a.role = Role.Support ∧ seg.fields.strainNorm > 0.5
    then baseSpeed * 0.35 else baseSpeed
  if a.role = Role.Monitor then baseSpeed * 0.8 else baseSpeed

def moveAgent (p : SwarmParams) (g : Rng) (segs : List Seg) (qIdx : ℕ) (a : Agent) :
    Agent × ℕ :=
  let seg := segs.getD a.segmentId default
  let speed := max 0.05 (moveSpeedBase p seg a + uniform (-p.noise) p.noise (g.q qIdx))
  let step := speed / seg.length
  let q1 := qIdx + 1
  if a.role = Role.Monitor then
    let t2 := a.t + step * (a.direction : ℚ)
    if t2 > 1.0 then
      if seg.children ≠ [] ∧ g.q q1 > 0.4 then
        let next := chooseNextSegment seg segs a.role (g.q (q1 + 1))
        ({ a with segmentId := next.segId, t := 0.0 }, q1 + 2)
      else
        ({ a with t := 1.0, direction := -1 }, q1 + 1)
    else if t2 < 0.0 then
      match seg.parentId with
      | some pid =>
        if g.q q1 > 0.3 then ({ a with segmentId := pid, t := 1.0 }, q1 + 1)
        else ({ a with t := 0.0, direction := 1 }, q1 + 1)
      | none => ({ a with t := 0.0, direction := 1 }, q1 + 1)
    else
      ({ a with t := t2 }, q1)
  else
    let t2 := a.t + step
    if t2 ≥ 1.0 then
      let next := chooseNextSegment seg segs a.role (g.q q1)
      ({ a with segmentId := next.segId, t := 0.0 }, q1 + 1)
    else
      ({ a with t := t2 }, q1)

/-- The body of the per-agent loop (`run_swarm_vein_sim.py` lines
464-516): role side effects on the occupied segment, then movement.  The
movement re-reads the segment after the side effects, as Python's `seg`
is a live reference.  Draw-index bookkeeping differs from Python only in
which indices are consumed on branches that short-circuit `rng` calls. -/
def agentStep (p : SwarmParams) (g : Rng) (st : AgentStep) (a : Agent) : AgentStep :=
  let seg0 := st.segments.getD a.segmentId default
  let signal := seg0.fields.abnormal
  let segs1 := scoutMark p st.segments a signal
  let activity :=
    if a.role = Role.Worker ∧ (seg0.beacon > 0.3 ∨ seg0.blockage > 0.4) then
      fun i => if i = a.segmentId then st.activity i + 1 else st.activity i
    else st.activity
  let segs2 := monitorMark segs1 a
  let segs3 := supportMark p segs2 a seg0
  let m := moveAgent p g segs3 st.qIdx a
  { segments := segs3, activity := activity, qIdx := m.2, agentsRev := m.1 :: st.agentsRev }

/-- The whole model state carried from tick to tick, plus the rng
counters. -/
structure SimState where
  segments : List Seg
  agents : List Agent
  qIdx : ℕ
  shufIdx : ℕ
  lastResetTime : ℚ

/-- Passive decay and rest-mode growth (lines 441-448). -/
def decayStep (p : SwarmParams) (segs : List Seg) : List Seg :=
  segs.map (fun seg =>
    let s : Seg :=
      { seg with beacon := seg.beacon * 0.92, scaffold := seg.scaffold * 0.95,
                 pressureSpike := seg.pressureSpike * 0.93 }
    if ¬p.isActivity ∧ s.affected then
      { s with inflammation := clamp (s.inflammation + 0.0004) 0 1,
               pooling := clamp (s.pooling + 0.00025) 0 1 }
    else s)

/-- Activity pressure spikes on `spike_segment_ids = [4]` (lines 450-455). -/
def spikeStep (p : SwarmParams) (cycleTime : ℚ) (segs : List Seg) : List Seg :=
  if p.isActivity ∧ 4.0 ≤ cycleTime ∧ cycleTime ≤ 7.0 then
    setSeg segs 4 (fun s => { s with pressureSpike := clamp (s.pressureSpike + 0.06) 0 1 })
  else segs

/-- The per-tick `compute_fields` pass (lines 457-458). -/
def computeStep (segs : List Seg) : List Seg :=
  segs.map (fun s =>
    { s with fields :=
        computeFields s.blockage s.inflammation s.pooling s.pressureSpike s.scaffold })

/-- Worker blockage reduction and scaffold pressure relief (lines
518-523). -/
def reduceStep (activity : ℕ → ℕ) (segs : List Seg) : List Seg :=
  segs.map (fun seg =>
    let reduction := 0.00005 * ((activity seg.segId : ℚ)) * (1.0 + seg.beacon)
    let s : Seg := { seg with blockage := clamp (seg.blockage - reduction) 0 1 }
    if s.scaffold > 0.01 then
      { s with pressureSpike := clamp (s.pressureSpike - 0.04 * s.scaffold) 0 1 }
    else s)

/-- One tick of the update loop (`run_swarm_vein_sim.py` lines 438-523):
passive decay and rest growth, activity pressure spikes, sensor-field
recomputation, periodic role switching, the per-agent loop, and the
worker blockage-reduction / scaffold pressure-relief pass. -/
def swarmTick (p : SwarmParams) (g : Rng) (frameIdx : ℕ) (cycleTime : ℚ)
    (st : SimState) : SimState :=
  let segsC := computeStep (spikeStep p cycleTime (decayStep p st.segments))
  let agents := updateRoleSwitching g st.shufIdx p.roleSwitch p.fps frameIdx segsC st.agents
  let res := agents.foldl (agentStep p g)
    { segments := segsC, activity := fun _ => 0, qIdx := st.qIdx, agentsRev := [] }
  { segments := reduceStep res.activity res.segments, agents := res.agentsRev.reverse,
    qIdx := res.qIdx, shufIdx := st.shufIdx + 3, lastResetTime := st.lastResetTime }

/-- The state built by `create_swarm_simulation` before the frame loop. -/
def swarmInit (p : SwarmParams) (g : Rng) (lens : ℕ → ℚ) : SimState :=
  let segs := initPathology (buildVeinNetwork lens)
  let c := createAgents p.swarmSize g 0 0
  { segments := segs, agents := c.1, qIdx := c.2.1, shufIdx := c.2.2, lastResetTime := 0 }

/-- One iteration of the frame loop: the scenario reset (when the frame is
in `reset_frames`) followed by the tick. -/
def swarmFrame (p : SwarmParams) (g : Rng) (resetFrames : List ℕ) (frameIdx : ℕ)
    (st : SimState) : SimState :=
  let st :=
    if frameIdx ∈ resetFrames ∧ frameIdx ≠ 0 then
      let c := createAgents p.swarmSize g st.qIdx st.shufIdx
      { segments := resetSegments st.segments, agents := c.1, qIdx := c.2.1,
        shufIdx := c.2.2, lastResetTime := (frameIdx : ℚ) / (p.fps : ℚ) }
    else st
  swarmTick p g frameIdx ((frameIdx : ℚ) / (p.fps : ℚ) - st.lastResetTime) st

/-- The model state after `n` frames of the loop. -/
def swarmRunState (p : SwarmParams) (g : Rng) (lens : ℕ → ℚ) (resetFrames : List ℕ) :
    ℕ → SimState
  | 0 => swarmInit p g lens
  | n + 1 => swarmFrame p g resetFrames n (swarmRunState p g lens resetFrames n)

/-! ### Well-formedness invariants of the swarm model -/

/-- Bounds and topology validity of one segment in a network of `n`
segments. -/
structure SegWF (n : ℕ) (s : Seg) : Prop where
  blockage01 : 0 ≤ s.blockage ∧ s.blockage ≤ 1
  inflammation01 : 0 ≤ s.inflammation ∧ s.inflammation ≤ 1
  pooling01 : 0 ≤ s.pooling ∧ s.pooling ≤ 1
  beacon01 : 0 ≤ s.beacon ∧ s.beacon ≤ 1
  mapping01 : 0 ≤ s.mapping ∧ s.mapping ≤ 1
  pressure01 : 0 ≤ s.pressureSpike ∧ s.pressureSpike ≤ 1
  scaffold01 : 0 ≤ s.scaffold ∧ s.scaffold ≤ 1
  initB01 : 0 ≤ s.initBlockage ∧ s.initBlockage ≤ 1
  initI01 : 0 ≤ s.initInflammation ∧ s.initInflammation ≤ 1
  initP01 : 0 ≤ s.initPooling ∧ s.initPooling ≤ 1
  lenPos : 0 < s.length
  childrenValid : ∀ c ∈ s.children, c < n
  parentValid : ∀ pid, s.parentId = some pid → pid < n

/-- The agent invariant: `t ∈ [0, 1]` and a valid segment reference. -/
structure AgentWF (n : ℕ) (a : Agent) : Prop where
  t0 : 0 ≤ a.t
  t1 : a.t ≤ 1
  segValid : a.segmentId < n

/-- Well-formedness of the whole model state.  `segIds` records that
segment ids coincide with list positions (true of the hard-coded network
and preserved by every update). -/
structure WF (st : SimState) : Prop where
  segsPos : 0 < st.segments.length
  segIds : ∀ i, i < st.segments.length → (st.segments.getD i default).segId = i
  segsWF : ∀ s ∈ st.segments, SegWF st.segments.length s
  agentsWF : ∀ a ∈ st.agents, AgentWF st.segments.length a

lemma getD_mem {α : Type} {l : List α} {i : ℕ} (h : i < l.length) (d : α) :
    l.getD i d ∈ l := by
  rw [List.getD_eq_getElem?_getD]
  rw [List.getElem?_eq_getElem h]
  exact List.getElem_mem _

lemma getD_map_lt {l : List Seg} (g : Seg → Seg) {i : ℕ} (h : i < l.length) :
    (l.map g).getD i default = g (l.getD i default) := by
  rw [List.getD_eq_getElem (l.map g) default (by simpa using h),
    List.getD_eq_getElem l default h, List.getElem_map]

/-- The three list-level facts preserved by every segment-map of the
tick. -/
lemma map_segparts {n : ℕ} {segs : List Seg} (g : Seg → Seg)
    (hlen : segs.length = n)
    (hids : ∀ i, i < n → (segs.getD i default).segId = i)
    (hwf : ∀ s ∈ segs, SegWF n s)
    (hg : ∀ s ∈ segs, SegWF n s → SegWF n (g s))
    (hgid : ∀ s, (g s).segId = s.segId) :
    (segs.map g).length = n ∧ (∀ i, i < n → ((segs.map g).getD i default).segId = i) ∧
    (∀ s ∈ segs.map g, SegWF n s) := by
  refine ⟨by simpa using hlen, ?_, ?_⟩
  · intro i hi
    rw [getD_map_lt g (by omega : i < segs.length), hgid]
    exact hids i hi
  · intro s hs
    rcases List.mem_map.mp hs with ⟨s0, hs0, rfl⟩
    exact hg s0 hs0 (hwf s0 hs0)

lemma setSeg_segparts {n : ℕ} {segs : List Seg} (i : ℕ) (f : Seg → Seg)
    (hlen : segs.length = n)
    (hids : ∀ j, j < n → (segs.getD j default).segId = j)
    (hwf : ∀ s ∈ segs, SegWF n s)
    (hf : ∀ s ∈ segs, SegWF n s → SegWF n (f s))
    (hfid : ∀ s, (f s).segId = s.segId) :
    (setSeg segs i f).length = n ∧
    (∀ j, j < n → ((setSeg segs i f).getD j default).segId = j) ∧
    (∀ s ∈ setSeg segs i f, SegWF n s) := by
  refine map_segparts _ hlen hids hwf ?_ ?_
  · intro s hs hwfs
    split
    · exact hf s hs hwfs
    · exact hwfs
  · intro s
    split
    · exact hfid s
    · rfl

lemma clamp01 (x : ℚ) : 0 ≤ clamp x 0 1 ∧ clamp x 0 1 ≤ 1 :=
  clamp_mem x 0 1 (by norm_num)

lemma decay01 {x c : ℚ} (hx : 0 ≤ x ∧ x ≤ 1) (hc0 : 0 ≤ c) (hc1 : c ≤ 1) :
    0 ≤ x * c ∧ x * c ≤ 1 :=
  ⟨mul_nonneg hx.1 hc0, by nlinarith [hx.2]⟩

lemma getLastD_mem_cons : ∀ (l : List ℕ) (a : ℕ), l.getLastD a ∈ a :: l := by
  intro l
  induction l with
  | nil => intro a; simp
  | cons b l ih =>
    intro a
    rcases List.mem_cons.mp (ih b) with h | h
    · rw [List.getLastD_cons, h]
      exact List.mem_cons_of_mem _ (List.mem_cons_self _ _)
    · rw [List.getLastD_cons]
      exact List.mem_cons_of_mem _ (List.mem_cons_of_mem _ h)

lemma weightedScan_mem :
    ∀ (pairs : List (ℕ × ℚ)) (pick : ℚ) (last : ℕ),
      weightedScan pairs pick last ∈ pairs.map Prod.fst ∨
        weightedScan pairs pick last = last := by
  intro pairs
  induction pairs with
  | nil => intro pick last; exact Or.inr rfl
  | cons p rest ih =>
    intro pick last
    rw [weightedScan]
    split
    · exact Or.inl (List.mem_cons_self _ _)
    · rcases ih (pick - p.2) last with h | h
      · exact Or.inl (List.mem_cons_of_mem _ h)
      · exact Or.inr h

lemma weightedChoice_mem {items : List ℕ} {weights : List ℚ} {r : ℚ}
    (hne : items ≠ []) (hpos : 0 < weights.sum) :
    weightedChoice items weights r ∈ items := by
  unfold weightedChoice
  rw [if_neg (by linarith)]
  rcases weightedScan_mem (items.zip weights) (r * weights.sum) (items.getLastD 0) with h | h
  · rcases List.mem_map.mp h with ⟨q, hq, he⟩
    rw [← he]
    exact (List.of_mem_zip hq).1
  · rw [h]
    cases items with
    | nil => cases hne rfl
    | cons a l =>
      rw [List.getLastD_cons]
      exact getLastD_mem_cons l a

lemma weightedChoice_lt {items : List ℕ} {weights : List ℚ} {r : ℚ} {n : ℕ}
    (h : ∀ c ∈ items, c < n) (hn : 0 < n) :
    weightedChoice items weights r < n := by
  unfold weightedChoice
  dsimp only
  split
  · rcases Nat.lt_or_ge (Int.toNat ⌊r * (items.length : ℚ)⌋) items.length with hlt | hge
    · exact h _ (getD_mem hlt 0)
    · rw [List.getD_eq_default _ _ hge]
      exact hn
  · rcases weightedScan_mem (items.zip weights) (r * weights.sum) (items.getLastD 0) with hm | hm
    · rcases List.mem_map.mp hm with ⟨q, hq, he⟩
      rw [← he]
      exact h _ (List.of_mem_zip hq).1
    · rw [hm]
      cases items with
      | nil => exact hn
      | cons a l =>
        rw [List.getLastD_cons]
        exact h _ (getLastD_mem_cons l a)

lemma chooseNextSegment_segId_lt {n : ℕ} {seg : Seg} {segs : List Seg} {role : Role} {r : ℚ}
    (hlen : segs.length = n) (hn : 0 < n)
    (hids : ∀ i, i < n → (segs.getD i default).segId = i)
    (hchild : ∀ c ∈ seg.children, c < n) :
    (chooseNextSegment seg segs role r).segId < n := by
  unfold chooseNextSegment
  split
  · rw [show segs.getD 0 default = segs.getD 0 default from rfl, hids 0 hn]
    exact hn
  · have hlt : weightedChoice seg.children (childWeights seg segs role) r < n :=
      weightedChoice_lt hchild hn
    rw [hids _ hlt]
    exact hlt

/-- List-level facts bundled for the effect marks. -/
def SegsOK (n : ℕ) (segs : List Seg) : Prop :=
  segs.length = n ∧ (∀ i, i < n → (segs.getD i default).segId = i) ∧
  ∀ s ∈ segs, SegWF n s

lemma scoutMark_ok {p : SwarmParams} {n : ℕ} {segs : List Seg} {a : Agent} {signal : ℚ}
    (h : SegsOK n segs) : SegsOK n (scoutMark p segs a signal) := by
  obtain ⟨hlen, hids, hwf⟩ := h
  unfold scoutMark
  split
  · exact setSeg_segparts _ _ hlen hids hwf
      (fun s _ hs => { hs with beacon01 := clamp01 _ }) (fun s => rfl)
  · exact ⟨hlen, hids, hwf⟩

lemma monitorMark_ok {n : ℕ} {segs : List Seg} {a : Agent}
    (h : SegsOK n segs) : SegsOK n (monitorMark segs a) := by
  obtain ⟨hlen, hids, hwf⟩ := h
  unfold monitorMark
  split
  · exact setSeg_segparts _ _ hlen hids hwf
      (fun s _ hs => { hs with mapping01 := clamp01 _ }) (fun s => rfl)
  · exact ⟨hlen, hids, hwf⟩

lemma supportMark_ok {p : SwarmParams} {n : ℕ} {segs : List Seg} {a : Agent} {seg0 : Seg}
    (h : SegsOK n segs) : SegsOK n (supportMark p segs a seg0) := by
  obtain ⟨hlen, hids, hwf⟩ := h
  unfold supportMark
  split
  · exact setSeg_segparts _ _ hlen hids hwf
      (fun s _ hs => { hs with scaffold01 := clamp01 _ }) (fun s => rfl)
  · exact ⟨hlen, hids, hwf⟩

lemma t_add_step_nonneg {t len : ℚ} (ht : 0 ≤ t) (hlen : 0 < len) (x : ℚ) :
    0 ≤ t + max 0.05 x / len := by
  have hp : 0 < max (0.05 : ℚ) x / len :=
    div_pos (lt_of_lt_of_le (by norm_num) (le_max_left _ _)) hlen
  linarith

lemma moveAgent_wf {p : SwarmParams} {g : Rng} {n : ℕ} {segs : List Seg} {qIdx : ℕ}
    {a : Agent} (hok : SegsOK n segs) (hn : 0 < n) (ha : AgentWF n a) :
    AgentWF n (moveAgent p g segs qIdx a).1 := by
  obtain ⟨hlen, hids, hwf⟩ := hok
  have hseglt : a.segmentId < segs.length := by rw [hlen]; exact ha.segValid
  have hswf := hwf _ (getD_mem hseglt default)
  unfold moveAgent
  dsimp only
  split
  · -- Monitor
    split
    · -- t2 > 1
      split
      · exact ⟨by norm_num, by norm_num,
          chooseNextSegment_segId_lt hlen hn hids hswf.childrenValid⟩
      · exact ⟨by norm_num, by norm_num, ha.segValid⟩
    · split
      · -- t2 < 0
        split
        · -- parent some pid
          split
          · exact ⟨by norm_num, by norm_num, hswf.parentValid _ (by assumption)⟩
          · exact ⟨by norm_num, by norm_num, ha.segValid⟩
        · exact ⟨by norm_num, by norm_num, ha.segValid⟩
      · -- interior move
        rename_i h1 h2
        exact ⟨not_lt.mp h2, not_lt.mp h1, ha.segValid⟩
  · -- other roles
    split
    · exact ⟨by norm_num, by norm_num,
        chooseNextSegment_segId_lt hlen hn hids hswf.childrenValid⟩
    · rename_i hmon h1
      exact ⟨t_add_step_nonneg ha.t0 hswf.lenPos _, le_of_lt (lt_of_not_ge h1),
        ha.segValid⟩

/-- The invariant carried through the per-agent fold. -/
structure StepWF (n : ℕ) (stp : AgentStep) : Prop where
  ok : SegsOK n stp.segments
  agents : ∀ b ∈ stp.agentsRev, AgentWF n b

lemma agentStep_wf (p : SwarmParams) (g : Rng) {n : ℕ} {stp : AgentStep} {a : Agent}
    (hn : 0 < n) (h : StepWF n stp) (ha : AgentWF n a) :
    StepWF n (agentStep p g stp a) := by
  have h3 : SegsOK n (supportMark p (monitorMark
      (scoutMark p stp.segments a (stp.segments.getD a.segmentId default).fields.abnormal) a)
      a (stp.segments.getD a.segmentId default)) :=
    supportMark_ok (monitorMark_ok (scoutMark_ok h.ok))
  refine ⟨h3, ?_⟩
  intro b hb
  rcases List.mem_cons.mp hb with hb1 | hb2
  · rw [hb1]
    exact moveAgent_wf h3 hn ha
  · exact h.agents _ hb2

lemma foldl_wf (p : SwarmParams) (g : Rng) {n : ℕ} (hn : 0 < n) :
    ∀ (agents : List Agent) (stp : AgentStep), StepWF n stp →
      (∀ a ∈ agents, AgentWF n a) →
      StepWF n (agents.foldl (agentStep p g) stp) := by
  intro agents
  induction agents with
  | nil => intro stp h _; exact h
  | cons a l ih =>
    intro stp h hall
    rw [List.foldl_cons]
    exact ih _ (agentStep_wf p g hn h (hall a (List.mem_cons_self _ _)))
      (fun b hb => hall b (List.mem_cons_of_mem _ hb))

lemma agentStep_rev_length (p : SwarmParams) (g : Rng) (stp : AgentStep) (a : Agent) :
    (agentStep p g stp a).agentsRev.length = stp.agentsRev.length + 1 := rfl

lemma foldl_rev_length (p : SwarmParams) (g : Rng) :
    ∀ (agents : List Agent) (stp : AgentStep),
      ((agents.foldl (agentStep p g) stp).agentsRev).length
        = stp.agentsRev.length + agents.length := by
  intro agents
  induction agents with
  | nil => intro stp; rfl
  | cons a l ih =>
    intro stp
    rw [List.foldl_cons, ih, agentStep_rev_length]
    simp only [List.length_cons]
    omega

lemma roleMap_wf {n : ℕ} {l : List Agent} (ids : List ℕ) (r : Role)
    (h : ∀ a ∈ l, AgentWF n a) :
    ∀ a ∈ l.map (fun a => if a.id ∈ ids then { a with role := r } else a), AgentWF n a := by
  intro a ha
  rcases List.mem_map.mp ha with ⟨b, hb, rfl⟩
  have hbw := h b hb
  split
  · exact { hbw with }
  · exact hbw

lemma updateRoleSwitching_wf {n : ℕ} {g : Rng} {shufStart : ℕ} {roleSwitch : Bool}
    {fps frameIdx : ℕ} {segs : List Seg} {agents : List Agent}
    (h : ∀ a ∈ agents, AgentWF n a) :
    ∀ a ∈ updateRoleSwitching g shufStart roleSwitch fps frameIdx segs agents,
      AgentWF n a := by
  unfold updateRoleSwitching
  split
  · exact h
  · dsimp only
    split
    · split
      · split
        · exact roleMap_wf _ _ (roleMap_wf _ _ (roleMap_wf _ _ h))
        · exact roleMap_wf _ _ (roleMap_wf _ _ h)
      · split
        · exact roleMap_wf _ _ (roleMap_wf _ _ h)
        · exact roleMap_wf _ _ h
    · split
      · split
        · exact roleMap_wf _ _ (roleMap_wf _ _ h)
        · exact roleMap_wf _ _ h
      · split
        · exact roleMap_wf _ _ h
        · exact h

lemma updateRoleSwitching_length {g : Rng} {shufStart : ℕ} {roleSwitch : Bool}
    {fps frameIdx : ℕ} {segs : List Seg} {agents : List Agent} :
    (updateRoleSwitching g shufStart roleSwitch fps frameIdx segs agents).length
      = agents.length := by
  unfold updateRoleSwitching
  split
  · rfl
  · dsimp only
    split <;> split <;> split <;> simp [List.length_map]

/-- One tick preserves well-formedness and the population sizes. -/
lemma decayStep_ok {p : SwarmParams} {n : ℕ} {segs : List Seg} (h : SegsOK n segs) :
    SegsOK n (decayStep p segs) := by
  refine map_segparts _ h.1 h.2.1 h.2.2 ?_ ?_
  · intro s _ hs
    dsimp only
    split
    · exact { hs with
        beacon01 := decay01 hs.beacon01 (by norm_num) (by norm_num),
        scaffold01 := decay01 hs.scaffold01 (by norm_num) (by norm_num),
        pressure01 := decay01 hs.pressure01 (by norm_num) (by norm_num),
        inflammation01 := clamp01 _, pooling01 := clamp01 _ }
    · exact { hs with
        beacon01 := decay01 hs.beacon01 (by norm_num) (by norm_num),
        scaffold01 := decay01 hs.scaffold01 (by norm_num) (by norm_num),
        pressure01 := decay01 hs.pressure01 (by norm_num) (by norm_num) }
  · intro s
    dsimp only
    split <;> rfl

lemma spikeStep_ok {p : SwarmParams} {cycleTime : ℚ} {n : ℕ} {segs : List Seg}
    (h : SegsOK n segs) : SegsOK n (spikeStep p cycleTime segs) := by
  unfold spikeStep
  split
  · exact setSeg_segparts _ _ h.1 h.2.1 h.2.2
      (fun s _ hs => { hs with pressure01 := clamp01 _ }) (fun s => rfl)
  · exact h

lemma computeStep_ok {n : ℕ} {segs : List Seg} (h : SegsOK n segs) :
    SegsOK n (computeStep segs) :=
  map_segparts _ h.1 h.2.1 h.2.2 (fun s _ hs => { hs with }) (fun s => rfl)

lemma reduceStep_ok {activity : ℕ → ℕ} {n : ℕ} {segs : List Seg} (h : SegsOK n segs) :
    SegsOK n (reduceStep activity segs) := by
  refine map_segparts _ h.1 h.2.1 h.2.2 ?_ ?_
  · intro s _ hs
    dsimp only
    split
    · exact { hs with blockage01 := clamp01 _, pressure01 := clamp01 _ }
    · exact { hs with blockage01 := clamp01 _ }
  · intro s
    dsimp only
    split <;> rfl

lemma swarmTick_wf {p : SwarmParams} {g : Rng} {frameIdx : ℕ} {cycleTime : ℚ}
    {st : SimState} (h : WF st) :
    WF (swarmTick p g frameIdx cycleTime st) ∧
    (swarmTick p g frameIdx cycleTime st).segments.length = st.segments.length ∧
    (swarmTick p g frameIdx cycleTime st).agents.length = st.agents.length := by
  obtain ⟨hpos, hids, hsegs, hagents⟩ := h
  have hC : SegsOK st.segments.length
      (computeStep (spikeStep p cycleTime (decayStep p st.segments))) :=
    computeStep_ok (spikeStep_ok (decayStep_ok ⟨rfl, hids, hsegs⟩))
  have hAg := @updateRoleSwitching_wf st.segments.length g st.shufIdx p.roleSwitch
    p.fps frameIdx (computeStep (spikeStep p cycleTime (decayStep p st.segments)))
    st.agents hagents
  have hfold := foldl_wf p g hpos
    (updateRoleSwitching g st.shufIdx p.roleSwitch p.fps frameIdx
      (computeStep (spikeStep p cycleTime (decayStep p st.segments))) st.agents)
    { segments := computeStep (spikeStep p cycleTime (decayStep p st.segments)),
      activity := fun _ => 0, qIdx := st.qIdx, agentsRev := [] }
    ⟨hC, fun b hb => absurd hb (List.not_mem_nil b)⟩ hAg
  have hD := @reduceStep_ok
    ((List.foldl (agentStep p g)
      { segments := computeStep (spikeStep p cycleTime (decayStep p st.segments)),
        activity := fun _ => 0, qIdx := st.qIdx, agentsRev := [] }
      (updateRoleSwitching g st.shufIdx p.roleSwitch p.fps frameIdx
        (computeStep (spikeStep p cycleTime (decayStep p st.segments))) st.agents)).activity)
    st.segments.length _ hfold.ok
  unfold swarmTick
  dsimp only
  refine ⟨⟨?_, ?_, ?_, ?_⟩, ?_, ?_⟩
  · rw [hD.1]; exact hpos
  · rw [hD.1]; exact hD.2.1
  · rw [hD.1]; exact hD.2.2
  · rw [hD.1]
    intro a ha
    rw [List.mem_reverse] at ha
    exact hfold.agents a ha
  · exact hD.1
  · rw [List.length_reverse, foldl_rev_length]
    simp only [List.length_nil]
    rw [updateRoleSwitching_length]
    omega

/-! ### Well-formedness at the initial state and along the frame loop -/

lemma initSegs_length (lens : ℕ → ℚ) :
    (initPathology (buildVeinNetwork lens)).length = 6 := rfl

lemma initSegs_ids (lens : ℕ → ℚ) :
    ∀ i, i < 6 → ((initPathology (buildVeinNetwork lens)).getD i default).segId = i := by
  intro i hi
  interval_cases i <;> rfl

lemma initSegs_wf (lens : ℕ → ℚ) (hlens : ∀ i, 0 < lens i) :
    ∀ s ∈ initPathology (buildVeinNetwork lens), SegWF 6 s := by
  intro s hs
  simp only [buildVeinNetwork, initPathology, pathologyBaseline, List.map_cons,
    List.map_nil, List.mem_cons, List.not_mem_nil, or_false] at hs
  rcases hs with rfl | rfl | rfl | rfl | rfl | rfl <;>
    exact { blockage01 := by norm_num, inflammation01 := by norm_num,
            pooling01 := by norm_num, beacon01 := by norm_num, mapping01 := by norm_num,
            pressure01 := by norm_num, scaffold01 := by norm_num, initB01 := by norm_num,
            initI01 := by norm_num, initP01 := by norm_num, lenPos := hlens _,
            childrenValid := by intro c hc; fin_cases hc <;> norm_num,
            parentValid := by
              intro pid h
              first
                | exact Option.noConfusion h
                | (simp only [Option.some.injEq] at h; omega) }

lemma createAgents_wf {n : ℕ} (hn : 0 < n) (swarmSize : ℕ) {g : Rng} (hg : g.Valid)
    (qStart shufStart : ℕ) :
    ∀ a ∈ (createAgents swarmSize g qStart shufStart).1, AgentWF n a := by
  intro a ha
  unfold createAgents at ha
  dsimp only at ha
  rcases List.mem_map.mp ha with ⟨q, hq, rfl⟩
  exact ⟨(hg.q01 _).1, le_of_lt (lt_of_lt_of_le (hg.q01 _).2 (by norm_num)), hn⟩

lemma createAgents_length (swarmSize : ℕ) {g : Rng} (hg : g.Valid) (qStart shufStart : ℕ) :
    (createAgents swarmSize g qStart shufStart).1.length = swarmSize := by
  unfold createAgents
  dsimp only
  rw [List.length_map, List.enum_length, (hg.permRoles _ _).length_eq]
  simp only [List.length_append, List.length_replicate]
  unfold roleCounts0
  dsimp only
  omega

lemma resetSegments_ok {n : ℕ} {segs : List Seg} (h : SegsOK n segs) :
    SegsOK n (resetSegments segs) := by
  refine map_segparts _ h.1 h.2.1 h.2.2 ?_ (fun s => rfl)
  intro s _ hs
  exact { hs with
    blockage01 := hs.initB01, inflammation01 := hs.initI01, pooling01 := hs.initP01,
    beacon01 := by norm_num, mapping01 := by norm_num,
    pressure01 := by norm_num, scaffold01 := by norm_num }

lemma swarmInit_wf {p : SwarmParams} {g : Rng} (hg : g.Valid) {lens : ℕ → ℚ}
    (hlens : ∀ i, 0 < lens i) : WF (swarmInit p g lens) := by
  unfold swarmInit
  dsimp only
  refine ⟨?_, ?_, ?_, ?_⟩
  · rw [initSegs_length]; norm_num
  · rw [initSegs_length]; exact initSegs_ids lens
  · rw [initSegs_length]; exact initSegs_wf lens hlens
  · rw [initSegs_length]
    exact createAgents_wf (by norm_num) p.swarmSize hg 0 0

lemma swarmFrame_wf {p : SwarmParams} {g : Rng} {resetFrames : List ℕ} {frameIdx : ℕ}
    {st : SimState} (hg : g.Valid) (h : WF st) :
    WF (swarmFrame p g resetFrames frameIdx st) ∧
    (swarmFrame p g resetFrames frameIdx st).segments.length = st.segments.length := by
  unfold swarmFrame
  dsimp only
  split
  · have hres : SegsOK st.segments.length (resetSegments st.segments) :=
      resetSegments_ok ⟨rfl, h.segIds, h.segsWF⟩
    have hwf : WF
        { segments := resetSegments st.segments,
          agents := (createAgents p.swarmSize g st.qIdx st.shufIdx).1,
          qIdx := (createAgents p.swarmSize g st.qIdx st.shufIdx).2.1,
          shufIdx := (createAgents p.swarmSize g st.qIdx st.shufIdx).2.2,
          lastResetTime := (frameIdx : ℚ) / (p.fps : ℚ) } := by
      refine ⟨?_, ?_, ?_, ?_⟩
      · show 0 < (resetSegments st.segments).length
        rw [hres.1]; exact h.segsPos
      · show ∀ i, i < (resetSegments st.segments).length → _
        rw [hres.1]; exact hres.2.1
      · show ∀ s ∈ resetSegments st.segments, SegWF (resetSegments st.segments).length s
        rw [hres.1]; exact hres.2.2
      · show ∀ a ∈ _, AgentWF (resetSegments st.segments).length a
        rw [hres.1]
        exact createAgents_wf h.segsPos p.swarmSize hg st.qIdx st.shufIdx
    have := @swarmTick_wf p g frameIdx
      ((frameIdx : ℚ) / (p.fps : ℚ) - (frameIdx : ℚ) / (p.fps : ℚ)) _ hwf
    refine ⟨this.1, ?_⟩
    rw [this.2.1]
    exact hres.1
  · exact ⟨(swarmTick_wf h).1, (swarmTick_wf h).2.1⟩

lemma swarmRunState_wf {p : SwarmParams} {g : Rng} {lens : ℕ → ℚ} {resetFrames : List ℕ}
    (hg : g.Valid) (hlens : ∀ i, 0 < lens i) (n : ℕ) :
    WF (swarmRunState p g lens resetFrames n) ∧
    (swarmRunState p g lens resetFrames n).segments.length = 6 := by
  induction n with
  | zero => exact ⟨swarmInit_wf hg hlens, initSegs_length lens⟩
  | succ k ih =>
    have := @swarmFrame_wf p g resetFrames k _ hg ih.1
    exact ⟨this.1, this.2.trans ih.2⟩

/-! ### Population counting (claim C6) -/

lemma monitorCount_nonneg (swarmSize : ℕ) : 0 ≤ monitorCount swarmSize := by
  unfold monitorCount roleCounts0
  dsimp only
  omega

lemma roleCountSum_eq_length (agents : List Agent) :
    roleCountSum agents = agents.length := by
  induction agents with
  | nil => rfl
  | cons a l ih =>
    unfold roleCountSum roleCount at ih ⊢
    simp only [List.filter_cons, List.length_cons]
    cases a.role <;> simp only [decide_eq_true_eq] <;>
      split_ifs <;> simp_all <;> omega

lemma roleMap_length (agents : List Agent) (ids : List ℕ) (r : Role) :
    (agents.map (fun a => if a.id ∈ ids then { a with role := r } else a)).length
      = agents.length := by
  rw [List.length_map]

lemma swarmTick_agents_length {p : SwarmParams} {g : Rng} {frameIdx : ℕ} {cycleTime : ℚ}
    {st : SimState} :
    (swarmTick p g frameIdx cycleTime st).agents.length = st.agents.length := by
  unfold swarmTick
  dsimp only
  rw [List.length_reverse, foldl_rev_length]
  simp only [List.length_nil]
  rw [updateRoleSwitching_length]
  omega

lemma swarmRunState_agents_length {p : SwarmParams} {g : Rng} {lens : ℕ → ℚ}
    {resetFrames : List ℕ} (hg : g.Valid) (n : ℕ) :
    (swarmRunState p g lens resetFrames n).agents.length = p.swarmSize := by
  induction n with
  | zero =>
    show (createAgents p.swarmSize g 0 0).1.length = p.swarmSize
    exact createAgents_length p.swarmSize hg 0 0
  | succ k ih =>
    show (swarmFrame p g resetFrames k (swarmRunState p g lens resetFrames k)).agents.length
      = p.swarmSize
    unfold swarmFrame
    dsimp only
    split
    · rw [swarmTick_agents_length]
      exact createAgents_length p.swarmSize hg _ _
    · rw [swarmTick_agents_length]
      exact ih

end SwarmSim

/-! ## Flow-redirection swarm simulation
(`run_flow_redirection_swarm_sim.py`) -/

namespace FlowSim

/-- The role strings of the flow-redirection script. -/
inductive Role where
  | Scout
  | Worker
  | Repair
  | Monitor
deriving DecidableEq, Repr

/-- `compute_sensors`, a pure function of the `pooling` and `reflux`
scalars it reads; the sensor dictionary shape is shared with the swarm
script. -/
def computeSensors (pooling reflux : ℚ) : SwarmSim.SensorFields :=
  let viscosity := 4.5 + 28.0 * pooling + 18.0 * reflux
  let impedance := 1.0 + 60.0 * pooling + 35.0 * reflux
  let reflectance := 0.10 + 0.45 * pooling + 0.25 * reflux
  let strain := 0.15 + 0.6 * pooling + 0.9 * reflux
  let viscNorm := clamp ((viscosity - 4.5) / 40.0) 0 1
  let impNorm := clamp ((impedance - 1.0) / 95.0) 0 1
  let reflNorm := clamp ((reflectance - 0.10) / 0.75) 0 1
  let strainNorm := clamp (strain / 1.2) 0 1
  { viscosity := viscosity
    impedance := impedance
    reflectance := reflectance
    strain := strain
    viscNorm := viscNorm
    impNorm := impNorm
    reflNorm := reflNorm
    strainNorm := strainNorm
    abnormal := (viscNorm + impNorm + reflNorm + strainNorm) / 4.0 }

/-- `VeinSegment` of the flow script.  `length` is the (irrational)
`math.hypot` value, supplied as data; only positivity is used. -/
structure Seg where
  segId : ℕ
  children : List ℕ
  parentId : Option ℕ
  length : ℚ
  isFaulty : Bool
  beacon : ℚ
  mapping : ℚ
  pooling : ℚ
  reflux : ℚ
  valveCompetence : ℚ
  permeability : ℚ
  sensors : SwarmSim.SensorFields
deriving DecidableEq, Repr

instance : Inhabited Seg :=
  ⟨{ segId := 0, children := [], parentId := none, length := 1, isFaulty := false,
     beacon := 0, mapping := 0, pooling := 0, reflux := 0, valveCompetence := 1,
     permeability := 1, sensors := SwarmSim.fields0 }⟩

/-- `SwarmAgent` of the flow script; `id` models object identity. -/
structure Agent where
  id : ℕ
  role : Role
  segmentId : ℕ
  t : ℚ
deriving DecidableEq, Repr

/-- The rng draws used by the flow script: `random()` values and the
role-list shuffle of `create_agents`. -/
structure FlowRng where
  q : ℕ → ℚ
  shufRoles : ℕ → List Role → List Role

structure FlowRng.Valid (g : FlowRng) : Prop where
  q01 : ∀ n, 0 ≤ g.q n ∧ g.q n < 1
  permRoles : ∀ n l, (g.shufRoles n l).Perm l

/-- `build_network` (topology only; drawing coordinates are unused by the
update rules). -/
def buildNetwork (lens : ℕ → ℚ) : List Seg :=
  let mk : ℕ → List ℕ → Option ℕ → Bool → Seg := fun i cs p f =>
    { segId := i, children := cs, parentId := p, length := lens i, isFaulty := f,
      beacon := 0, mapping := 0, pooling := 0, reflux := 0, valveCompetence := 1,
      permeability := 1, sensors := SwarmSim.fields0 }
  [ mk 0 [1, 2, 3] none false,
    mk 1 [] (some 0) false,
    mk 2 [] (some 0) true,
    mk 3 [] (some 0) false ]

/-- `initialize_pathology`. -/
def initPathology (segments : List Seg) : List Seg :=
  segments.map (fun seg =>
    if seg.isFaulty then { seg with pooling := 0.65, valveCompetence := 0.2 }
    else { seg with pooling := 0.05, valveCompetence := 0.95 })

/-- Truncated role counts of `create_agents` (`0.25/0.4/0.2` of the swarm
size; the products are multiples of `0.05`, so float truncation agrees
with rational floor). -/
def roleCounts0 (swarmSize : ℕ) : ℕ × ℕ × ℕ :=
  (swarmSize * 25 / 100, swarmSize * 40 / 100, swarmSize * 20 / 100)

/-- `create_agents`. -/
def createAgents (swarmSize : ℕ) (g : FlowRng) (qStart shufStart : ℕ) :
    List Agent × ℕ × ℕ :=
  let c := roleCounts0 swarmSize
  let roles := List.replicate c.1 Role.Scout ++ List.replicate c.2.1 Role.Worker
    ++ List.replicate c.2.2 Role.Repair
    ++ List.replicate (swarmSize - (c.1 + c.2.1 + c.2.2)) Role.Monitor
  let shuffled := g.shufRoles shufStart roles
  let agents := shuffled.enum.map (fun p =>
    { id := p.1, role := p.2, segmentId := 0, t := g.q (qStart + p.1) })
  (agents, qStart + shuffled.length, shufStart + 1)

/-- `compute_flow_shares`: clamps the faulty segment's permeability in
place and returns the branch shares (a map defined on ids 1, 2, 3).  The
network has exactly one faulty segment, so updating every faulty segment
matches Python's mutation of `next(seg for seg in segments if
seg.is_faulty)`. -/
def computeFlowShares (segments : List Seg) (plugProgress : ℚ) :
    List Seg × (ℕ → Option ℚ) :=
  let faulty := (segments.filter (·.isFaulty)).getD 0 default
  let perm := clamp (1.0 - plugProgress) 0.05 1.0
  let segments := segments.map (fun s =>
    if s.isFaulty then { s with permeability := perm } else s)
  let w1 : ℚ := 1.0
  let w2 : ℚ := 0.9 * perm * (0.35 + 0.65 * faulty.valveCompetence)
  let w3 : ℚ := 0.7
  let total := w1 + w2 + w3
  (segments,
    fun i => if i = 1 then some (w1 / total)
      else if i = 2 then some (w2 / total)
      else if i = 3 then some (w3 / total)
      else none)

/-- The candidate weights of `choose_branch` for the branch ids 1, 2, 3. -/
def branchWeights (flowShares : ℕ → Option ℚ) (segments : List Seg) (role : Role)
    (beaconBias : ℚ) : List ℚ :=
  [1, 2, 3].map (fun segId =>
    let seg := segments.getD segId default
    let w := (flowShares segId).getD 0.0 + 0.05
    let w := if (role = Role.Worker ∨ role = Role.Repair ∨ role = Role.Scout) ∧ seg.isFaulty
      then w + beaconBias else w
    if role = Role.Monitor then w + (1.0 - seg.mapping) * 0.4 else w)

/-- `choose_branch`: the same subtraction loop as `weighted_choice`, with
no zero-total fallback. -/
def chooseBranch (flowShares : ℕ → Option ℚ) (segments : List Seg) (role : Role)
    (r : ℚ) (beaconBias : ℚ) : ℕ :=
  let weights := branchWeights flowShares segments role beaconBias
  SwarmSim.weightedScan ([1, 2, 3].zip weights) (r * weights.sum) ([1, 2, 3].getLastD 0)

/-- The plug state strings. -/
inductive PlugState where
  | inactive
  | forming
  | active
  | dissolving
deriving DecidableEq, Repr

/-- Parameters of `create_flow_redirection_simulation` feeding the loop. -/
structure FlowParams where
  flow : ℚ
  noise : ℚ
  beaconStrength : ℚ
  fps : ℕ
  swarmSize : ℕ

/-- `worker_threshold = max(12, int(swarm_size * 0.08))`. -/
def workerThreshold (swarmSize : ℕ) : ℕ := max 12 (swarmSize * 8 / 100)

/-- Model state carried from frame to frame (tracers are rendering-only
and omitted). -/
structure FlowState where
  segments : List Seg
  agents : List Agent
  plugProgress : ℚ
  plugState : PlugState
  plugTimer : ℚ
  qIdx : ℕ

/-- Mutate the segment carrying a given id. -/
def setSeg (segments : List Seg) (i : ℕ) (f : Seg → Seg) : List Seg :=
  segments.map (fun s => if s.segId = i then f s else s)

/-- Accumulator of the flow script's per-agent loop. -/
structure AgentStep where
  segments : List Seg
  workerOnFaulty : ℕ
  repairOnFaulty : ℕ
  qIdx : ℕ
  agentsRev : List Agent

/-- Scout beacon marking on the faulty branch (lines 402-404). -/
def scoutMark (p : FlowParams) (segs : List Seg) (a : Agent) (seg0 : Seg) : List Seg :=
  if a.role = Role.Scout ∧ seg0.isFaulty ∧ seg0.sensors.abnormal > 0.45 then
    setSeg segs a.segmentId (fun s =>
      { s with beacon := clamp (s.beacon + p.beaconStrength * 0.04) 0 1 })
  else segs

/-- Monitor mapping marking (lines 412-413). -/
def monitorMark (segs : List Seg) (a : Agent) : List Seg :=
  if a.role = Role.Monitor then
    setSeg segs a.segmentId (fun s => { s with mapping := clamp (s.mapping + 0.003) 0 1 })
  else segs

/-- The role-dependent speed chain of the flow movement (lines 416-421). -/
def moveSpeedBase (p : FlowParams) (shares : ℕ → Option ℚ) (seg : Seg) (a : Agent) : ℚ :=
  let baseSpeed := p.flow * (0.7 + 0.8 * ((shares seg.segId).getD 1.0))
  let baseSpeed := if a.role = Role.Worker ∧ seg.isFaulty then baseSpeed * 0.6 else baseSpeed
  let baseSpeed := if a.role = Role.Repair ∧ seg.isFaulty then baseSpeed * 0.5 else baseSpeed
  if a.role = Role.Monitor then baseSpeed * 0.85 else baseSpeed

/-- The movement direction (line 423): reflux pushes agents backwards on
the faulty branch. -/
def moveDirection (seg : Seg) (refluxDirection : ℤ) : ℤ :=
  if seg.isFaulty ∧ refluxDirection < 0 then -1 else 1

/-- Body of the per-agent loop (lines 398-438): scout beacon marking,
worker/repair tallies on the faulty branch, monitor mapping, then
movement with the reflux direction. -/
def agentStep (p : FlowParams) (g : FlowRng) (shares : ℕ → Option ℚ)
    (refluxDirection : ℤ) (st : AgentStep) (a : Agent) : AgentStep :=
  let seg0 := st.segments.getD a.segmentId default
  let segs1 := scoutMark p st.segments a seg0
  let workerOnFaulty :=
    if a.role = Role.Worker ∧ seg0.isFaulty then st.workerOnFaulty + 1 else st.workerOnFaulty
  let repairOnFaulty :=
    if a.role = Role.Repair ∧ seg0.isFaulty then st.repairOnFaulty + 1 else st.repairOnFaulty
  let segs2 := monitorMark segs1 a
  let seg := segs2.getD a.segmentId default
  let direction : ℤ := moveDirection seg refluxDirection
  let speed := max 0.05
    (moveSpeedBase p shares seg a + SwarmSim.uniform (-p.noise) p.noise (g.q st.qIdx))
  let step := speed / seg.length
  let t2 := a.t + step * (direction : ℚ)
  let q1 := st.qIdx + 1
  if t2 > 1.0 ∨ t2 < 0.0 then
    if seg.segId = 0 then
      let beaconBias := (segs2.getD 2 default).beacon * 0.8
      let nextId := chooseBranch shares segs2 a.role (g.q q1) beaconBias
      { segments := segs2, workerOnFaulty := workerOnFaulty,
        repairOnFaulty := repairOnFaulty, qIdx := q1 + 1,
        agentsRev :=
          { a with segmentId := nextId, t := if direction > 0 then 0.0 else 1.0 }
            :: st.agentsRev }
    else
      { segments := segs2, workerOnFaulty := workerOnFaulty,
        repairOnFaulty := repairOnFaulty, qIdx := q1,
        agentsRev :=
          { a with segmentId := 0, t := if direction > 0 then 0.0 else 1.0 }
            :: st.agentsRev }
  else
    { segments := segs2, workerOnFaulty := workerOnFaulty,
      repairOnFaulty := repairOnFaulty, qIdx := q1,
      agentsRev := { a with t := t2 } :: st.agentsRev }

/-- The plug state machine (lines 440-461). -/
def plugMachine (p : FlowParams) (isPlugPhase isRemodeling : Bool) (workerOnFaulty : ℕ)
    (plugState : PlugState) (plugProgress plugTimer : ℚ) : PlugState × ℚ × ℚ :=
  let s :=
    if isPlugPhase then
      if (plugState = .inactive ∨ plugState = .forming) ∧
          workerOnFaulty ≥ workerThreshold p.swarmSize then
        let progress := clamp (plugProgress + 0.02) 0 1
        if progress ≥ 1.0 then (PlugState.active, progress, (4.0 : ℚ))
        else (PlugState.forming, progress, plugTimer)
      else if plugState = .inactive ∨ plugState = .forming then
        (plugState, clamp (plugProgress - 0.006) 0 1, plugTimer)
      else (plugState, plugProgress, plugTimer)
    else (plugState, plugProgress, plugTimer)
  let s :=
    if s.1 = .active then
      let timer := s.2.2 - 1.0 / (p.fps : ℚ)
      if timer ≤ 0 ∨ isRemodeling then (PlugState.dissolving, s.2.1, (4.0 : ℚ))
      else (PlugState.active, s.2.1, timer)
    else s
  if s.1 = .dissolving then
    let progress := clamp (s.2.1 - 1.0 / (4.0 * (p.fps : ℚ))) 0 1
    let timer := s.2.2 - 1.0 / (p.fps : ℚ)
    if progress ≤ 0 then (PlugState.inactive, progress, 0)
    else (PlugState.dissolving, progress, timer)
  else s

/-- `next(seg for seg in segments if seg.is_faulty)` (a single faulty
segment exists in the fixed network). -/
def faultyOf (segs : List Seg) : Seg := (segs.filter (·.isFaulty)).getD 0 default

/-- The clamped reflux base of one frame (line 372). -/
def refluxBaseOf (segs : List Seg) : ℚ :=
  clamp ((1.0 - (faultyOf segs).valveCompetence) * 0.9 * (faultyOf segs).permeability) 0 1

/-- The pulsating reflux of one frame (line 373). -/
def refluxPulseOf (segs : List Seg) (sinVal : ℚ) : ℚ :=
  refluxBaseOf segs * (0.6 + 0.4 * sinVal)

/-- The updated pooling of the faulty segment (lines 377-383). -/
def newPoolingOf (p : FlowParams) (segs : List Seg) (plug sinVal : ℚ) : ℚ :=
  let fs := computeFlowShares segs plug
  let faulty := faultyOf fs.1
  let poolingDelta :=
    (refluxPulseOf fs.1 sinVal * 0.018 - (fs.2 2).getD 0 * 0.013 - plug * 0.02)
      / (p.fps : ℚ) - faulty.valveCompetence * 0.003
  clamp (faulty.pooling + poolingDelta) 0 1

/-- The per-frame segment-field pass (lines 385-396): pooling/valve/reflux
on the faulty branch, reflux reset elsewhere, beacon decay and the
`compute_sensors` recomputation. -/
def flowFieldStep (newPooling valveC refluxPulse : ℚ) (segs : List Seg) : List Seg :=
  segs.map (fun s =>
    let s :=
      if s.isFaulty then
        { s with pooling := newPooling, valveCompetence := valveC,
                 reflux := refluxPulse }
      else { s with reflux := 0.0 }
    let s : Seg := { s with beacon := s.beacon * 0.9 }
    { s with sensors := computeSensors s.pooling s.reflux })

/-- The remodeling valve-competence recovery (lines 463-468). -/
def remodelStep (cond : Bool) (repairCount : ℕ) (segs : List Seg) : List Seg :=
  if cond then
    segs.map (fun s =>
      if s.isFaulty then
        { s with valveCompetence :=
            clamp (s.valveCompetence + 0.0008 * (repairCount : ℚ)) 0 1 }
      else s)
  else segs

/-- One frame of the flow-redirection loop (lines 364-487, without the
rendering-only tracer bookkeeping).  `sinVal` stands for
`math.sin(time_sec * 2.4)`, an irrational quantity passed as data. -/
def flowTick (p : FlowParams) (g : FlowRng) (frameIdx : ℕ) (sinVal : ℚ)
    (st : FlowState) : FlowState :=
  let timeSec : ℚ := (frameIdx : ℚ) / (p.fps : ℚ)
  let isPlugPhase := decide (5.0 ≤ timeSec ∧ timeSec < 12.0)
  let isRemodeling := decide (12.0 ≤ timeSec)
  let fs := computeFlowShares st.segments st.plugProgress
  let shares := fs.2
  let refluxDirection : ℤ :=
    if refluxPulseOf fs.1 sinVal > 0.55 ∧ st.plugProgress < 0.2 then -1 else 1
  let segsA := flowFieldStep (newPoolingOf p st.segments st.plugProgress sinVal)
    (faultyOf fs.1).valveCompetence (refluxPulseOf fs.1 sinVal) fs.1
  let res := st.agents.foldl (agentStep p g shares refluxDirection)
    { segments := segsA, workerOnFaulty := 0, repairOnFaulty := 0, qIdx := st.qIdx,
      agentsRev := [] }
  let plug := plugMachine p isPlugPhase isRemodeling res.workerOnFaulty st.plugState
    st.plugProgress st.plugTimer
  { segments :=
      remodelStep (isRemodeling && decide (res.repairOnFaulty > 0)) res.repairOnFaulty
        res.segments,
    agents := res.agentsRev.reverse, plugProgress := plug.2.1,
    plugState := plug.1, plugTimer := plug.2.2, qIdx := res.qIdx }

/-- The state built by `create_flow_redirection_simulation` before the
frame loop. -/
def flowInit (p : FlowParams) (g : FlowRng) (lens : ℕ → ℚ) : FlowState :=
  let segs := initPathology (buildNetwork lens)
  let c := createAgents p.swarmSize g 0 0
  { segments := segs, agents := c.1, plugProgress := 0, plugState := .inactive,
    plugTimer := 0, qIdx := c.2.1 }

/-- The model state after `n` frames; `sins n` supplies the per-frame
`math.sin` value. -/
def flowRunState (p : FlowParams) (g : FlowRng) (lens : ℕ → ℚ) (sins : ℕ → ℚ) :
    ℕ → FlowState
  | 0 => flowInit p g lens
  | n + 1 => flowTick p g n (sins n) (flowRunState p g lens sins n)

/-! ### Well-formedness invariants of the flow model -/

/-- Bounds and topology validity of one flow segment in a network of `n`
segments. -/
structure SegWF (n : ℕ) (s : Seg) : Prop where
  beacon01 : 0 ≤ s.beacon ∧ s.beacon ≤ 1
  mapping01 : 0 ≤ s.mapping ∧ s.mapping ≤ 1
  pooling01 : 0 ≤ s.pooling ∧ s.pooling ≤ 1
  reflux01 : 0 ≤ s.reflux ∧ s.reflux ≤ 1
  valve01 : 0 ≤ s.valveCompetence ∧ s.valveCompetence ≤ 1
  perm01 : 0 ≤ s.permeability ∧ s.permeability ≤ 1
  lenPos : 0 < s.length
  childrenValid : ∀ c ∈ s.children, c < n
  parentValid : ∀ pid, s.parentId = some pid → pid < n

/-- The agent invariant of the flow script. -/
structure AgentWF (n : ℕ) (a : Agent) : Prop where
  t0 : 0 ≤ a.t
  t1 : a.t ≤ 1
  segValid : a.segmentId < n

/-- Well-formedness of the whole flow state.  `segsPos` records that the
branch targets 1, 2, 3 of `choose_branch` are valid positions. -/
structure WF (st : FlowState) : Prop where
  segsPos : 3 < st.segments.length
  segIds : ∀ i, i < st.segments.length → (st.segments.getD i default).segId = i
  segsWF : ∀ s ∈ st.segments, SegWF st.segments.length s
  agentsWF : ∀ a ∈ st.agents, AgentWF st.segments.length a

/-- List-level facts carried through each segment pass. -/
def SegsOK (n : ℕ) (segs : List Seg) : Prop :=
  segs.length = n ∧ (∀ i, i < n → (segs.getD i default).segId = i) ∧
  ∀ s ∈ segs, SegWF n s

lemma fgetD_map_lt {l : List Seg} (g : Seg → Seg) {i : ℕ} (h : i < l.length) :
    (l.map g).getD i default = g (l.getD i default) := by
  rw [List.getD_eq_getElem (l.map g) default (by simpa using h),
    List.getD_eq_getElem l default h, List.getElem_map]

lemma fmap_segparts {n : ℕ} {segs : List Seg} (g : Seg → Seg) (h : SegsOK n segs)
    (hg : ∀ s ∈ segs, SegWF n s → SegWF n (g s))
    (hgid : ∀ s, (g s).segId = s.segId) : SegsOK n (segs.map g) := by
  obtain ⟨hlen, hids, hwf⟩ := h
  refine ⟨by simpa using hlen, ?_, ?_⟩
  · intro i hi
    rw [fgetD_map_lt g (by omega : i < segs.length), hgid]
    exact hids i hi
  · intro s hs
    rcases List.mem_map.mp hs with ⟨s0, hs0, rfl⟩
    exact hg s0 hs0 (hwf s0 hs0)

lemma fsetSeg_segparts {n : ℕ} {segs : List Seg} (i : ℕ) (f : Seg → Seg) (h : SegsOK n segs)
    (hf : ∀ s ∈ segs, SegWF n s → SegWF n (f s))
    (hfid : ∀ s, (f s).segId = s.segId) : SegsOK n (setSeg segs i f) :=
  fmap_segparts _ h
    (fun s hs hw => by
      split
      · exact hf s hs hw
      · exact hw)
    (fun s => by
      split
      · exact hfid s
      · rfl)

lemma default_segWF (n : ℕ) : SegWF n (default : Seg) :=
  { beacon01 := by decide, mapping01 := by decide, pooling01 := by decide,
    reflux01 := by decide, valve01 := by decide, perm01 := by decide,
    lenPos := by decide,
    childrenValid := by intro c hc; exact absurd hc (List.not_mem_nil c),
    parentValid := by intro pid h; exact Option.noConfusion h }

lemma faultyOf_wf {n : ℕ} {segs : List Seg} (h : ∀ s ∈ segs, SegWF n s) :
    SegWF n (faultyOf segs) := by
  unfold faultyOf
  rcases Nat.eq_zero_or_pos (segs.filter (·.isFaulty)).length with h0 | hpos
  · rw [List.getD_eq_default _ _ (by omega)]
    exact default_segWF n
  · exact h _ (List.mem_of_mem_filter (SwarmSim.getD_mem hpos default))

lemma computeFlowShares_fst (segs : List Seg) (plug : ℚ) :
    (computeFlowShares segs plug).1 = segs.map (fun s =>
      if s.isFaulty then { s with permeability := clamp (1.0 - plug) 0.05 1.0 } else s) :=
  rfl

lemma computeFlowShares_ok {n : ℕ} {segs : List Seg} {plug : ℚ} (h : SegsOK n segs) :
    SegsOK n (computeFlowShares segs plug).1 := by
  rw [computeFlowShares_fst]
  refine fmap_segparts _ h ?_ ?_
  · intro s _ hs
    dsimp only
    split
    · exact { hs with perm01 :=
        ⟨le_trans (by norm_num) (le_clamp _ _ _), clamp_le _ _ _ (by norm_num)⟩ }
    · exact hs
  · intro s
    dsimp only
    split <;> rfl

lemma refluxPulseOf_mem {segs : List Seg} {sinVal : ℚ}
    (hsin : -1 ≤ sinVal ∧ sinVal ≤ 1) :
    0 ≤ refluxPulseOf segs sinVal ∧ refluxPulseOf segs sinVal ≤ 1 := by
  unfold refluxPulseOf refluxBaseOf
  obtain ⟨hb0, hb1⟩ := SwarmSim.clamp01
    ((1.0 - (faultyOf segs).valveCompetence) * 0.9 * (faultyOf segs).permeability)
  constructor
  · apply mul_nonneg hb0
    linarith [hsin.1]
  · nlinarith [hsin.1, hsin.2]

lemma newPoolingOf_mem (p : FlowParams) (segs : List Seg) (plug sinVal : ℚ) :
    0 ≤ newPoolingOf p segs plug sinVal ∧ newPoolingOf p segs plug sinVal ≤ 1 := by
  unfold newPoolingOf
  exact SwarmSim.clamp01 _

lemma flowFieldStep_ok {n : ℕ} {np vc rp : ℚ} {segs : List Seg}
    (hnp : 0 ≤ np ∧ np ≤ 1) (hvc : 0 ≤ vc ∧ vc ≤ 1) (hrp : 0 ≤ rp ∧ rp ≤ 1)
    (h : SegsOK n segs) : SegsOK n (flowFieldStep np vc rp segs) := by
  refine fmap_segparts _ h ?_ ?_
  · intro s _ hs
    dsimp only
    split
    · exact { hs with
        pooling01 := hnp,
        valve01 := hvc,
        reflux01 := hrp,
        beacon01 := SwarmSim.decay01 hs.beacon01 (by norm_num) (by norm_num) }
    · exact { hs with
        reflux01 := by norm_num,
        beacon01 := SwarmSim.decay01 hs.beacon01 (by norm_num) (by norm_num) }
  · intro s
    dsimp only
    split <;> rfl

lemma remodelStep_ok {cond : Bool} {repairCount : ℕ} {n : ℕ} {segs : List Seg}
    (h : SegsOK n segs) : SegsOK n (remodelStep cond repairCount segs) := by
  unfold remodelStep
  split
  · refine fmap_segparts _ h ?_ ?_
    · intro s _ hs
      split
      · exact { hs with valve01 := SwarmSim.clamp01 _ }
      · exact hs
    · intro s
      split <;> rfl
  · exact h

lemma fscoutMark_ok {p : FlowParams} {n : ℕ} {segs : List Seg} {a : Agent} {seg0 : Seg}
    (h : SegsOK n segs) : SegsOK n (scoutMark p segs a seg0) := by
  unfold scoutMark
  split
  · exact fsetSeg_segparts _ _ h
      (fun s _ hs => { hs with beacon01 := SwarmSim.clamp01 _ }) (fun s => rfl)
  · exact h

lemma fmonitorMark_ok {n : ℕ} {segs : List Seg} {a : Agent}
    (h : SegsOK n segs) : SegsOK n (monitorMark segs a) := by
  unfold monitorMark
  split
  · exact fsetSeg_segparts _ _ h
      (fun s _ hs => { hs with mapping01 := SwarmSim.clamp01 _ }) (fun s => rfl)
  · exact h

lemma chooseBranch_mem (shares : ℕ → Option ℚ) (segs : List Seg) (role : Role)
    (r bias : ℚ) : chooseBranch shares segs role r bias ∈ ([1, 2, 3] : List ℕ) := by
  unfold chooseBranch
  dsimp only
  rcases SwarmSim.weightedScan_mem
      (([1, 2, 3] : List ℕ).zip (branchWeights shares segs role bias))
      (r * (branchWeights shares segs role bias).sum)
      (([1, 2, 3] : List ℕ).getLastD 0) with hm | hm
  · rcases List.mem_map.mp hm with ⟨q, hq, he⟩
    rw [← he]
    exact (List.of_mem_zip hq).1
  · rw [hm]
    decide

lemma chooseBranch_lt {n : ℕ} (hn : 3 < n) (shares : ℕ → Option ℚ) (segs : List Seg)
    (role : Role) (r bias : ℚ) : chooseBranch shares segs role r bias < n := by
  have hm := chooseBranch_mem shares segs role r bias
  simp only [List.mem_cons, List.not_mem_nil, or_false] at hm
  rcases hm with h | h | h <;> rw [h] <;> omega

/-- The per-agent loop invariant of the flow script. -/
structure StepWF (n : ℕ) (stp : AgentStep) : Prop where
  ok : SegsOK n stp.segments
  agents : ∀ b ∈ stp.agentsRev, AgentWF n b

lemma fagentStep_wf (p : FlowParams) (g : FlowRng) (shares : ℕ → Option ℚ)
    (refluxDirection : ℤ) {n : ℕ} (hn : 3 < n) {stp : AgentStep} {a : Agent}
    (hst : StepWF n stp) (ha : AgentWF n a) :
    StepWF n (agentStep p g shares refluxDirection stp a) := by
  have h2 : SegsOK n (monitorMark
      (scoutMark p stp.segments a (stp.segments.getD a.segmentId default)) a) :=
    fmonitorMark_ok (fscoutMark_ok hst.ok)
  unfold agentStep
  dsimp only
  split
  · split
    · refine ⟨h2, ?_⟩
      intro b hb
      rcases List.mem_cons.mp hb with rfl | hb
      · refine ⟨?_, ?_, chooseBranch_lt hn _ _ _ _ _⟩
        · dsimp only
          split <;> norm_num
        · dsimp only
          split <;> norm_num
      · exact hst.agents b hb
    · refine ⟨h2, ?_⟩
      intro b hb
      rcases List.mem_cons.mp hb with rfl | hb
      · refine ⟨?_, ?_, (by omega : (0 : ℕ) < n)⟩
        · dsimp only
          split <;> norm_num
        · dsimp only
          split <;> norm_num
      · exact hst.agents b hb
  · rename_i hrange
    rw [not_or, not_lt, not_lt] at hrange
    refine ⟨h2, ?_⟩
    intro b hb
    rcases List.mem_cons.mp hb with rfl | hb
    · exact ⟨hrange.2, hrange.1, ha.segValid⟩
    · exact hst.agents b hb

lemma ffoldl_wf (p : FlowParams) (g : FlowRng) (shares : ℕ → Option ℚ)
    (refluxDirection : ℤ) {n : ℕ} (hn : 3 < n) :
    ∀ (agents : List Agent) (stp : AgentStep), StepWF n stp →
      (∀ a ∈ agents, AgentWF n a) →
      StepWF n (agents.foldl (agentStep p g shares refluxDirection) stp) := by
  intro agents
  induction agents with
  | nil => intro stp h _; exact h
  | cons a l ih =>
    intro stp h hag
    rw [List.foldl_cons]
    exact ih _ (fagentStep_wf p g shares refluxDirection hn h
        (hag a (List.mem_cons_self a l)))
      (fun b hb => hag b (List.mem_cons_of_mem a hb))

lemma fagentStep_rev_length (p : FlowParams) (g : FlowRng) (shares : ℕ → Option ℚ)
    (refluxDirection : ℤ) (stp : AgentStep) (a : Agent) :
    (agentStep p g shares refluxDirection stp a).agentsRev.length
      = stp.agentsRev.length + 1 := by
  unfold agentStep
  dsimp only
  split
  · split <;> rfl
  · rfl

lemma ffoldl_rev_length (p : FlowParams) (g : FlowRng) (shares : ℕ → Option ℚ)
    (refluxDirection : ℤ) :
    ∀ (agents : List Agent) (stp : AgentStep),
      (agents.foldl (agentStep p g shares refluxDirection) stp).agentsRev.length
        = stp.agentsRev.length + agents.length := by
  intro agents
  induction agents with
  | nil => intro stp; simp
  | cons a l ih =>
    intro stp
    rw [List.foldl_cons, ih, fagentStep_rev_length, List.length_cons]
    omega

lemma flowTick_wf {p : FlowParams} {g : FlowRng} {frameIdx : ℕ} {sinVal : ℚ}
    {st : FlowState} (hsin : -1 ≤ sinVal ∧ sinVal ≤ 1) (h : WF st) :
    WF (flowTick p g frameIdx sinVal st) ∧
    (flowTick p g frameIdx sinVal st).segments.length = st.segments.length ∧
    (flowTick p g frameIdx sinVal st).agents.length = st.agents.length := by
  obtain ⟨hpos, hids, hsegs, hagents⟩ := h
  have hfs : SegsOK st.segments.length (computeFlowShares st.segments st.plugProgress).1 :=
    computeFlowShares_ok ⟨rfl, hids, hsegs⟩
  have hfaulty : SegWF st.segments.length
      (faultyOf (computeFlowShares st.segments st.plugProgress).1) :=
    faultyOf_wf hfs.2.2
  have hA : SegsOK st.segments.length
      (flowFieldStep (newPoolingOf p st.segments st.plugProgress sinVal)
        (faultyOf (computeFlowShares st.segments st.plugProgress).1).valveCompetence
        (refluxPulseOf (computeFlowShares st.segments st.plugProgress).1 sinVal)
        (computeFlowShares st.segments st.plugProgress).1) :=
    flowFieldStep_ok (newPoolingOf_mem p st.segments st.plugProgress sinVal)
      hfaulty.valve01 (refluxPulseOf_mem hsin) hfs
  have hfold := ffoldl_wf p g (computeFlowShares st.segments st.plugProgress).2
    (if refluxPulseOf (computeFlowShares st.segments st.plugProgress).1 sinVal > 0.55 ∧
        st.plugProgress < 0.2 then -1 else 1)
    hpos st.agents
    { segments := flowFieldStep (newPoolingOf p st.segments st.plugProgress sinVal)
        (faultyOf (computeFlowShares st.segments st.plugProgress).1).valveCompetence
        (refluxPulseOf (computeFlowShares st.segments st.plugProgress).1 sinVal)
        (computeFlowShares st.segments st.plugProgress).1,
      workerOnFaulty := 0, repairOnFaulty := 0, qIdx := st.qIdx, agentsRev := [] }
    ⟨hA, fun b hb => absurd hb (List.not_mem_nil b)⟩ hagents
  have hB := @remodelStep_ok
    (decide ((12.0 : ℚ) ≤ (frameIdx : ℚ) / (p.fps : ℚ)) && decide
      ((List.foldl (agentStep p g (computeFlowShares st.segments st.plugProgress).2
          (if refluxPulseOf (computeFlowShares st.segments st.plugProgress).1 sinVal
              > 0.55 ∧ st.plugProgress < 0.2 then -1 else 1))
        { segments := flowFieldStep (newPoolingOf p st.segments st.plugProgress sinVal)
            (faultyOf (computeFlowShares st.segments st.plugProgress).1).valveCompetence
            (refluxPulseOf (computeFlowShares st.segments st.plugProgress).1 sinVal)
            (computeFlowShares st.segments st.plugProgress).1,
          workerOnFaulty := 0, repairOnFaulty := 0, qIdx := st.qIdx, agentsRev := [] }
        st.agents).repairOnFaulty > 0))
    ((List.foldl (agentStep p g
          (computeFlowShares st.segments st.plugProgress).2
          (if refluxPulseOf (computeFlowShares st.segments st.plugProgress).1 sinVal
              > 0.55 ∧ st.plugProgress < 0.2 then -1 else 1))
        { segments := flowFieldStep (newPoolingOf p st.segments st.plugProgress sinVal)
            (faultyOf (computeFlowShares st.segments st.plugProgress).1).valveCompetence
            (refluxPulseOf (computeFlowShares st.segments st.plugProgress).1 sinVal)
            (computeFlowShares st.segments st.plugProgress).1,
          workerOnFaulty := 0, repairOnFaulty := 0, qIdx := st.qIdx, agentsRev := [] }
        st.agents).repairOnFaulty)
    st.segments.length _ hfold.ok
  unfold flowTick
  dsimp only
  refine ⟨⟨?_, ?_, ?_, ?_⟩, ?_, ?_⟩
  · rw [hB.1]; exact hpos
  · rw [hB.1]; exact hB.2.1
  · rw [hB.1]; exact hB.2.2
  · rw [hB.1]
    intro a ha
    rw [List.mem_reverse] at ha
    exact hfold.agents a ha
  · exact hB.1
  · rw [List.length_reverse, ffoldl_rev_length]
    simp

/-! ### The flow initial state -/

lemma finitSegs_length (lens : ℕ → ℚ) :
    (initPathology (buildNetwork lens)).length = 4 := rfl

lemma finitSegs_ids (lens : ℕ → ℚ) :
    ∀ i, i < 4 → ((initPathology (buildNetwork lens)).getD i default).segId = i := by
  intro i hi
  interval_cases i <;> rfl

lemma finitSegs_wf (lens : ℕ → ℚ) (hlens : ∀ i, 0 < lens i) :
    ∀ s ∈ initPathology (buildNetwork lens), SegWF 4 s := by
  intro s hs
  simp only [buildNetwork, initPathology, List.map_cons, List.map_nil, List.mem_cons,
    List.not_mem_nil, or_false, reduceIte, Bool.false_eq_true, if_false] at hs
  rcases hs with rfl | rfl | rfl | rfl <;>
    exact { beacon01 := by norm_num, mapping01 := by norm_num, pooling01 := by norm_num,
            reflux01 := by norm_num, valve01 := by norm_num, perm01 := by norm_num,
            lenPos := hlens _,
            childrenValid := by intro c hc; fin_cases hc <;> norm_num,
            parentValid := by
              intro pid hp
              try dsimp only at hp
              first
                | exact Option.noConfusion hp
                | (simp only [Option.some.injEq] at hp; omega) }

lemma fcreateAgents_wf {n : ℕ} (hn : 0 < n) (swarmSize : ℕ) {g : FlowRng}
    (hg : g.Valid) (qStart shufStart : ℕ) :
    ∀ a ∈ (createAgents swarmSize g qStart shufStart).1, AgentWF n a := by
  intro a ha
  unfold createAgents at ha
  dsimp only at ha
  rcases List.mem_map.mp ha with ⟨q, hq, rfl⟩
  exact ⟨(hg.q01 _).1, le_of_lt (lt_of_lt_of_le (hg.q01 _).2 (by norm_num)), hn⟩

lemma flowInit_wf {p : FlowParams} {g : FlowRng} (hg : g.Valid) {lens : ℕ → ℚ}
    (hlens : ∀ i, 0 < lens i) : WF (flowInit p g lens) := by
  unfold flowInit
  dsimp only
  refine ⟨?_, ?_, ?_, ?_⟩
  · rw [finitSegs_length]; norm_num
  · rw [finitSegs_length]; exact finitSegs_ids lens
  · rw [finitSegs_length]; exact finitSegs_wf lens hlens
  · rw [finitSegs_length]
    exact fcreateAgents_wf (by norm_num) p.swarmSize hg 0 0

lemma flowRunState_wf {p : FlowParams} {g : FlowRng} {lens : ℕ → ℚ} {sins : ℕ → ℚ}
    (hg : g.Valid) (hlens : ∀ i, 0 < lens i)
    (hsins : ∀ k, -1 ≤ sins k ∧ sins k ≤ 1) (n : ℕ) :
    WF (flowRunState p g lens sins n) ∧
    (flowRunState p g lens sins n).segments.length = 4 := by
  induction n with
  | zero => exact ⟨flowInit_wf hg hlens, finitSegs_length lens⟩
  | succ k ih =>
    have := @flowTick_wf p g k _ _ (hsins k) ih.1
    exact ⟨this.1, this.2.1.trans ih.2⟩

end FlowSim

namespace SwarmSim

/-- The one-sided scalar bounds under which every role score is
nonnegative (implied by all scalar fields lying in `[0, 1]`). -/
def ScoreOK (s : Seg) : Prop :=
  0 ≤ s.blockage ∧ 0 ≤ s.inflammation ∧ 0 ≤ s.beacon ∧ 0 ≤ s.pooling ∧
  s.mapping ≤ 1 ∧ 0 ≤ s.fields.strainNorm ∧ 0 ≤ s.pressureSpike

lemma scoreSegmentForRole_nonneg {s : Seg} (h : ScoreOK s) (role : Role) :
    0 ≤ scoreSegmentForRole s role := by
  obtain ⟨hb, hi, hbe, hp, hm, hsn, hps⟩ := h
  cases role <;> unfold scoreSegmentForRole <;> nlinarith

instance (s : Seg) : Decidable (ScoreOK s) := by
  unfold ScoreOK
  infer_instance

lemma childWeights_sum_pos {seg : Seg} {segs : List Seg} {role : Role}
    (hok : ∀ c ∈ seg.children, ScoreOK (segs.getD c default))
    (hne : seg.children ≠ []) : 0 < (childWeights seg segs role).sum := by
  apply List.sum_pos
  · intro w hw
    rcases List.mem_map.mp hw with ⟨c, hc, rfl⟩
    have := scoreSegmentForRole_nonneg (hok c hc) role
    show 0 < scoreSegmentForRole (segs.getD c default) role + 0.05
    linarith
  · intro h
    exact hne (List.map_eq_nil.mp h)

lemma weightedChoice_no_fallback {items : List ℕ} {weights : List ℚ} (r : ℚ)
    (hpos : 0 < weights.sum) :
    weightedChoice items weights r
      = weightedScan (items.zip weights) (r * weights.sum) (items.getLastD 0) := by
  unfold weightedChoice
  rw [if_neg (by linarith)]

end SwarmSim

namespace FlowSim

lemma flowShares_nonneg (segs : List Seg) (plug : ℚ)
    (hv : 0 ≤ (faultyOf segs).valveCompetence) :
    ∀ i, 0 ≤ ((computeFlowShares segs plug).2 i).getD 0 := by
  unfold faultyOf at hv
  intro i
  unfold computeFlowShares
  dsimp only
  have hperm : (0.05 : ℚ) ≤ clamp (1.0 - plug) 0.05 1.0 := le_clamp _ _ _
  have hw2 : 0 ≤ 0.9 * clamp (1.0 - plug) 0.05 1.0 *
      (0.35 + 0.65 * ((segs.filter (·.isFaulty)).getD 0 default).valveCompetence) := by
    nlinarith
  have htot : 0 < (1.0 : ℚ) + 0.9 * clamp (1.0 - plug) 0.05 1.0 *
      (0.35 + 0.65 * ((segs.filter (·.isFaulty)).getD 0 default).valveCompetence)
      + 0.7 := by nlinarith
  split_ifs <;> simp only [Option.getD_some, Option.getD_none]
  · exact div_nonneg (by norm_num) htot.le
  · exact div_nonneg hw2 htot.le
  · exact div_nonneg (by norm_num) htot.le
  · exact le_refl 0

lemma branchWeights_ge {shares : ℕ → Option ℚ} {segs : List Seg} {role : Role}
    {bias : ℚ} (hsh : ∀ i, 0 ≤ (shares i).getD 0) (hbias : 0 ≤ bias)
    (hmap : ∀ s ∈ segs, s.mapping ≤ 1) :
    ∀ w ∈ branchWeights shares segs role bias, 0.05 ≤ w := by
  intro w hw
  rcases List.mem_map.mp hw with ⟨c, hc, rfl⟩
  dsimp only
  have hm : (segs.getD c default).mapping ≤ 1 := by
    rcases Nat.lt_or_ge c segs.length with hlt | hge
    · exact hmap _ (SwarmSim.getD_mem hlt default)
    · rw [List.getD_eq_default _ _ hge]
      exact (by norm_num : (0 : ℚ) ≤ 1)
  have h0 := hsh c
  split_ifs <;> nlinarith

lemma branchWeights_sum_pos {shares : ℕ → Option ℚ} {segs : List Seg} {role : Role}
    {bias : ℚ} (hsh : ∀ i, 0 ≤ (shares i).getD 0) (hbias : 0 ≤ bias)
    (hmap : ∀ s ∈ segs, s.mapping ≤ 1) :
    0 < (branchWeights shares segs role bias).sum := by
  apply List.sum_pos
  · intro w hw
    have := branchWeights_ge hsh hbias hmap w hw
    linarith
  · intro h
    exact absurd (congrArg List.length h) (by simp [branchWeights])

end FlowSim

namespace SwarmSim

/-! ### The render routine (`render_frame`, lines 293-381)

The raster image is abstracted as the sequence of drawing commands issued
to `ImageDraw`; colors are integer triples, Python `int()` truncation is
`pyInt`, and the label texts are carried as their data (segment id, sensor
kind and value).  `render_rng.uniform` draws are read from the stream
`rq`, starting at index `rIdx`; `math.hypot(dx, dy) or 1.0` is the
parameter `hyp`. -/

/-- Python `int()`: truncation toward zero (Lean's `Int` division). -/
def pyInt (q : ℚ) : ℤ := q.num / (q.den : ℤ)

/-- An RGB color. -/
abbrev Color := ℤ × ℤ × ℤ

/-- `lerp_color`. -/
def lerpColor (a b : Color) (t : ℚ) : Color :=
  (pyInt ((a.1 : ℚ) + ((b.1 : ℚ) - (a.1 : ℚ)) * t),
   pyInt ((a.2.1 : ℚ) + ((b.2.1 : ℚ) - (a.2.1 : ℚ)) * t),
   pyInt ((a.2.2 : ℚ) + ((b.2.2 : ℚ) - (a.2.2 : ℚ)) * t))

/-- The `sensor_field` CLI choice. -/
inductive SensorKind where
  | viscosity
  | impedance
  | reflectance
  | strain
deriving DecidableEq, Repr

/-- `SENSOR_NORM_KEYS` lookup. -/
def normOf : SensorKind → SensorFields → ℚ
  | .viscosity, f => f.viscNorm
  | .impedance, f => f.impNorm
  | .reflectance, f => f.reflNorm
  | .strain, f => f.strainNorm

/-- The raw sensor value drawn in the labels. -/
def rawOf : SensorKind → SensorFields → ℚ
  | .viscosity, f => f.viscosity
  | .impedance, f => f.impedance
  | .reflectance, f => f.reflectance
  | .strain, f => f.strain

/-- `SENSOR_COLORS`. -/
def sensorColor : SensorKind → Color
  | .viscosity => (220, 80, 80)
  | .impedance => (80, 140, 220)
  | .reflectance => (220, 210, 90)
  | .strain => (255, 120, 40)

/-- `ROLE_SIZES`. -/
def roleSize : Role → ℕ
  | .Scout => 3
  | .Worker => 5
  | .Support => 4
  | .Monitor => 3

/-- `ROLE_COLORS`. -/
def roleColor : Role → Color
  | .Scout => (70, 190, 235)
  | .Worker => (245, 140, 60)
  | .Support => (120, 200, 120)
  | .Monitor => (90, 160, 180)

/-- `ROLE_OUTLINES`. -/
def roleOutline : Role → Color
  | .Scout => (40, 120, 170)
  | .Worker => (170, 90, 40)
  | .Support => (70, 140, 70)
  | .Monitor => (30, 90, 110)

/-- One drawing-library call. -/
inductive DrawCmd where
  | line (a b : ℚ × ℚ) (color : Color) (width : ℤ)
  | ellipseO (x0 y0 x1 y1 : ℚ) (outline : Color) (w : ℕ)
  | ellipseF (x0 y0 x1 y1 : ℚ) (fill : Color) (outline : Color)
  | label (x y : ℚ) (segId : ℕ) (kind : SensorKind) (value : ℚ)
  | uiPanel (width height uiData : ℕ)
deriving DecidableEq, Repr

/-- `VeinSegment.midpoint`. -/
def midpoint (s : Seg) : ℚ × ℚ :=
  ((s.start.1 + s.endP.1) / 2, (s.start.2 + s.endP.2) / 2)

/-- The per-segment vessel drawing (lines 313-341). -/
def renderSegCmds (sk : SensorKind) (sensorOverlay : Bool) (seg : Seg) : List DrawCmd :=
  let sensorNorm := normOf sk seg.fields
  let base : Color := (170, 110, 120)
  let c1 := if sensorOverlay then lerpColor base (sensorColor sk) sensorNorm else base
  let w1 : ℤ := if sensorOverlay then pyInt (6 * sensorNorm) else 0
  let c2 := if seg.scaffold > 0.2 then lerpColor c1 (170, 240, 170) (min 1.0 seg.scaffold)
    else c1
  let w2 : ℤ := if seg.scaffold > 0.2 then w1 + 4 else w1
  let c3 := if seg.blockage > 0.6 ∧ sensorOverlay = false then
      lerpColor c2 (200, 90, 90) (min 1.0 seg.blockage)
    else c2
  [DrawCmd.line seg.start seg.endP (200, 160, 165) (14 + w2 + 4),
   DrawCmd.line seg.start seg.endP c3 (14 + w2)] ++
  (if seg.pressureSpike > 0.4 then
    let m := midpoint seg
    let r : ℚ := ((6 + pyInt (8 * seg.pressureSpike) : ℤ) : ℚ)
    [DrawCmd.ellipseO (m.1 - r) (m.2 - r) (m.1 + r) (m.2 + r) (255, 120, 60) 2]
  else [])

/-- `label_segments`: the two segments with the highest sensor norm
(Python's stable descending sort). -/
def labelSegs (sk : SensorKind) (segs : List Seg) : List Seg :=
  (segs.mergeSort (fun a b => decide (normOf sk b.fields ≤ normOf sk a.fields))).take 2

/-- The overlay labels (lines 343-351). -/
def labelCmds (sk : SensorKind) (segs : List Seg) : List DrawCmd :=
  ((labelSegs sk segs).zip [((10 : ℚ), (-18 : ℚ)), (10, 12)]).filterMap (fun pr =>
    if normOf sk pr.1.fields < 0.55 then none
    else some (DrawCmd.label ((midpoint pr.1).1 + pr.2.1) ((midpoint pr.1).2 + pr.2.2)
      pr.1.segId sk (rawOf sk pr.1.fields)))

/-- The agent drawing loop (lines 353-375), threading the render-rng draw
index: two `uniform(-0.8, 0.8)` jitter draws per agent. -/
def agentCmds (segs : List Seg) (hyp : ℚ × ℚ → ℚ) (rq : ℕ → ℚ) :
    List Agent → ℕ → List DrawCmd × ℕ
  | [], i => ([], i)
  | a :: rest, i =>
    let seg := segs.getD a.segmentId default
    let dx := seg.endP.1 - seg.start.1
    let dy := seg.endP.2 - seg.start.2
    let len := hyp (dx, dy)
    let ux := dx / len
    let uy := dy / len
    let px := -uy
    let py := ux
    let off0 := uniform (-0.8) 0.8 (rq i)
    let off1 := uniform (-0.8) 0.8 (rq (i + 1))
    let x := seg.start.1 + ux * seg.length * a.t + px * off0
    let y := seg.start.2 + uy * seg.length * a.t + py * off1
    let r : ℚ := (roleSize a.role : ℚ)
    let body := if a.role = Role.Monitor then
        [DrawCmd.ellipseO (x - r) (y - r) (x + r) (y + r) (roleOutline a.role) 1]
      else
        [DrawCmd.ellipseF (x - r) (y - r) (x + r) (y + r) (roleColor a.role)
          (roleOutline a.role)]
    let extra := if a.role = Role.Scout then
        [DrawCmd.ellipseO (x - r - 2) (y - r - 2) (x + r + 2) (y + r + 2) (200, 230, 250) 1]
      else []
    let res := agentCmds segs hyp rq rest (i + 2)
    (body ++ extra ++ res.1, res.2)

/-- `render_frame`: recomputes every segment's sensor fields (the only
mutation of the model state), draws the vessels, overlay labels, agents
(with rng jitter) and the UI panel.  Returns the command list, the
mutated segment list and the advanced rng index. -/
def renderFrame (width height : ℕ) (segments : List Seg) (agents : List Agent)
    (sk : SensorKind) (sensorOverlay : Bool) (uiData : ℕ)
    (hyp : ℚ × ℚ → ℚ) (rq : ℕ → ℚ) (rIdx : ℕ) :
    List DrawCmd × List Seg × ℕ :=
  let segs := segments.map (fun s =>
    { s with fields := computeFields s.blockage s.inflammation s.pooling s.pressureSpike s.scaffold })
  let segCmds := (segs.map (renderSegCmds sk sensorOverlay)).join
  let lblCmds := if sensorOverlay then labelCmds sk segs else []
  let ag := agentCmds segs hyp rq agents rIdx
  (segCmds ++ lblCmds ++ ag.1 ++ [DrawCmd.uiPanel width height uiData], segs, ag.2)

/-- The trunk segment with pristine scalars, used as a rendering input. -/
def cexSeg : Seg :=
  { segId := 0, start := (80, 300), endP := (260, 300), children := [], parentId := none,
    length := 180, blockage := 0, inflammation := 0, pooling := 0, beacon := 0,
    mapping := 0, pressureSpike := 0, scaffold := 0, affected := false, fields := fields0,
    initBlockage := 0, initInflammation := 0, initPooling := 0 }

/-- A worker halfway along the trunk. -/
def cexAgent : Agent :=
  { id := 0, role := Role.Worker, segmentId := 0, t := 1/2, direction := 1 }

end SwarmSim

/-! ## Concrete run data (used by the claim witnesses) -/

/-- A concrete admissible generator: every `random()` draw is `0` and the
shuffles are the identity permutation. -/
def constRng : SwarmSim.Rng :=
  { q := fun _ => 0, shufAgents := fun _ l => l, shufRoles := fun _ l => l }

lemma constRng_valid : constRng.Valid :=
  ⟨fun _ => ⟨le_refl 0, (by norm_num : (0 : ℚ) < 1)⟩, fun _ l => List.Perm.refl l,
    fun _ l => List.Perm.refl l⟩

/-- The analogous generator for the flow script. -/
def fconstRng : FlowSim.FlowRng := { q := fun _ => 0, shufRoles := fun _ l => l }

lemma fconstRng_valid : fconstRng.Valid :=
  ⟨fun _ => ⟨le_refl 0, (by norm_num : (0 : ℚ) < 1)⟩, fun _ l => List.Perm.refl l⟩

/-- Concrete positive segment lengths. -/
def oneLens : ℕ → ℚ := fun _ => 1

lemma oneLens_pos : ∀ i, 0 < oneLens i := fun _ => one_pos

/-- A concrete admissible `math.sin` stream. -/
def zeroSins : ℕ → ℚ := fun _ => 0

lemma zeroSins_mem : ∀ k, -1 ≤ zeroSins k ∧ zeroSins k ≤ 1 :=
  fun _ => ⟨(by norm_num : (-1 : ℚ) ≤ 0), (by norm_num : (0 : ℚ) ≤ 1)⟩

/-- Concrete swarm parameters (rest mode, 20 agents, 30 fps). -/
def pW : SwarmSim.SwarmParams :=
  { isActivity := false, flow := 1, noise := 0, beaconStrength := 1,
    roleSwitch := false, fps := 30, swarmSize := 20 }

/-- Concrete flow parameters. -/
def fpW : FlowSim.FlowParams :=
  { flow := 1, noise := 0, beaconStrength := 1, fps := 30, swarmSize := 20 }

/-! ## Claim C2: declared field bounds hold at every tick -/

/-- C2: for every tick of every simulation run, every scalar health/state
field stays within its declared bound — `[0, 1]` for the vein-segment
fields of both swarm scripts, `[0, capacity]` for each metro coach's
medicine level, and `[0, 100]` for the metro clot size. -/
theorem field_bounds (n : ℕ)
    (p : SwarmSim.SwarmParams) (g : SwarmSim.Rng) (lens : ℕ → ℚ) (resetFrames : List ℕ)
    (hg : g.Valid) (hlens : ∀ i, 0 < lens i)
    (fp : FlowSim.FlowParams) (fg : FlowSim.FlowRng) (flens : ℕ → ℚ) (sins : ℕ → ℚ)
    (hfg : fg.Valid) (hflens : ∀ i, 0 < flens i)
    (hsins : ∀ k, -1 ≤ sins k ∧ sins k ≤ 1) :
    (∀ c ∈ (Metro.run n).coaches,
      0 ≤ c.medicineCurrent ∧ c.medicineCurrent ≤ c.medicineCapacity) ∧
    (0 ≤ (Metro.run n).clotRemaining ∧ (Metro.run n).clotRemaining ≤ 100) ∧
    (∀ s ∈ (SwarmSim.swarmRunState p g lens resetFrames n).segments,
      (0 ≤ s.blockage ∧ s.blockage ≤ 1) ∧ (0 ≤ s.inflammation ∧ s.inflammation ≤ 1) ∧
      (0 ≤ s.pooling ∧ s.pooling ≤ 1) ∧ (0 ≤ s.beacon ∧ s.beacon ≤ 1) ∧
      (0 ≤ s.mapping ∧ s.mapping ≤ 1) ∧ (0 ≤ s.pressureSpike ∧ s.pressureSpike ≤ 1) ∧
      (0 ≤ s.scaffold ∧ s.scaffold ≤ 1)) ∧
    (∀ s ∈ (FlowSim.flowRunState fp fg flens sins n).segments,
      (0 ≤ s.pooling ∧ s.pooling ≤ 1) ∧ (0 ≤ s.beacon ∧ s.beacon ≤ 1) ∧
      (0 ≤ s.mapping ∧ s.mapping ≤ 1)) := by
  refine ⟨(Metro.MetroBounds_run n).1,
    ⟨(Metro.MetroBounds_run n).2.1, (Metro.MetroBounds_run n).2.2.1⟩, ?_, ?_⟩
  · intro s hs
    have hwf := ((SwarmSim.swarmRunState_wf hg hlens n).1).segsWF s hs
    exact ⟨hwf.blockage01, hwf.inflammation01, hwf.pooling01, hwf.beacon01,
      hwf.mapping01, hwf.pressure01, hwf.scaffold01⟩
  · intro s hs
    have hwf := ((FlowSim.flowRunState_wf hfg hflens hsins n).1).segsWF s hs
    exact ⟨hwf.pooling01, hwf.beacon01, hwf.mapping01⟩

/-- Witness: the bounds theorem applied at a concrete run (tick 3, the
constant generator, unit lengths). -/
theorem field_bounds_witness :
    constRng.Valid ∧ (∀ i, 0 < oneLens i) ∧ fconstRng.Valid ∧
    (∀ k, -1 ≤ zeroSins k ∧ zeroSins k ≤ 1) ∧
    ((∀ c ∈ (Metro.run 3).coaches,
      0 ≤ c.medicineCurrent ∧ c.medicineCurrent ≤ c.medicineCapacity) ∧
    (0 ≤ (Metro.run 3).clotRemaining ∧ (Metro.run 3).clotRemaining ≤ 100) ∧
    (∀ s ∈ (SwarmSim.swarmRunState pW constRng oneLens [] 3).segments,
      (0 ≤ s.blockage ∧ s.blockage ≤ 1) ∧ (0 ≤ s.inflammation ∧ s.inflammation ≤ 1) ∧
      (0 ≤ s.pooling ∧ s.pooling ≤ 1) ∧ (0 ≤ s.beacon ∧ s.beacon ≤ 1) ∧
      (0 ≤ s.mapping ∧ s.mapping ≤ 1) ∧ (0 ≤ s.pressureSpike ∧ s.pressureSpike ≤ 1) ∧
      (0 ≤ s.scaffold ∧ s.scaffold ≤ 1)) ∧
    (∀ s ∈ (FlowSim.flowRunState fpW fconstRng oneLens zeroSins 3).segments,
      (0 ≤ s.pooling ∧ s.pooling ≤ 1) ∧ (0 ≤ s.beacon ∧ s.beacon ≤ 1) ∧
      (0 ≤ s.mapping ∧ s.mapping ≤ 1))) :=
  ⟨constRng_valid, oneLens_pos, fconstRng_valid, zeroSins_mem,
    field_bounds 3 pW constRng oneLens [] constRng_valid oneLens_pos
      fpW fconstRng oneLens zeroSins fconstRng_valid oneLens_pos zeroSins_mem⟩

/-! ## Claim C5: agent parameters stay valid -/

/-- C5: at the end of every tick of both swarm scripts, every agent's
along-segment parameter `t` lies in `[0, 1]` and its segment reference is
a valid index into the segment list. -/
theorem agent_position_valid (n : ℕ)
    (p : SwarmSim.SwarmParams) (g : SwarmSim.Rng) (lens : ℕ → ℚ) (resetFrames : List ℕ)
    (hg : g.Valid) (hlens : ∀ i, 0 < lens i)
    (fp : FlowSim.FlowParams) (fg : FlowSim.FlowRng) (flens : ℕ → ℚ) (sins : ℕ → ℚ)
    (hfg : fg.Valid) (hflens : ∀ i, 0 < flens i)
    (hsins : ∀ k, -1 ≤ sins k ∧ sins k ≤ 1) :
    (∀ a ∈ (SwarmSim.swarmRunState p g lens resetFrames n).agents,
      0 ≤ a.t ∧ a.t ≤ 1 ∧
      a.segmentId < (SwarmSim.swarmRunState p g lens resetFrames n).segments.length) ∧
    (∀ a ∈ (FlowSim.flowRunState fp fg flens sins n).agents,
      0 ≤ a.t ∧ a.t ≤ 1 ∧
      a.segmentId < (FlowSim.flowRunState fp fg flens sins n).segments.length) := by
  constructor
  · intro a ha
    have hwf := ((SwarmSim.swarmRunState_wf hg hlens n).1).agentsWF a ha
    exact ⟨hwf.t0, hwf.t1, hwf.segValid⟩
  · intro a ha
    have hwf := ((FlowSim.flowRunState_wf hfg hflens hsins n).1).agentsWF a ha
    exact ⟨hwf.t0, hwf.t1, hwf.segValid⟩

/-- Witness: the agent-validity theorem at a concrete run. -/
theorem agent_position_valid_witness :
    constRng.Valid ∧ (∀ i, 0 < oneLens i) ∧ fconstRng.Valid ∧
    (∀ k, -1 ≤ zeroSins k ∧ zeroSins k ≤ 1) ∧
    ((∀ a ∈ (SwarmSim.swarmRunState pW constRng oneLens [] 2).agents,
      0 ≤ a.t ∧ a.t ≤ 1 ∧
      a.segmentId < (SwarmSim.swarmRunState pW constRng oneLens [] 2).segments.length) ∧
    (∀ a ∈ (FlowSim.flowRunState fpW fconstRng oneLens zeroSins 2).agents,
      0 ≤ a.t ∧ a.t ≤ 1 ∧
      a.segmentId < (FlowSim.flowRunState fpW fconstRng oneLens zeroSins 2).segments.length)) :=
  ⟨constRng_valid, oneLens_pos, fconstRng_valid, zeroSins_mem,
    agent_position_valid 2 pW constRng oneLens [] constRng_valid oneLens_pos
      fpW fconstRng oneLens zeroSins fconstRng_valid oneLens_pos zeroSins_mem⟩

/-! ## Claim C6: the swarm population is conserved across roles -/

/-- C6: `create_agents` produces exactly `swarm_size` agents (the Monitor
remainder is never negative), the periodic role switch only reassigns
roles (the agent list length never changes), and at every tick of the run
the role counts summed over the fixed role order equal the fixed
population size. -/
theorem role_population_conserved (n : ℕ)
    (p : SwarmSim.SwarmParams) (g : SwarmSim.Rng) (lens : ℕ → ℚ) (resetFrames : List ℕ)
    (hg : g.Valid) :
    0 ≤ SwarmSim.monitorCount p.swarmSize ∧
    (∀ qStart shufStart,
      (SwarmSim.createAgents p.swarmSize g qStart shufStart).1.length = p.swarmSize) ∧
    (∀ (shufStart fps frameIdx : ℕ) (roleSwitch : Bool) (segs : List SwarmSim.Seg)
      (agents : List SwarmSim.Agent),
      (SwarmSim.updateRoleSwitching g shufStart roleSwitch fps frameIdx segs
        agents).length = agents.length) ∧
    SwarmSim.roleCountSum (SwarmSim.swarmRunState p g lens resetFrames n).agents
      = p.swarmSize ∧
    (SwarmSim.swarmRunState p g lens resetFrames n).agents.length = p.swarmSize := by
  refine ⟨SwarmSim.monitorCount_nonneg p.swarmSize,
    fun qStart shufStart => SwarmSim.createAgents_length p.swarmSize hg qStart shufStart,
    fun _ _ _ _ _ _ => SwarmSim.updateRoleSwitching_length, ?_,
    SwarmSim.swarmRunState_agents_length hg n⟩
  rw [SwarmSim.roleCountSum_eq_length]
  exact SwarmSim.swarmRunState_agents_length hg n

/-- Witness: population conservation at a concrete run. -/
theorem role_population_conserved_witness :
    constRng.Valid ∧
    (0 ≤ SwarmSim.monitorCount pW.swarmSize ∧
    (∀ qStart shufStart,
      (SwarmSim.createAgents pW.swarmSize constRng qStart shufStart).1.length
        = pW.swarmSize) ∧
    (∀ (shufStart fps frameIdx : ℕ) (roleSwitch : Bool) (segs : List SwarmSim.Seg)
      (agents : List SwarmSim.Agent),
      (SwarmSim.updateRoleSwitching constRng shufStart roleSwitch fps frameIdx segs
        agents).length = agents.length) ∧
    SwarmSim.roleCountSum (SwarmSim.swarmRunState pW constRng oneLens [] 2).agents
      = pW.swarmSize ∧
    (SwarmSim.swarmRunState pW constRng oneLens [] 2).agents.length = pW.swarmSize) :=
  ⟨constRng_valid, role_population_conserved 2 pW constRng oneLens [] constRng_valid⟩

/-! ## Claim C4: identical seeds give identical replays -/

/-- C4: a Python `random.Random(seed)` instance is a pure stream of draws
determined by the seed, modelled by the `Rng`/`FlowRng` streams.  If two
runs of either script see the same draw streams and the same input
parameters, their model states — and hence all agent positions, roles and
segment field values — coincide tick for tick. -/
theorem deterministic_replay
    (p : SwarmSim.SwarmParams) (g₁ g₂ : SwarmSim.Rng) (lens : ℕ → ℚ)
    (resetFrames : List ℕ)
    (hq : ∀ k, g₁.q k = g₂.q k)
    (hsa : ∀ k l, g₁.shufAgents k l = g₂.shufAgents k l)
    (hsr : ∀ k l, g₁.shufRoles k l = g₂.shufRoles k l)
    (fp : FlowSim.FlowParams) (fg₁ fg₂ : FlowSim.FlowRng) (flens sins : ℕ → ℚ)
    (hfq : ∀ k, fg₁.q k = fg₂.q k)
    (hfsr : ∀ k l, fg₁.shufRoles k l = fg₂.shufRoles k l) :
    ∀ n, SwarmSim.swarmRunState p g₁ lens resetFrames n
        = SwarmSim.swarmRunState p g₂ lens resetFrames n ∧
      FlowSim.flowRunState fp fg₁ flens sins n = FlowSim.flowRunState fp fg₂ flens sins n := by
  have hg : g₁ = g₂ := by
    cases g₁
    cases g₂
    simp only [SwarmSim.Rng.mk.injEq]
    exact ⟨funext hq, funext fun k => funext (hsa k), funext fun k => funext (hsr k)⟩
  have hfg : fg₁ = fg₂ := by
    cases fg₁
    cases fg₂
    simp only [FlowSim.FlowRng.mk.injEq]
    exact ⟨funext hfq, funext fun k => funext (hfsr k)⟩
  subst hg
  subst hfg
  exact fun n => ⟨rfl, rfl⟩

/-- Witness: the replay theorem at the concrete generator. -/
theorem deterministic_replay_witness :
    (∀ k, constRng.q k = constRng.q k) ∧
    (SwarmSim.swarmRunState pW constRng oneLens [] 5
        = SwarmSim.swarmRunState pW constRng oneLens [] 5 ∧
      FlowSim.flowRunState fpW fconstRng oneLens zeroSins 5
        = FlowSim.flowRunState fpW fconstRng oneLens zeroSins 5) :=
  ⟨fun _ => rfl,
    deterministic_replay pW constRng constRng oneLens [] (fun _ => rfl)
      (fun _ _ => rfl) (fun _ _ => rfl) fpW fconstRng fconstRng oneLens zeroSins
      (fun _ => rfl) (fun _ _ => rfl) 5⟩

/-! ## Claim C8: branch choice is total -/

/-- C8: in both scripts the branch-choice rule is total.  In the swarm
script, when the children's scalar fields are admissible every candidate
weight carries the `0.05` additive floor, so the total weight is strictly
positive, the zero-total uniform fallback of `weighted_choice` is never
taken, and the chosen segment is one of the current segment's children
(the root segment when there are no children).  In the flow script the
three branch weights likewise sum to a positive total and the chosen
branch is always one of the children 1, 2, 3 of the junction. -/
theorem branch_choice_total
    (seg : SwarmSim.Seg) (segs : List SwarmSim.Seg) (role : SwarmSim.Role) (r : ℚ)
    (hok : ∀ c ∈ seg.children, SwarmSim.ScoreOK (segs.getD c default))
    (fsegs : List FlowSim.Seg) (fplug : ℚ) (frole : FlowSim.Role) (fr bias : ℚ)
    (hv : 0 ≤ (FlowSim.faultyOf fsegs).valveCompetence) (hbias : 0 ≤ bias)
    (hmap : ∀ s ∈ fsegs, s.mapping ≤ 1) :
    (seg.children ≠ [] →
      0 < (SwarmSim.childWeights seg segs role).sum ∧
      SwarmSim.weightedChoice seg.children (SwarmSim.childWeights seg segs role) r
        = SwarmSim.weightedScan
            (seg.children.zip (SwarmSim.childWeights seg segs role))
            (r * (SwarmSim.childWeights seg segs role).sum)
            (seg.children.getLastD 0) ∧
      ∃ c ∈ seg.children,
        SwarmSim.chooseNextSegment seg segs role r = segs.getD c default) ∧
    (seg.children = [] →
      SwarmSim.chooseNextSegment seg segs role r = segs.getD 0 default) ∧
    0 < (FlowSim.branchWeights (FlowSim.computeFlowShares fsegs fplug).2 fsegs
      frole bias).sum ∧
    FlowSim.chooseBranch (FlowSim.computeFlowShares fsegs fplug).2 fsegs frole fr bias
      ∈ ([1, 2, 3] : List ℕ) := by
  refine ⟨?_, ?_, ?_, FlowSim.chooseBranch_mem _ _ _ _ _⟩
  · intro hne
    have hpos := @SwarmSim.childWeights_sum_pos seg segs role hok hne
    refine ⟨hpos, SwarmSim.weightedChoice_no_fallback r hpos, ?_⟩
    unfold SwarmSim.chooseNextSegment
    rw [if_neg hne]
    exact ⟨SwarmSim.weightedChoice seg.children (SwarmSim.childWeights seg segs role) r,
      SwarmSim.weightedChoice_mem hne hpos, rfl⟩
  · intro hnil
    unfold SwarmSim.chooseNextSegment
    rw [if_pos hnil]
  · exact FlowSim.branchWeights_sum_pos (FlowSim.flowShares_nonneg fsegs fplug hv)
      hbias hmap

/-- Witness: branch-choice totality at the freshly initialised networks of
both scripts (current segment: the swarm trunk; flow junction bias 0). -/
theorem branch_choice_total_witness :
    (∀ c ∈ ((SwarmSim.initPathology (SwarmSim.buildVeinNetwork oneLens)).getD 0
        default).children,
      SwarmSim.ScoreOK
        ((SwarmSim.initPathology (SwarmSim.buildVeinNetwork oneLens)).getD c default)) ∧
    0 ≤ (FlowSim.faultyOf
      (FlowSim.initPathology (FlowSim.buildNetwork oneLens))).valveCompetence ∧
    (0 : ℚ) ≤ 0 ∧
    (∀ s ∈ FlowSim.initPathology (FlowSim.buildNetwork oneLens), s.mapping ≤ 1) ∧
    (((SwarmSim.initPathology (SwarmSim.buildVeinNetwork oneLens)).getD 0
        default).children ≠ [] →
      0 < (SwarmSim.childWeights
        ((SwarmSim.initPathology (SwarmSim.buildVeinNetwork oneLens)).getD 0 default)
        (SwarmSim.initPathology (SwarmSim.buildVeinNetwork oneLens))
        SwarmSim.Role.Worker).sum ∧
      SwarmSim.weightedChoice
          ((SwarmSim.initPathology (SwarmSim.buildVeinNetwork oneLens)).getD 0
            default).children
          (SwarmSim.childWeights
            ((SwarmSim.initPathology (SwarmSim.buildVeinNetwork oneLens)).getD 0 default)
            (SwarmSim.initPathology (SwarmSim.buildVeinNetwork oneLens))
            SwarmSim.Role.Worker) (1/3)
        = SwarmSim.weightedScan
            ((((SwarmSim.initPathology (SwarmSim.buildVeinNetwork oneLens)).getD 0
              default).children).zip
              (SwarmSim.childWeights
                ((SwarmSim.initPathology (SwarmSim.buildVeinNetwork oneLens)).getD 0
                  default)
                (SwarmSim.initPathology (SwarmSim.buildVeinNetwork oneLens))
                SwarmSim.Role.Worker))
            ((1/3) * (SwarmSim.childWeights
              ((SwarmSim.initPathology (SwarmSim.buildVeinNetwork oneLens)).getD 0
                default)
              (SwarmSim.initPathology (SwarmSim.buildVeinNetwork oneLens))
              SwarmSim.Role.Worker).sum)
            ((((SwarmSim.initPathology (SwarmSim.buildVeinNetwork oneLens)).getD 0
              default).children).getLastD 0) ∧
      ∃ c ∈ ((SwarmSim.initPathology (SwarmSim.buildVeinNetwork oneLens)).getD 0
          default).children,
        SwarmSim.chooseNextSegment
            ((SwarmSim.initPathology (SwarmSim.buildVeinNetwork oneLens)).getD 0 default)
            (SwarmSim.initPathology (SwarmSim.buildVeinNetwork oneLens))
            SwarmSim.Role.Worker (1/3)
          = (SwarmSim.initPathology (SwarmSim.buildVeinNetwork oneLens)).getD c
              default) := by
  have h := branch_choice_total
    ((SwarmSim.initPathology (SwarmSim.buildVeinNetwork oneLens)).getD 0 default)
    (SwarmSim.initPathology (SwarmSim.buildVeinNetwork oneLens))
    SwarmSim.Role.Worker (1/3)
    (by decide)
    (FlowSim.initPathology (FlowSim.buildNetwork oneLens)) 0 FlowSim.Role.Worker
    (1/3) 0 (by decide) (le_refl 0) (by decide)
  exact ⟨by decide, by decide, le_refl 0, by decide, h.1⟩

/-! ## Claim C9: the derived sensor fields -/

/-- C9 counterexample: the swarm script's `strain` sensor is *not* a fixed
linear (affine) blend of the five primary scalar fields, even on the
declared `[0, 1]` domain: the `scaffold > 0.01` branch rescales the blend
by `max(0.35, 1 − 0.6·scaffold)`, which is multiplicative.  The four
corner evaluations `(ps, sc) ∈ {0, 1}²` (at zero blockage, inflammation
and pooling) are inconsistent with any affine form. -/
theorem sensor_strain_not_linear :
    ¬ ∃ c0 c1 c2 c3 c4 c5 : ℚ, ∀ b i p ps sc : ℚ,
      0 ≤ b ∧ b ≤ 1 → 0 ≤ i ∧ i ≤ 1 → 0 ≤ p ∧ p ≤ 1 → 0 ≤ ps ∧ ps ≤ 1 →
      0 ≤ sc ∧ sc ≤ 1 →
      (SwarmSim.computeFields b i p ps sc).strain
        = c0 + c1 * b + c2 * i + c3 * p + c4 * ps + c5 * sc := by
  rintro ⟨c0, c1, c2, c3, c4, c5, h⟩
  have h00 := h 0 0 0 0 0 (by norm_num) (by norm_num) (by norm_num) (by norm_num)
    (by norm_num)
  have h10 := h 0 0 0 1 0 (by norm_num) (by norm_num) (by norm_num) (by norm_num)
    (by norm_num)
  have h01 := h 0 0 0 0 1 (by norm_num) (by norm_num) (by norm_num) (by norm_num)
    (by norm_num)
  have h11 := h 0 0 0 1 1 (by norm_num) (by norm_num) (by norm_num) (by norm_num)
    (by norm_num)
  rw [(by decide : (SwarmSim.computeFields 0 0 0 0 0).strain = 0.15)] at h00
  rw [(by decide : (SwarmSim.computeFields 0 0 0 1 0).strain = 1.2)] at h10
  rw [(by decide : (SwarmSim.computeFields 0 0 0 0 1).strain = 0.06)] at h01
  rw [(by decide : (SwarmSim.computeFields 0 0 0 1 1).strain = 0.48)] at h11
  linarith

/-- C9 (amended): the sensor fields are recomputed each tick from the
primary scalars alone — `compute_fields` is a pure function, so equal
scalars give equal sensor dictionaries, and the tick pass maps it over
every segment.  `viscosity`, `impedance` and `reflectance` are fixed
linear blends; `strain` is the linear blend `0.15 + 0.55·pooling +
1.05·pressure_spike` with a multiplicative scaffold damping; each
normalized form is a clamped linear rescale into `[0, 1]`.  The flow
script's four sensors are all exactly linear. -/
theorem sensor_fields_recomputed :
    (∀ b i p ps sc : ℚ,
      (SwarmSim.computeFields b i p ps sc).viscosity
          = 4.5 + 32.0 * b + 6.5 * i + 10.0 * p ∧
      (SwarmSim.computeFields b i p ps sc).impedance
          = 1.0 + 70.0 * b + 12.0 * i + 14.0 * p ∧
      (SwarmSim.computeFields b i p ps sc).reflectance
          = 0.10 + 0.60 * b + 0.22 * i + 0.10 * p ∧
      (SwarmSim.computeFields b i p ps sc).strain
          = (if sc > 0.01 then
              (0.15 + 0.55 * p + 1.05 * ps) * max 0.35 (1.0 - 0.6 * sc)
            else 0.15 + 0.55 * p + 1.05 * ps) ∧
      (SwarmSim.computeFields b i p ps sc).viscNorm
          = clamp (((SwarmSim.computeFields b i p ps sc).viscosity - 4.5) / 40.0) 0 1 ∧
      (SwarmSim.computeFields b i p ps sc).impNorm
          = clamp (((SwarmSim.computeFields b i p ps sc).impedance - 1.0) / 95.0) 0 1 ∧
      (SwarmSim.computeFields b i p ps sc).reflNorm
          = clamp (((SwarmSim.computeFields b i p ps sc).reflectance - 0.10) / 0.75) 0 1 ∧
      (SwarmSim.computeFields b i p ps sc).strainNorm
          = clamp ((SwarmSim.computeFields b i p ps sc).strain / 1.2) 0 1 ∧
      (0 ≤ (SwarmSim.computeFields b i p ps sc).viscNorm ∧
        (SwarmSim.computeFields b i p ps sc).viscNorm ≤ 1) ∧
      (0 ≤ (SwarmSim.computeFields b i p ps sc).impNorm ∧
        (SwarmSim.computeFields b i p ps sc).impNorm ≤ 1) ∧
      (0 ≤ (SwarmSim.computeFields b i p ps sc).reflNorm ∧
        (SwarmSim.computeFields b i p ps sc).reflNorm ≤ 1) ∧
      (0 ≤ (SwarmSim.computeFields b i p ps sc).strainNorm ∧
        (SwarmSim.computeFields b i p ps sc).strainNorm ≤ 1)) ∧
    (∀ s₁ s₂ : SwarmSim.Seg, s₁.blockage = s₂.blockage →
      s₁.inflammation = s₂.inflammation → s₁.pooling = s₂.pooling →
      s₁.pressureSpike = s₂.pressureSpike → s₁.scaffold = s₂.scaffold →
      SwarmSim.computeFields s₁.blockage s₁.inflammation s₁.pooling s₁.pressureSpike
          s₁.scaffold
        = SwarmSim.computeFields s₂.blockage s₂.inflammation s₂.pooling s₂.pressureSpike
          s₂.scaffold) ∧
    (∀ segs : List SwarmSim.Seg,
      SwarmSim.computeStep segs = segs.map (fun s =>
        { s with fields := SwarmSim.computeFields s.blockage s.inflammation s.pooling s.pressureSpike s.scaffold })) ∧
    (∀ po re : ℚ,
      (FlowSim.computeSensors po re).viscosity = 4.5 + 28.0 * po + 18.0 * re ∧
      (FlowSim.computeSensors po re).impedance = 1.0 + 60.0 * po + 35.0 * re ∧
      (FlowSim.computeSensors po re).reflectance = 0.10 + 0.45 * po + 0.25 * re ∧
      (FlowSim.computeSensors po re).strain = 0.15 + 0.6 * po + 0.9 * re) := by
  refine ⟨?_, ?_, fun segs => rfl, fun po re => ⟨rfl, rfl, rfl, rfl⟩⟩
  · intro b i p ps sc
    exact ⟨rfl, rfl, rfl, rfl, rfl, rfl, rfl, rfl, SwarmSim.clamp01 _,
      SwarmSim.clamp01 _, SwarmSim.clamp01 _, SwarmSim.clamp01 _⟩
  · intro s₁ s₂ h1 h2 h3 h4 h5
    rw [h1, h2, h3, h4, h5]

/-- Witness: the amended sensor theorem instantiated at concrete scalars. -/
theorem sensor_fields_recomputed_witness :
    (SwarmSim.computeFields 0.5 0.5 0.5 0.5 0).viscosity
      = 4.5 + 32.0 * 0.5 + 6.5 * 0.5 + 10.0 * 0.5 :=
  (sensor_fields_recomputed.1 0.5 0.5 0.5 0.5 0).1

/-! ## Claim C7: the render routine -/

/-- C7 counterexample: rendering is *not* a function of the model state
alone, and does not leave it unchanged.  Rendering the same state (one
pristine trunk segment, one worker agent, overlay off) against two
render-rng streams produces different command sequences — the agent
jitter `render_rng.uniform(-0.8, 0.8)` moves the drawn agent — and the
returned segment list differs from the input, because `render_frame`
recomputes `seg.fields` in place. -/
theorem render_not_stateless :
    (SwarmSim.renderFrame 960 540 [SwarmSim.cexSeg] [SwarmSim.cexAgent]
        SwarmSim.SensorKind.viscosity false 0 (fun _ => 180) (fun _ => 0) 0).1
      ≠ (SwarmSim.renderFrame 960 540 [SwarmSim.cexSeg] [SwarmSim.cexAgent]
        SwarmSim.SensorKind.viscosity false 0 (fun _ => 180) (fun _ => 1/2) 0).1 ∧
    (SwarmSim.renderFrame 960 540 [SwarmSim.cexSeg] [SwarmSim.cexAgent]
        SwarmSim.SensorKind.viscosity false 0 (fun _ => 180) (fun _ => 0) 0).2.1
      ≠ [SwarmSim.cexSeg] := by
  constructor
  · decide
  · decide

/-- C7 (amended): the rendered command sequence is a function of the model
state, the overlay settings *and the render-rng stream position*; with the
rng stream fixed, rendering is deterministic, and its only effect on the
model is recomputing each segment's derived sensor fields from the
primary scalars — every primary scalar field is returned unchanged. -/
theorem render_deterministic_given_rng (width height : ℕ)
    (segs : List SwarmSim.Seg) (agents : List SwarmSim.Agent)
    (sk : SwarmSim.SensorKind) (ov : Bool) (ui : ℕ) (hyp : ℚ × ℚ → ℚ)
    (rq₁ rq₂ : ℕ → ℚ) (ridx : ℕ) (h : ∀ k, rq₁ k = rq₂ k) :
    SwarmSim.renderFrame width height segs agents sk ov ui hyp rq₁ ridx
      = SwarmSim.renderFrame width height segs agents sk ov ui hyp rq₂ ridx ∧
    (SwarmSim.renderFrame width height segs agents sk ov ui hyp rq₁ ridx).2.1
      = segs.map (fun s =>
        { s with fields := SwarmSim.computeFields s.blockage s.inflammation s.pooling s.pressureSpike s.scaffold }) ∧
    ((SwarmSim.renderFrame width height segs agents sk ov ui hyp rq₁ ridx).2.1).map
        (fun s => (s.blockage, s.inflammation, s.pooling, s.beacon, s.mapping,
          s.pressureSpike, s.scaffold))
      = segs.map (fun s => (s.blockage, s.inflammation, s.pooling, s.beacon, s.mapping,
          s.pressureSpike, s.scaffold)) := by
  have hq : rq₁ = rq₂ := funext h
  subst hq
  refine ⟨rfl, rfl, ?_⟩
  show ((segs.map _).map _) = _
  rw [List.map_map]
  rfl

/-- Witness: the render determinism theorem at a concrete state and a
concrete rng stream. -/
theorem render_deterministic_given_rng_witness :
    (∀ k : ℕ, (fun _ : ℕ => (0 : ℚ)) k = (fun _ : ℕ => (0 : ℚ)) k) ∧
    (SwarmSim.renderFrame 960 540 [SwarmSim.cexSeg] [SwarmSim.cexAgent]
        SwarmSim.SensorKind.viscosity false 0 (fun _ => 180) (fun _ => 0) 0
      = SwarmSim.renderFrame 960 540 [SwarmSim.cexSeg] [SwarmSim.cexAgent]
        SwarmSim.SensorKind.viscosity false 0 (fun _ => 180) (fun _ => 0) 0) :=
  ⟨fun _ => rfl,
    (render_deterministic_given_rng 960 540 [SwarmSim.cexSeg] [SwarmSim.cexAgent]
      SwarmSim.SensorKind.viscosity false 0 (fun _ => 180) (fun _ => 0) (fun _ => 0) 0
      (fun _ => rfl)).1⟩

end VeinSim
